import Mathlib

/-!
Verification of the dproj-rs core: the MSBuild-style condition grammar and
evaluator (`src/condition.rs`), the property-group resolution engine and the
byte-accurate source splicer (`src/dproj.rs`).  Rust functions are embedded
as Lean functions over explicit data; `HashMap<String, String>` is modelled
by an association list with provably unique keys (`SMap`), and fallible Rust
functions returning `Result` are modelled with `Except`.
-/

set_option maxHeartbeats 1600000

-- ═══════════════════════════════════════════════════════════════════════════
--  SMap : model of Rust HashMap<String, String>
--  (unordered keyed map; unique keys; insert overwrites; iteration order is
--  irrelevant to every embedded use, which only ever reads via lookups or
--  inserts each iterated entry under its own distinct key)
-- ═══════════════════════════════════════════════════════════════════════════

/-- Lookup in an association list: first entry with the given key wins. -/
def lookupEntries : List (String × String) → String → Option String
  | [], _ => none
  | (k, v) :: rest, key => if k = key then some v else lookupEntries rest key

/-- A string-keyed map with unique keys, modelling `HashMap<String, String>`. -/
structure SMap where
  entries : List (String × String)
  nodup_keys : (entries.map Prod.fst).Nodup

def SMap.empty : SMap := ⟨[], List.nodup_nil⟩

def SMap.get (m : SMap) (key : String) : Option String :=
  lookupEntries m.entries key

/-- `HashMap::insert`: overwrites any previous binding of `key`. -/
def SMap.insert (m : SMap) (key value : String) : SMap :=
  ⟨(key, value) :: m.entries.filter (fun p => p.1 ≠ key), by
    refine List.Nodup.cons ?_ (m.nodup_keys.sublist ((List.filter_sublist _).map Prod.fst))
    intro hmem
    rcases List.mem_map.mp hmem with ⟨p, hp, hfst⟩
    rcases List.mem_filter.mp hp with ⟨-, hne⟩
    exact (of_decide_eq_true hne) hfst⟩

/-- Insert a list of entries one by one (a Rust `for (k, v) in … { map.insert }` loop). -/
def smapInsertEntries (m : SMap) (l : List (String × String)) : SMap :=
  l.foldl (fun acc p => acc.insert p.1 p.2) m

theorem lookupEntries_cons (k0 v0 : String) (rest : List (String × String)) (key : String) :
    lookupEntries ((k0, v0) :: rest) key
      = if k0 = key then some v0 else lookupEntries rest key := rfl

theorem lookupEntries_filter_ne (l : List (String × String)) (k key : String)
    (h : k ≠ key) :
    lookupEntries (l.filter (fun p => p.1 ≠ k)) key = lookupEntries l key := by
  induction l with
  | nil => rfl
  | cons p rest ih =>
    rcases p with ⟨k0, v0⟩
    by_cases hk : k0 = k
    · have hfilter : List.filter (fun p => decide (p.1 ≠ k)) ((k0, v0) :: rest)
          = List.filter (fun p => decide (p.1 ≠ k)) rest := by
        rw [List.filter_cons]
        simp [hk]
      rw [hfilter, ih, lookupEntries_cons, if_neg (fun he => h (hk ▸ he))]
    · have hfilter : List.filter (fun p => decide (p.1 ≠ k)) ((k0, v0) :: rest)
          = (k0, v0) :: List.filter (fun p => decide (p.1 ≠ k)) rest := by
        rw [List.filter_cons]
        simp [hk]
      rw [hfilter, lookupEntries_cons, lookupEntries_cons, ih]

theorem SMap.get_insert (m : SMap) (k v key : String) :
    (m.insert k v).get key = if k = key then some v else m.get key := by
  show lookupEntries ((k, v) :: m.entries.filter (fun p => p.1 ≠ k)) key = _
  rw [lookupEntries_cons]
  by_cases h : k = key
  · rw [if_pos h, if_pos h]
  · rw [if_neg h, if_neg h]
    exact lookupEntries_filter_ne m.entries k key h

theorem lookupEntries_eq_none_of_not_mem (l : List (String × String)) (key : String)
    (h : key ∉ l.map Prod.fst) : lookupEntries l key = none := by
  induction l with
  | nil => rfl
  | cons p rest ih =>
    rcases p with ⟨k0, v0⟩
    simp only [List.map_cons, List.mem_cons] at h
    push_neg at h
    rw [lookupEntries_cons, if_neg (fun he => h.1 he.symm)]
    exact ih h.2

theorem smapInsertEntries_get (l : List (String × String))
    (hnd : (l.map Prod.fst).Nodup) (m : SMap) (key : String) :
    (smapInsertEntries m l).get key =
      match lookupEntries l key with
      | some v => some v
      | none => m.get key := by
  induction l generalizing m with
  | nil => rfl
  | cons p rest ih =>
    rcases p with ⟨k0, v0⟩
    simp only [List.map_cons, List.nodup_cons] at hnd
    have step : smapInsertEntries m ((k0, v0) :: rest)
        = smapInsertEntries (m.insert k0 v0) rest := rfl
    rw [step, ih hnd.2]
    by_cases hk : k0 = key
    · subst hk
      rw [lookupEntries_eq_none_of_not_mem rest k0 (by
          intro hmem
          exact hnd.1 hmem)]
      rw [lookupEntries_cons, if_pos rfl, SMap.get_insert, if_pos rfl]
    · rw [lookupEntries_cons, if_neg hk, SMap.get_insert, if_neg hk]

/-- Re-asserting a map's entries over another map preserves every binding of
the re-asserted map. -/
theorem smapInsertEntries_get_of_get (src m : SMap) (key v : String)
    (h : src.get key = some v) :
    (smapInsertEntries m src.entries).get key = some v := by
  rw [smapInsertEntries_get src.entries src.nodup_keys m key]
  unfold SMap.get at h
  rw [h]

-- ═══════════════════════════════════════════════════════════════════════════
--  src/condition.rs — AST
-- ═══════════════════════════════════════════════════════════════════════════

/-- A fragment of a string value that may contain `$(Variable)` references
(`ExprValue` in the source). -/
inductive ExprValue where
  | Literal (s : String)
  | Variable (name : String)
  deriving DecidableEq

/-- Comparison operator used inside a `Compare` (`CompareOp` in the source). -/
inductive CompareOp where
  | Equal
  | NotEqual
  deriving DecidableEq

/-- A parsed MSBuild condition expression (`Expression` in the source). -/
inductive Expression where
  | Compare (lhs : List ExprValue) (op : CompareOp) (rhs : List ExprValue)
  | Exists (parts : List ExprValue)
  | And (a b : Expression)
  | Or (a b : Expression)
  deriving DecidableEq

-- ═══════════════════════════════════════════════════════════════════════════
--  src/condition.rs — parse_string_parts
-- ═══════════════════════════════════════════════════════════════════════════

/-- Worker for `parse_string_parts`: `lit` is the pending literal accumulator,
`cs` the remaining characters.  A `$` immediately followed by `(` starts a
variable reference whose name is everything up to (and consuming) the next
`)`; with no `)` the name extends to the end of the input.  This mirrors the
Rust loop: `chars.next()` with `chars.peek()` look-ahead, and
`take_while(|&ch| ch != ')')` which also consumes the terminating `)`. -/
def psp_aux (lit : List Char) (cs : List Char) : List ExprValue :=
  match cs with
  | [] => if lit = [] then [] else [ExprValue.Literal (String.mk lit)]
  | [c] => psp_aux (lit ++ [c]) []
  | c1 :: c2 :: rest =>
    if c1 = '$' ∧ c2 = '(' then
      let name := rest.takeWhile (fun ch => ch ≠ ')')
      let rest2 := (rest.dropWhile (fun ch => ch ≠ ')')).drop 1
      (if lit = [] then [] else [ExprValue.Literal (String.mk lit)]) ++
        ExprValue.Variable (String.mk name) :: psp_aux [] rest2
    else
      psp_aux (lit ++ [c1]) (c2 :: rest)
termination_by cs.length
decreasing_by
  · simp
  · simp only [List.length_cons]
    have h1 : (rest.dropWhile (fun ch => ch ≠ ')')).length ≤ rest.length :=
      List.Sublist.length_le (List.dropWhile_sublist _)
    have h2 : ((rest.dropWhile (fun ch => ch ≠ ')')).drop 1).length
        ≤ (rest.dropWhile (fun ch => ch ≠ ')')).length :=
      List.Sublist.length_le (List.drop_sublist _ _)
    omega
  · simp

/-- Split the raw text between single quotes into fragments
(`parse_string_parts` in the source). -/
def parse_string_parts (s : String) : List ExprValue :=
  psp_aux [] s.data

-- ═══════════════════════════════════════════════════════════════════════════
--  src/condition.rs — evaluation
-- ═══════════════════════════════════════════════════════════════════════════

/-- Expand `$(Var)` references in a parsed string expression; unknown
variables expand to the empty string (`expand_string` in the source). -/
def expand_string (parts : List ExprValue) (vars : SMap) : String :=
  parts.foldl
    (fun acc part =>
      match part with
      | ExprValue.Literal s => acc ++ s
      | ExprValue.Variable name =>
        match vars.get name with
        | some v => acc ++ v
        | none => acc ++ "")
    ""

/-- Evaluate a condition expression against a set of variable bindings;
`Exists(…)` always evaluates to `true` (`evaluate` in the source). -/
def evaluate : Expression → SMap → Bool
  | Expression.Compare lhs op rhs, vars =>
    let l := expand_string lhs vars
    let r := expand_string rhs vars
    (match op with
     | CompareOp.Equal => l == r
     | CompareOp.NotEqual => l != r)
  | Expression.Exists _, _ => true
  | Expression.And a b, vars => evaluate a vars && evaluate b vars
  | Expression.Or a b, vars => evaluate a vars || evaluate b vars

-- ═══════════════════════════════════════════════════════════════════════════
--  src/dproj.rs — helpers
-- ═══════════════════════════════════════════════════════════════════════════

/-- Does the character list contain the two-character sequence `$(`?
(models Rust `str::contains("$(")`, used as a fast path before expansion). -/
def hasVarStart : List Char → Bool
  | [] => false
  | [_] => false
  | c1 :: c2 :: rest => (c1 = '$' && c2 = '(') || hasVarStart (c2 :: rest)

/-- `expand_msbuild_vars` from src/dproj.rs, on character lists: replace each
`$(Name)` with its value from `vars` (or nothing when unknown); a `$(` with no
closing `)` consumes the rest of the input as the variable name. -/
def expandChars (vars : SMap) (cs : List Char) : List Char :=
  match cs with
  | [] => []
  | [c] => [c]
  | c1 :: c2 :: rest =>
    if c1 = '$' ∧ c2 = '(' then
      let name := rest.takeWhile (fun ch => ch ≠ ')')
      let rest2 := (rest.dropWhile (fun ch => ch ≠ ')')).drop 1
      (match vars.get (String.mk name) with
       | some v => v.data
       | none => []) ++ expandChars vars rest2
    else
      c1 :: expandChars vars (c2 :: rest)
termination_by cs.length
decreasing_by
  · simp only [List.length_cons]
    have h1 : (rest.dropWhile (fun ch => ch ≠ ')')).length ≤ rest.length :=
      List.Sublist.length_le (List.dropWhile_sublist _)
    have h2 : ((rest.dropWhile (fun ch => ch ≠ ')')).drop 1).length
        ≤ (rest.dropWhile (fun ch => ch ≠ ')')).length :=
      List.Sublist.length_le (List.drop_sublist _ _)
    omega
  · simp

/-- `expand_msbuild_vars` from src/dproj.rs. -/
def expand_msbuild_vars (s : String) (vars : SMap) : String :=
  String.mk (expandChars vars s.data)

/-- One field of the expand_options! macro: expand a `Some` string field when
it contains `$(` (the fast-path check in the source), leave `None` alone. -/
def expandOpt (v : Option String) (vars : SMap) : Option String :=
  match v with
  | some s => some (if hasVarStart s.data then expand_msbuild_vars s vars else s)
  | none => none

/-- One field of the merge_options! macro: `if other.field.is_some() that
field overwrites self's field`. -/
def mergeOpt (a b : Option String) : Option String :=
  match b with
  | some v => some v
  | none => a

/-- One field of the collect_tag_values! macro: insert the field under its
tag name when it is `Some`. -/
def insertIfSome (vars : SMap) (tag : String) (v : Option String) : SMap :=
  match v with
  | some s => vars.insert tag s
  | none => vars

theorem map_fst_map_pair {α β γ : Type} (l : List (α × β)) (g : α × β → γ) :
    (l.map (fun p => (p.1, g p))).map Prod.fst = l.map Prod.fst := by
  induction l with
  | nil => rfl
  | cons p rest ih => simp [ih]

/-- Expand every value of a map in place (the `values_mut` loop of
`DccOptions::expand_vars` in the source). -/
def smapExpandValues (m : SMap) (vars : SMap) : SMap :=
  ⟨m.entries.map (fun p =>
      (p.1, if hasVarStart p.2.data then expand_msbuild_vars p.2 vars else p.2)), by
    rw [map_fst_map_pair]
    exact m.nodup_keys⟩

-- ═══════════════════════════════════════════════════════════════════════════
--  src/dproj.rs — typed property structures and their tag tables
--  (renamed fields, their Rust originals being keywords here:
--   namespace_ for namespace, private_ for private, extended_stx for the
--   DCC_ExtendedSyntax field)
-- ═══════════════════════════════════════════════════════════════════════════

/-- `ProjectProperties` from src/dproj.rs: every value field is `Option String`. -/
structure ProjectProperties where
  project_guid : Option String := none
  project_version : Option String := none
  version : Option String := none
  framework_type : Option String := none
  config : Option String := none
  configuration : Option String := none
  platform : Option String := none
  project_name : Option String := none
  targeted_platforms : Option String := none
  app_type : Option String := none
  main_source : Option String := none
  base : Option String := none
  cfg_parent : Option String := none
  sanitized_project_name : Option String := none
  custom_styles : Option String := none
  gen_package : Option String := none
  gen_dll : Option String := none
  use_packages : Option String := none
  icon_main_icon : Option String := none
  icns_main_icns : Option String := none

/-- `ProjectProperties::merge_from`: a field that is `Some` in `o` overwrites the
corresponding field of `self` (the merge_options! macro in the source). -/
def ProjectProperties.merge_from (self o : ProjectProperties) : ProjectProperties :=
  {
    project_guid := mergeOpt self.project_guid o.project_guid,
    project_version := mergeOpt self.project_version o.project_version,
    version := mergeOpt self.version o.version,
    framework_type := mergeOpt self.framework_type o.framework_type,
    config := mergeOpt self.config o.config,
    configuration := mergeOpt self.configuration o.configuration,
    platform := mergeOpt self.platform o.platform,
    project_name := mergeOpt self.project_name o.project_name,
    targeted_platforms := mergeOpt self.targeted_platforms o.targeted_platforms,
    app_type := mergeOpt self.app_type o.app_type,
    main_source := mergeOpt self.main_source o.main_source,
    base := mergeOpt self.base o.base,
    cfg_parent := mergeOpt self.cfg_parent o.cfg_parent,
    sanitized_project_name := mergeOpt self.sanitized_project_name o.sanitized_project_name,
    custom_styles := mergeOpt self.custom_styles o.custom_styles,
    gen_package := mergeOpt self.gen_package o.gen_package,
    gen_dll := mergeOpt self.gen_dll o.gen_dll,
    use_packages := mergeOpt self.use_packages o.use_packages,
    icon_main_icon := mergeOpt self.icon_main_icon o.icon_main_icon,
    icns_main_icns := mergeOpt self.icns_main_icns o.icns_main_icns
  }

/-- `ProjectProperties::expand_vars` (the expand_options! macro in the source). -/
def ProjectProperties.expand_vars (x : ProjectProperties) (vars : SMap) : ProjectProperties :=
  {
    project_guid := expandOpt x.project_guid vars,
    project_version := expandOpt x.project_version vars,
    version := expandOpt x.version vars,
    framework_type := expandOpt x.framework_type vars,
    config := expandOpt x.config vars,
    configuration := expandOpt x.configuration vars,
    platform := expandOpt x.platform vars,
    project_name := expandOpt x.project_name vars,
    targeted_platforms := expandOpt x.targeted_platforms vars,
    app_type := expandOpt x.app_type vars,
    main_source := expandOpt x.main_source vars,
    base := expandOpt x.base vars,
    cfg_parent := expandOpt x.cfg_parent vars,
    sanitized_project_name := expandOpt x.sanitized_project_name vars,
    custom_styles := expandOpt x.custom_styles vars,
    gen_package := expandOpt x.gen_package vars,
    gen_dll := expandOpt x.gen_dll vars,
    use_packages := expandOpt x.use_packages vars,
    icon_main_icon := expandOpt x.icon_main_icon vars,
    icns_main_icns := expandOpt x.icns_main_icns vars
  }

/-- `ProjectProperties::collect_into_vars` (the collect_tag_values! macro in the source). -/
def ProjectProperties.collect_into_vars (x : ProjectProperties) (vars : SMap) : SMap :=
  let v := insertIfSome vars "ProjectGuid" x.project_guid
  let v := insertIfSome v "ProjectVersion" x.project_version
  let v := insertIfSome v "Version" x.version
  let v := insertIfSome v "FrameworkType" x.framework_type
  let v := insertIfSome v "Config" x.config
  let v := insertIfSome v "Configuration" x.configuration
  let v := insertIfSome v "Platform" x.platform
  let v := insertIfSome v "ProjectName" x.project_name
  let v := insertIfSome v "TargetedPlatforms" x.targeted_platforms
  let v := insertIfSome v "AppType" x.app_type
  let v := insertIfSome v "MainSource" x.main_source
  let v := insertIfSome v "Base" x.base
  let v := insertIfSome v "CfgParent" x.cfg_parent
  let v := insertIfSome v "SanitizedProjectName" x.sanitized_project_name
  let v := insertIfSome v "Custom_Styles" x.custom_styles
  let v := insertIfSome v "GenPackage" x.gen_package
  let v := insertIfSome v "GenDll" x.gen_dll
  let v := insertIfSome v "UsePackages" x.use_packages
  let v := insertIfSome v "Icon_MainIcon" x.icon_main_icon
  let v := insertIfSome v "Icns_MainIcns" x.icns_main_icns
  v

/-- `set_project_property` from src/dproj.rs: `some` of the updated struct when the tag
matched (Rust returns `true` and mutates in place), `none` otherwise. -/
def set_project_property (tag text : String) (x : ProjectProperties) : Option ProjectProperties :=
  if tag = "ProjectGuid" then some { x with project_guid := some text }
    else if tag = "ProjectVersion" then some { x with project_version := some text }
    else if tag = "Version" then some { x with version := some text }
    else if tag = "FrameworkType" then some { x with framework_type := some text }
    else if tag = "Config" then some { x with config := some text }
    else if tag = "Configuration" then some { x with configuration := some text }
    else if tag = "Platform" then some { x with platform := some text }
    else if tag = "ProjectName" then some { x with project_name := some text }
    else if tag = "TargetedPlatforms" then some { x with targeted_platforms := some text }
    else if tag = "AppType" then some { x with app_type := some text }
    else if tag = "MainSource" then some { x with main_source := some text }
    else if tag = "Base" then some { x with base := some text }
    else if tag = "CfgParent" then some { x with cfg_parent := some text }
    else if tag = "SanitizedProjectName" then some { x with sanitized_project_name := some text }
    else if tag = "Custom_Styles" then some { x with custom_styles := some text }
    else if tag = "GenPackage" then some { x with gen_package := some text }
    else if tag = "GenDll" then some { x with gen_dll := some text }
    else if tag = "UsePackages" then some { x with use_packages := some text }
    else if tag = "Icon_MainIcon" then some { x with icon_main_icon := some text }
    else if tag = "Icns_MainIcns" then some { x with icns_main_icns := some text }
    else none

/-- Read the `ProjectProperties` value stored under an XML tag name (mirror of the
tag table of `set_project_property` / `collect_into_vars`). -/
def ProjectProperties.get_tag (x : ProjectProperties) (tag : String) : Option String :=
  if tag = "ProjectGuid" then x.project_guid
    else if tag = "ProjectVersion" then x.project_version
    else if tag = "Version" then x.version
    else if tag = "FrameworkType" then x.framework_type
    else if tag = "Config" then x.config
    else if tag = "Configuration" then x.configuration
    else if tag = "Platform" then x.platform
    else if tag = "ProjectName" then x.project_name
    else if tag = "TargetedPlatforms" then x.targeted_platforms
    else if tag = "AppType" then x.app_type
    else if tag = "MainSource" then x.main_source
    else if tag = "Base" then x.base
    else if tag = "CfgParent" then x.cfg_parent
    else if tag = "SanitizedProjectName" then x.sanitized_project_name
    else if tag = "Custom_Styles" then x.custom_styles
    else if tag = "GenPackage" then x.gen_package
    else if tag = "GenDll" then x.gen_dll
    else if tag = "UsePackages" then x.use_packages
    else if tag = "Icon_MainIcon" then x.icon_main_icon
    else if tag = "Icns_MainIcns" then x.icns_main_icns
    else none

/-- `DccOptions` from src/dproj.rs: every value field is `Option String`. -/
structure DccOptions where
  dcc_compiler : Option String := none
  dependency_check_output_name : Option String := none
  dcu_output : Option String := none
  exe_output : Option String := none
  dcp_output : Option String := none
  bpl_output : Option String := none
  obj_output : Option String := none
  hpp_output : Option String := none
  bpi_output : Option String := none
  cbuilder_output : Option String := none
  unit_search_path : Option String := none
  resource_path : Option String := none
  include_path : Option String := none
  obj_path : Option String := none
  framework_path : Option String := none
  sys_lib_root : Option String := none
  define : Option String := none
  namespace_ : Option String := none
  unit_alias : Option String := none
  use_package : Option String := none
  optimize : Option String := none
  alignment : Option String := none
  minimum_enum_size : Option String := none
  code_page : Option String := none
  inlining : Option String := none
  generate_stack_frames : Option String := none
  generate_pic_code : Option String := none
  generate_android_app_bundle_file : Option String := none
  generate_osx_universal_binary_file : Option String := none
  e : Option String := none
  n : Option String := none
  s : Option String := none
  f : Option String := none
  k : Option String := none
  extended_stx : Option String := none
  long_strings : Option String := none
  open_string_params : Option String := none
  strict_var_strings : Option String := none
  typed_at_parameter : Option String := none
  full_boolean_evaluations : Option String := none
  writeable_constants : Option String := none
  run_time_type_info : Option String := none
  pentium_safe_divide : Option String := none
  io_checking : Option String := none
  integer_overflow_check : Option String := none
  range_checking : Option String := none
  assertions_at_runtime : Option String := none
  imported_data_references : Option String := none
  debug_information : Option String := none
  local_debug_symbols : Option String := none
  symbol_reference_info : Option String := none
  debug_dcus : Option String := none
  debug_info_in_exe : Option String := none
  debug_info_in_tds : Option String := none
  debug_vn : Option String := none
  remote_debug : Option String := none
  hints : Option String := none
  warnings : Option String := none
  show_general_messages : Option String := none
  console_target : Option String := none
  description : Option String := none
  additional_switches : Option String := none
  linker_options : Option String := none
  image_base : Option String := none
  map_file : Option String := none
  map_file_arm : Option String := none
  stack_size : Option String := none
  max_stack_size : Option String := none
  min_stack_size : Option String := none
  base_address : Option String := none
  pe_flags : Option String := none
  pe_opt_flags : Option String := none
  pe_os_version : Option String := none
  pe_sub_sys_version : Option String := none
  pe_user_version : Option String := none
  nx_compat : Option String := none
  dynamic_base : Option String := none
  high_entropy_va : Option String := none
  ts_aware : Option String := none
  large_address_aware : Option String := none
  allow_undefined : Option String := none
  output_xml_documentation : Option String := none
  output_dependencies : Option String := none
  output_drc_file : Option String := none
  old_dos_file_names : Option String := none
  xml_output : Option String := none
  remove_tmp_lnk_file : Option String := none
  include_dcus_in_uses_completion : Option String := none
  use_msbuild_externally : Option String := none
  legacy_ifend : Option String := none
  hpp_output_arm : Option String := none
  ios_minimum_version : Option String := none
  macos_arm_minimum_version : Option String := none
  macos_minimum_version : Option String := none
  warning_directives : SMap := SMap.empty

/-- `DccOptions::merge_from`: a field that is `Some` in `o` overwrites the
corresponding field of `self` (the merge_options! macro in the source). -/
def DccOptions.merge_from (self o : DccOptions) : DccOptions :=
  {
    dcc_compiler := mergeOpt self.dcc_compiler o.dcc_compiler,
    dependency_check_output_name := mergeOpt self.dependency_check_output_name o.dependency_check_output_name,
    dcu_output := mergeOpt self.dcu_output o.dcu_output,
    exe_output := mergeOpt self.exe_output o.exe_output,
    dcp_output := mergeOpt self.dcp_output o.dcp_output,
    bpl_output := mergeOpt self.bpl_output o.bpl_output,
    obj_output := mergeOpt self.obj_output o.obj_output,
    hpp_output := mergeOpt self.hpp_output o.hpp_output,
    bpi_output := mergeOpt self.bpi_output o.bpi_output,
    cbuilder_output := mergeOpt self.cbuilder_output o.cbuilder_output,
    unit_search_path := mergeOpt self.unit_search_path o.unit_search_path,
    resource_path := mergeOpt self.resource_path o.resource_path,
    include_path := mergeOpt self.include_path o.include_path,
    obj_path := mergeOpt self.obj_path o.obj_path,
    framework_path := mergeOpt self.framework_path o.framework_path,
    sys_lib_root := mergeOpt self.sys_lib_root o.sys_lib_root,
    define := mergeOpt self.define o.define,
    namespace_ := mergeOpt self.namespace_ o.namespace_,
    unit_alias := mergeOpt self.unit_alias o.unit_alias,
    use_package := mergeOpt self.use_package o.use_package,
    optimize := mergeOpt self.optimize o.optimize,
    alignment := mergeOpt self.alignment o.alignment,
    minimum_enum_size := mergeOpt self.minimum_enum_size o.minimum_enum_size,
    code_page := mergeOpt self.code_page o.code_page,
    inlining := mergeOpt self.inlining o.inlining,
    generate_stack_frames := mergeOpt self.generate_stack_frames o.generate_stack_frames,
    generate_pic_code := mergeOpt self.generate_pic_code o.generate_pic_code,
    generate_android_app_bundle_file := mergeOpt self.generate_android_app_bundle_file o.generate_android_app_bundle_file,
    generate_osx_universal_binary_file := mergeOpt self.generate_osx_universal_binary_file o.generate_osx_universal_binary_file,
    e := mergeOpt self.e o.e,
    n := mergeOpt self.n o.n,
    s := mergeOpt self.s o.s,
    f := mergeOpt self.f o.f,
    k := mergeOpt self.k o.k,
    extended_stx := mergeOpt self.extended_stx o.extended_stx,
    long_strings := mergeOpt self.long_strings o.long_strings,
    open_string_params := mergeOpt self.open_string_params o.open_string_params,
    strict_var_strings := mergeOpt self.strict_var_strings o.strict_var_strings,
    typed_at_parameter := mergeOpt self.typed_at_parameter o.typed_at_parameter,
    full_boolean_evaluations := mergeOpt self.full_boolean_evaluations o.full_boolean_evaluations,
    writeable_constants := mergeOpt self.writeable_constants o.writeable_constants,
    run_time_type_info := mergeOpt self.run_time_type_info o.run_time_type_info,
    pentium_safe_divide := mergeOpt self.pentium_safe_divide o.pentium_safe_divide,
    io_checking := mergeOpt self.io_checking o.io_checking,
    integer_overflow_check := mergeOpt self.integer_overflow_check o.integer_overflow_check,
    range_checking := mergeOpt self.range_checking o.range_checking,
    assertions_at_runtime := mergeOpt self.assertions_at_runtime o.assertions_at_runtime,
    imported_data_references := mergeOpt self.imported_data_references o.imported_data_references,
    debug_information := mergeOpt self.debug_information o.debug_information,
    local_debug_symbols := mergeOpt self.local_debug_symbols o.local_debug_symbols,
    symbol_reference_info := mergeOpt self.symbol_reference_info o.symbol_reference_info,
    debug_dcus := mergeOpt self.debug_dcus o.debug_dcus,
    debug_info_in_exe := mergeOpt self.debug_info_in_exe o.debug_info_in_exe,
    debug_info_in_tds := mergeOpt self.debug_info_in_tds o.debug_info_in_tds,
    debug_vn := mergeOpt self.debug_vn o.debug_vn,
    remote_debug := mergeOpt self.remote_debug o.remote_debug,
    hints := mergeOpt self.hints o.hints,
    warnings := mergeOpt self.warnings o.warnings,
    show_general_messages := mergeOpt self.show_general_messages o.show_general_messages,
    console_target := mergeOpt self.console_target o.console_target,
    description := mergeOpt self.description o.description,
    additional_switches := mergeOpt self.additional_switches o.additional_switches,
    linker_options := mergeOpt self.linker_options o.linker_options,
    image_base := mergeOpt self.image_base o.image_base,
    map_file := mergeOpt self.map_file o.map_file,
    map_file_arm := mergeOpt self.map_file_arm o.map_file_arm,
    stack_size := mergeOpt self.stack_size o.stack_size,
    max_stack_size := mergeOpt self.max_stack_size o.max_stack_size,
    min_stack_size := mergeOpt self.min_stack_size o.min_stack_size,
    base_address := mergeOpt self.base_address o.base_address,
    pe_flags := mergeOpt self.pe_flags o.pe_flags,
    pe_opt_flags := mergeOpt self.pe_opt_flags o.pe_opt_flags,
    pe_os_version := mergeOpt self.pe_os_version o.pe_os_version,
    pe_sub_sys_version := mergeOpt self.pe_sub_sys_version o.pe_sub_sys_version,
    pe_user_version := mergeOpt self.pe_user_version o.pe_user_version,
    nx_compat := mergeOpt self.nx_compat o.nx_compat,
    dynamic_base := mergeOpt self.dynamic_base o.dynamic_base,
    high_entropy_va := mergeOpt self.high_entropy_va o.high_entropy_va,
    ts_aware := mergeOpt self.ts_aware o.ts_aware,
    large_address_aware := mergeOpt self.large_address_aware o.large_address_aware,
    allow_undefined := mergeOpt self.allow_undefined o.allow_undefined,
    output_xml_documentation := mergeOpt self.output_xml_documentation o.output_xml_documentation,
    output_dependencies := mergeOpt self.output_dependencies o.output_dependencies,
    output_drc_file := mergeOpt self.output_drc_file o.output_drc_file,
    old_dos_file_names := mergeOpt self.old_dos_file_names o.old_dos_file_names,
    xml_output := mergeOpt self.xml_output o.xml_output,
    remove_tmp_lnk_file := mergeOpt self.remove_tmp_lnk_file o.remove_tmp_lnk_file,
    include_dcus_in_uses_completion := mergeOpt self.include_dcus_in_uses_completion o.include_dcus_in_uses_completion,
    use_msbuild_externally := mergeOpt self.use_msbuild_externally o.use_msbuild_externally,
    legacy_ifend := mergeOpt self.legacy_ifend o.legacy_ifend,
    hpp_output_arm := mergeOpt self.hpp_output_arm o.hpp_output_arm,
    ios_minimum_version := mergeOpt self.ios_minimum_version o.ios_minimum_version,
    macos_arm_minimum_version := mergeOpt self.macos_arm_minimum_version o.macos_arm_minimum_version,
    macos_minimum_version := mergeOpt self.macos_minimum_version o.macos_minimum_version,
    warning_directives := smapInsertEntries self.warning_directives o.warning_directives.entries
  }

/-- `DccOptions::expand_vars` (the expand_options! macro in the source). -/
def DccOptions.expand_vars (x : DccOptions) (vars : SMap) : DccOptions :=
  {
    dcc_compiler := expandOpt x.dcc_compiler vars,
    dependency_check_output_name := expandOpt x.dependency_check_output_name vars,
    dcu_output := expandOpt x.dcu_output vars,
    exe_output := expandOpt x.exe_output vars,
    dcp_output := expandOpt x.dcp_output vars,
    bpl_output := expandOpt x.bpl_output vars,
    obj_output := expandOpt x.obj_output vars,
    hpp_output := expandOpt x.hpp_output vars,
    bpi_output := expandOpt x.bpi_output vars,
    cbuilder_output := expandOpt x.cbuilder_output vars,
    unit_search_path := expandOpt x.unit_search_path vars,
    resource_path := expandOpt x.resource_path vars,
    include_path := expandOpt x.include_path vars,
    obj_path := expandOpt x.obj_path vars,
    framework_path := expandOpt x.framework_path vars,
    sys_lib_root := expandOpt x.sys_lib_root vars,
    define := expandOpt x.define vars,
    namespace_ := expandOpt x.namespace_ vars,
    unit_alias := expandOpt x.unit_alias vars,
    use_package := expandOpt x.use_package vars,
    optimize := expandOpt x.optimize vars,
    alignment := expandOpt x.alignment vars,
    minimum_enum_size := expandOpt x.minimum_enum_size vars,
    code_page := expandOpt x.code_page vars,
    inlining := expandOpt x.inlining vars,
    generate_stack_frames := expandOpt x.generate_stack_frames vars,
    generate_pic_code := expandOpt x.generate_pic_code vars,
    generate_android_app_bundle_file := expandOpt x.generate_android_app_bundle_file vars,
    generate_osx_universal_binary_file := expandOpt x.generate_osx_universal_binary_file vars,
    e := expandOpt x.e vars,
    n := expandOpt x.n vars,
    s := expandOpt x.s vars,
    f := expandOpt x.f vars,
    k := expandOpt x.k vars,
    extended_stx := expandOpt x.extended_stx vars,
    long_strings := expandOpt x.long_strings vars,
    open_string_params := expandOpt x.open_string_params vars,
    strict_var_strings := expandOpt x.strict_var_strings vars,
    typed_at_parameter := expandOpt x.typed_at_parameter vars,
    full_boolean_evaluations := expandOpt x.full_boolean_evaluations vars,
    writeable_constants := expandOpt x.writeable_constants vars,
    run_time_type_info := expandOpt x.run_time_type_info vars,
    pentium_safe_divide := expandOpt x.pentium_safe_divide vars,
    io_checking := expandOpt x.io_checking vars,
    integer_overflow_check := expandOpt x.integer_overflow_check vars,
    range_checking := expandOpt x.range_checking vars,
    assertions_at_runtime := expandOpt x.assertions_at_runtime vars,
    imported_data_references := expandOpt x.imported_data_references vars,
    debug_information := expandOpt x.debug_information vars,
    local_debug_symbols := expandOpt x.local_debug_symbols vars,
    symbol_reference_info := expandOpt x.symbol_reference_info vars,
    debug_dcus := expandOpt x.debug_dcus vars,
    debug_info_in_exe := expandOpt x.debug_info_in_exe vars,
    debug_info_in_tds := expandOpt x.debug_info_in_tds vars,
    debug_vn := expandOpt x.debug_vn vars,
    remote_debug := expandOpt x.remote_debug vars,
    hints := expandOpt x.hints vars,
    warnings := expandOpt x.warnings vars,
    show_general_messages := expandOpt x.show_general_messages vars,
    console_target := expandOpt x.console_target vars,
    description := expandOpt x.description vars,
    additional_switches := expandOpt x.additional_switches vars,
    linker_options := expandOpt x.linker_options vars,
    image_base := expandOpt x.image_base vars,
    map_file := expandOpt x.map_file vars,
    map_file_arm := expandOpt x.map_file_arm vars,
    stack_size := expandOpt x.stack_size vars,
    max_stack_size := expandOpt x.max_stack_size vars,
    min_stack_size := expandOpt x.min_stack_size vars,
    base_address := expandOpt x.base_address vars,
    pe_flags := expandOpt x.pe_flags vars,
    pe_opt_flags := expandOpt x.pe_opt_flags vars,
    pe_os_version := expandOpt x.pe_os_version vars,
    pe_sub_sys_version := expandOpt x.pe_sub_sys_version vars,
    pe_user_version := expandOpt x.pe_user_version vars,
    nx_compat := expandOpt x.nx_compat vars,
    dynamic_base := expandOpt x.dynamic_base vars,
    high_entropy_va := expandOpt x.high_entropy_va vars,
    ts_aware := expandOpt x.ts_aware vars,
    large_address_aware := expandOpt x.large_address_aware vars,
    allow_undefined := expandOpt x.allow_undefined vars,
    output_xml_documentation := expandOpt x.output_xml_documentation vars,
    output_dependencies := expandOpt x.output_dependencies vars,
    output_drc_file := expandOpt x.output_drc_file vars,
    old_dos_file_names := expandOpt x.old_dos_file_names vars,
    xml_output := expandOpt x.xml_output vars,
    remove_tmp_lnk_file := expandOpt x.remove_tmp_lnk_file vars,
    include_dcus_in_uses_completion := expandOpt x.include_dcus_in_uses_completion vars,
    use_msbuild_externally := expandOpt x.use_msbuild_externally vars,
    legacy_ifend := expandOpt x.legacy_ifend vars,
    hpp_output_arm := expandOpt x.hpp_output_arm vars,
    ios_minimum_version := expandOpt x.ios_minimum_version vars,
    macos_arm_minimum_version := expandOpt x.macos_arm_minimum_version vars,
    macos_minimum_version := expandOpt x.macos_minimum_version vars,
    warning_directives := smapExpandValues x.warning_directives vars
  }

/-- `DccOptions::collect_into_vars` (the collect_tag_values! macro in the source). -/
def DccOptions.collect_into_vars (x : DccOptions) (vars : SMap) : SMap :=
  let v := insertIfSome vars "DCC_DCCCompiler" x.dcc_compiler
  let v := insertIfSome v "DCC_DependencyCheckOutputName" x.dependency_check_output_name
  let v := insertIfSome v "DCC_DcuOutput" x.dcu_output
  let v := insertIfSome v "DCC_ExeOutput" x.exe_output
  let v := insertIfSome v "DCC_DcpOutput" x.dcp_output
  let v := insertIfSome v "DCC_BplOutput" x.bpl_output
  let v := insertIfSome v "DCC_ObjOutput" x.obj_output
  let v := insertIfSome v "DCC_HppOutput" x.hpp_output
  let v := insertIfSome v "DCC_BpiOutput" x.bpi_output
  let v := insertIfSome v "DCC_CBuilderOutput" x.cbuilder_output
  let v := insertIfSome v "DCC_UnitSearchPath" x.unit_search_path
  let v := insertIfSome v "DCC_ResourcePath" x.resource_path
  let v := insertIfSome v "DCC_IncludePath" x.include_path
  let v := insertIfSome v "DCC_ObjPath" x.obj_path
  let v := insertIfSome v "DCC_FrameworkPath" x.framework_path
  let v := insertIfSome v "DCC_SysLibRoot" x.sys_lib_root
  let v := insertIfSome v "DCC_Define" x.define
  let v := insertIfSome v "DCC_Namespace" x.namespace_
  let v := insertIfSome v "DCC_UnitAlias" x.unit_alias
  let v := insertIfSome v "DCC_UsePackage" x.use_package
  let v := insertIfSome v "DCC_Optimize" x.optimize
  let v := insertIfSome v "DCC_Alignment" x.alignment
  let v := insertIfSome v "DCC_MinimumEnumSize" x.minimum_enum_size
  let v := insertIfSome v "DCC_CodePage" x.code_page
  let v := insertIfSome v "DCC_Inlining" x.inlining
  let v := insertIfSome v "DCC_GenerateStackFrames" x.generate_stack_frames
  let v := insertIfSome v "DCC_GeneratePICCode" x.generate_pic_code
  let v := insertIfSome v "DCC_GenerateAndroidAppBundleFile" x.generate_android_app_bundle_file
  let v := insertIfSome v "DCC_GenerateOSXUniversalBinaryFile" x.generate_osx_universal_binary_file
  let v := insertIfSome v "DCC_E" x.e
  let v := insertIfSome v "DCC_N" x.n
  let v := insertIfSome v "DCC_S" x.s
  let v := insertIfSome v "DCC_F" x.f
  let v := insertIfSome v "DCC_K" x.k
  let v := insertIfSome v "DCC_ExtendedSyntax" x.extended_stx
  let v := insertIfSome v "DCC_LongStrings" x.long_strings
  let v := insertIfSome v "DCC_OpenStringParams" x.open_string_params
  let v := insertIfSome v "DCC_StrictVarStrings" x.strict_var_strings
  let v := insertIfSome v "DCC_TypedAtParameter" x.typed_at_parameter
  let v := insertIfSome v "DCC_FullBooleanEvaluations" x.full_boolean_evaluations
  let v := insertIfSome v "DCC_WriteableConstants" x.writeable_constants
  let v := insertIfSome v "DCC_RunTimeTypeInfo" x.run_time_type_info
  let v := insertIfSome v "DCC_PentiumSafeDivide" x.pentium_safe_divide
  let v := insertIfSome v "DCC_IOChecking" x.io_checking
  let v := insertIfSome v "DCC_IntegerOverflowCheck" x.integer_overflow_check
  let v := insertIfSome v "DCC_RangeChecking" x.range_checking
  let v := insertIfSome v "DCC_AssertionsAtRuntime" x.assertions_at_runtime
  let v := insertIfSome v "DCC_ImportedDataReferences" x.imported_data_references
  let v := insertIfSome v "DCC_DebugInformation" x.debug_information
  let v := insertIfSome v "DCC_LocalDebugSymbols" x.local_debug_symbols
  let v := insertIfSome v "DCC_SymbolReferenceInfo" x.symbol_reference_info
  let v := insertIfSome v "DCC_DebugDCUs" x.debug_dcus
  let v := insertIfSome v "DCC_DebugInfoInExe" x.debug_info_in_exe
  let v := insertIfSome v "DCC_DebugInfoInTds" x.debug_info_in_tds
  let v := insertIfSome v "DCC_DebugVN" x.debug_vn
  let v := insertIfSome v "DCC_RemoteDebug" x.remote_debug
  let v := insertIfSome v "DCC_Hints" x.hints
  let v := insertIfSome v "DCC_Warnings" x.warnings
  let v := insertIfSome v "DCC_ShowGeneralMessages" x.show_general_messages
  let v := insertIfSome v "DCC_ConsoleTarget" x.console_target
  let v := insertIfSome v "DCC_Description" x.description
  let v := insertIfSome v "DCC_AdditionalSwitches" x.additional_switches
  let v := insertIfSome v "DCC_LinkerOptions" x.linker_options
  let v := insertIfSome v "DCC_ImageBase" x.image_base
  let v := insertIfSome v "DCC_MapFile" x.map_file
  let v := insertIfSome v "DCC_MapFileARM" x.map_file_arm
  let v := insertIfSome v "DCC_StackSize" x.stack_size
  let v := insertIfSome v "DCC_MaxStackSize" x.max_stack_size
  let v := insertIfSome v "DCC_MinStackSize" x.min_stack_size
  let v := insertIfSome v "DCC_BaseAddress" x.base_address
  let v := insertIfSome v "DCC_PEFlags" x.pe_flags
  let v := insertIfSome v "DCC_PEOptFlags" x.pe_opt_flags
  let v := insertIfSome v "DCC_PEOSVersion" x.pe_os_version
  let v := insertIfSome v "DCC_PESubSysVersion" x.pe_sub_sys_version
  let v := insertIfSome v "DCC_PEUserVersion" x.pe_user_version
  let v := insertIfSome v "DCC_NXCompat" x.nx_compat
  let v := insertIfSome v "DCC_DynamicBase" x.dynamic_base
  let v := insertIfSome v "DCC_HighEntropyVa" x.high_entropy_va
  let v := insertIfSome v "DCC_TSAware" x.ts_aware
  let v := insertIfSome v "DCC_LargeAddressAware" x.large_address_aware
  let v := insertIfSome v "DCC_AllowUndefined" x.allow_undefined
  let v := insertIfSome v "DCC_OutputXMLDocumentation" x.output_xml_documentation
  let v := insertIfSome v "DCC_OutputDependencies" x.output_dependencies
  let v := insertIfSome v "DCC_OutputDRCFile" x.output_drc_file
  let v := insertIfSome v "DCC_OldDosFileNames" x.old_dos_file_names
  let v := insertIfSome v "DCC_XmlOutput" x.xml_output
  let v := insertIfSome v "DCC_RemoveTmpLnkFile" x.remove_tmp_lnk_file
  let v := insertIfSome v "DCC_IncludeDCUsInUsesCompletion" x.include_dcus_in_uses_completion
  let v := insertIfSome v "DCC_UseMSBuildExternally" x.use_msbuild_externally
  let v := insertIfSome v "DCC_LegacyIFEND" x.legacy_ifend
  let v := insertIfSome v "DCC_HppOutputARM" x.hpp_output_arm
  let v := insertIfSome v "DCC_iOSMinimumVersion" x.ios_minimum_version
  let v := insertIfSome v "DCC_macOSArmMinimumVersion" x.macos_arm_minimum_version
  let v := insertIfSome v "DCC_macOSMinimumVersion" x.macos_minimum_version
  let v := smapInsertEntries v x.warning_directives.entries
  v

/-- `set_dcc_option` from src/dproj.rs: `some` of the updated struct when the tag
matched (Rust returns `true` and mutates in place), `none` otherwise. -/
def set_dcc_option (tag text : String) (x : DccOptions) : Option DccOptions :=
  if tag = "DCC_DCCCompiler" then some { x with dcc_compiler := some text }
    else if tag = "DCC_DependencyCheckOutputName" then some { x with dependency_check_output_name := some text }
    else if tag = "DCC_DcuOutput" then some { x with dcu_output := some text }
    else if tag = "DCC_ExeOutput" then some { x with exe_output := some text }
    else if tag = "DCC_DcpOutput" then some { x with dcp_output := some text }
    else if tag = "DCC_BplOutput" then some { x with bpl_output := some text }
    else if tag = "DCC_ObjOutput" then some { x with obj_output := some text }
    else if tag = "DCC_HppOutput" then some { x with hpp_output := some text }
    else if tag = "DCC_BpiOutput" then some { x with bpi_output := some text }
    else if tag = "DCC_CBuilderOutput" then some { x with cbuilder_output := some text }
    else if tag = "DCC_UnitSearchPath" then some { x with unit_search_path := some text }
    else if tag = "DCC_ResourcePath" then some { x with resource_path := some text }
    else if tag = "DCC_IncludePath" then some { x with include_path := some text }
    else if tag = "DCC_ObjPath" then some { x with obj_path := some text }
    else if tag = "DCC_FrameworkPath" then some { x with framework_path := some text }
    else if tag = "DCC_SysLibRoot" then some { x with sys_lib_root := some text }
    else if tag = "DCC_Define" then some { x with define := some text }
    else if tag = "DCC_Namespace" then some { x with namespace_ := some text }
    else if tag = "DCC_UnitAlias" then some { x with unit_alias := some text }
    else if tag = "DCC_UsePackage" then some { x with use_package := some text }
    else if tag = "DCC_Optimize" then some { x with optimize := some text }
    else if tag = "DCC_Alignment" then some { x with alignment := some text }
    else if tag = "DCC_MinimumEnumSize" then some { x with minimum_enum_size := some text }
    else if tag = "DCC_CodePage" then some { x with code_page := some text }
    else if tag = "DCC_Inlining" then some { x with inlining := some text }
    else if tag = "DCC_GenerateStackFrames" then some { x with generate_stack_frames := some text }
    else if tag = "DCC_GeneratePICCode" then some { x with generate_pic_code := some text }
    else if tag = "DCC_GenerateAndroidAppBundleFile" then some { x with generate_android_app_bundle_file := some text }
    else if tag = "DCC_GenerateOSXUniversalBinaryFile" then some { x with generate_osx_universal_binary_file := some text }
    else if tag = "DCC_E" then some { x with e := some text }
    else if tag = "DCC_N" then some { x with n := some text }
    else if tag = "DCC_S" then some { x with s := some text }
    else if tag = "DCC_F" then some { x with f := some text }
    else if tag = "DCC_K" then some { x with k := some text }
    else if tag = "DCC_ExtendedSyntax" then some { x with extended_stx := some text }
    else if tag = "DCC_LongStrings" then some { x with long_strings := some text }
    else if tag = "DCC_OpenStringParams" then some { x with open_string_params := some text }
    else if tag = "DCC_StrictVarStrings" then some { x with strict_var_strings := some text }
    else if tag = "DCC_TypedAtParameter" then some { x with typed_at_parameter := some text }
    else if tag = "DCC_FullBooleanEvaluations" then some { x with full_boolean_evaluations := some text }
    else if tag = "DCC_WriteableConstants" then some { x with writeable_constants := some text }
    else if tag = "DCC_RunTimeTypeInfo" then some { x with run_time_type_info := some text }
    else if tag = "DCC_PentiumSafeDivide" then some { x with pentium_safe_divide := some text }
    else if tag = "DCC_IOChecking" then some { x with io_checking := some text }
    else if tag = "DCC_IntegerOverflowCheck" then some { x with integer_overflow_check := some text }
    else if tag = "DCC_RangeChecking" then some { x with range_checking := some text }
    else if tag = "DCC_AssertionsAtRuntime" then some { x with assertions_at_runtime := some text }
    else if tag = "DCC_ImportedDataReferences" then some { x with imported_data_references := some text }
    else if tag = "DCC_DebugInformation" then some { x with debug_information := some text }
    else if tag = "DCC_LocalDebugSymbols" then some { x with local_debug_symbols := some text }
    else if tag = "DCC_SymbolReferenceInfo" then some { x with symbol_reference_info := some text }
    else if tag = "DCC_DebugDCUs" then some { x with debug_dcus := some text }
    else if tag = "DCC_DebugInfoInExe" then some { x with debug_info_in_exe := some text }
    else if tag = "DCC_DebugInfoInTds" then some { x with debug_info_in_tds := some text }
    else if tag = "DCC_DebugVN" then some { x with debug_vn := some text }
    else if tag = "DCC_RemoteDebug" then some { x with remote_debug := some text }
    else if tag = "DCC_Hints" then some { x with hints := some text }
    else if tag = "DCC_Warnings" then some { x with warnings := some text }
    else if tag = "DCC_ShowGeneralMessages" then some { x with show_general_messages := some text }
    else if tag = "DCC_ConsoleTarget" then some { x with console_target := some text }
    else if tag = "DCC_Description" then some { x with description := some text }
    else if tag = "DCC_AdditionalSwitches" then some { x with additional_switches := some text }
    else if tag = "DCC_LinkerOptions" then some { x with linker_options := some text }
    else if tag = "DCC_ImageBase" then some { x with image_base := some text }
    else if tag = "DCC_MapFile" then some { x with map_file := some text }
    else if tag = "DCC_MapFileARM" then some { x with map_file_arm := some text }
    else if tag = "DCC_StackSize" then some { x with stack_size := some text }
    else if tag = "DCC_MaxStackSize" then some { x with max_stack_size := some text }
    else if tag = "DCC_MinStackSize" then some { x with min_stack_size := some text }
    else if tag = "DCC_BaseAddress" then some { x with base_address := some text }
    else if tag = "DCC_PEFlags" then some { x with pe_flags := some text }
    else if tag = "DCC_PEOptFlags" then some { x with pe_opt_flags := some text }
    else if tag = "DCC_PEOSVersion" then some { x with pe_os_version := some text }
    else if tag = "DCC_PESubSysVersion" then some { x with pe_sub_sys_version := some text }
    else if tag = "DCC_PEUserVersion" then some { x with pe_user_version := some text }
    else if tag = "DCC_NXCompat" then some { x with nx_compat := some text }
    else if tag = "DCC_DynamicBase" then some { x with dynamic_base := some text }
    else if tag = "DCC_HighEntropyVa" then some { x with high_entropy_va := some text }
    else if tag = "DCC_TSAware" then some { x with ts_aware := some text }
    else if tag = "DCC_LargeAddressAware" then some { x with large_address_aware := some text }
    else if tag = "DCC_AllowUndefined" then some { x with allow_undefined := some text }
    else if tag = "DCC_OutputXMLDocumentation" then some { x with output_xml_documentation := some text }
    else if tag = "DCC_OutputDependencies" then some { x with output_dependencies := some text }
    else if tag = "DCC_OutputDRCFile" then some { x with output_drc_file := some text }
    else if tag = "DCC_OldDosFileNames" then some { x with old_dos_file_names := some text }
    else if tag = "DCC_XmlOutput" then some { x with xml_output := some text }
    else if tag = "DCC_RemoveTmpLnkFile" then some { x with remove_tmp_lnk_file := some text }
    else if tag = "DCC_IncludeDCUsInUsesCompletion" then some { x with include_dcus_in_uses_completion := some text }
    else if tag = "DCC_UseMSBuildExternally" then some { x with use_msbuild_externally := some text }
    else if tag = "DCC_LegacyIFEND" then some { x with legacy_ifend := some text }
    else if tag = "DCC_HppOutputARM" then some { x with hpp_output_arm := some text }
    else if tag = "DCC_iOSMinimumVersion" then some { x with ios_minimum_version := some text }
    else if tag = "DCC_macOSArmMinimumVersion" then some { x with macos_arm_minimum_version := some text }
    else if tag = "DCC_macOSMinimumVersion" then some { x with macos_minimum_version := some text }
    else if tag.startsWith "DCC_" then
    some { x with warning_directives := x.warning_directives.insert tag text }
    else none

/-- Read the `DccOptions` value stored under an XML tag name (mirror of the
tag table of `set_dcc_option` / `collect_into_vars`). -/
def DccOptions.get_tag (x : DccOptions) (tag : String) : Option String :=
  if tag = "DCC_DCCCompiler" then x.dcc_compiler
    else if tag = "DCC_DependencyCheckOutputName" then x.dependency_check_output_name
    else if tag = "DCC_DcuOutput" then x.dcu_output
    else if tag = "DCC_ExeOutput" then x.exe_output
    else if tag = "DCC_DcpOutput" then x.dcp_output
    else if tag = "DCC_BplOutput" then x.bpl_output
    else if tag = "DCC_ObjOutput" then x.obj_output
    else if tag = "DCC_HppOutput" then x.hpp_output
    else if tag = "DCC_BpiOutput" then x.bpi_output
    else if tag = "DCC_CBuilderOutput" then x.cbuilder_output
    else if tag = "DCC_UnitSearchPath" then x.unit_search_path
    else if tag = "DCC_ResourcePath" then x.resource_path
    else if tag = "DCC_IncludePath" then x.include_path
    else if tag = "DCC_ObjPath" then x.obj_path
    else if tag = "DCC_FrameworkPath" then x.framework_path
    else if tag = "DCC_SysLibRoot" then x.sys_lib_root
    else if tag = "DCC_Define" then x.define
    else if tag = "DCC_Namespace" then x.namespace_
    else if tag = "DCC_UnitAlias" then x.unit_alias
    else if tag = "DCC_UsePackage" then x.use_package
    else if tag = "DCC_Optimize" then x.optimize
    else if tag = "DCC_Alignment" then x.alignment
    else if tag = "DCC_MinimumEnumSize" then x.minimum_enum_size
    else if tag = "DCC_CodePage" then x.code_page
    else if tag = "DCC_Inlining" then x.inlining
    else if tag = "DCC_GenerateStackFrames" then x.generate_stack_frames
    else if tag = "DCC_GeneratePICCode" then x.generate_pic_code
    else if tag = "DCC_GenerateAndroidAppBundleFile" then x.generate_android_app_bundle_file
    else if tag = "DCC_GenerateOSXUniversalBinaryFile" then x.generate_osx_universal_binary_file
    else if tag = "DCC_E" then x.e
    else if tag = "DCC_N" then x.n
    else if tag = "DCC_S" then x.s
    else if tag = "DCC_F" then x.f
    else if tag = "DCC_K" then x.k
    else if tag = "DCC_ExtendedSyntax" then x.extended_stx
    else if tag = "DCC_LongStrings" then x.long_strings
    else if tag = "DCC_OpenStringParams" then x.open_string_params
    else if tag = "DCC_StrictVarStrings" then x.strict_var_strings
    else if tag = "DCC_TypedAtParameter" then x.typed_at_parameter
    else if tag = "DCC_FullBooleanEvaluations" then x.full_boolean_evaluations
    else if tag = "DCC_WriteableConstants" then x.writeable_constants
    else if tag = "DCC_RunTimeTypeInfo" then x.run_time_type_info
    else if tag = "DCC_PentiumSafeDivide" then x.pentium_safe_divide
    else if tag = "DCC_IOChecking" then x.io_checking
    else if tag = "DCC_IntegerOverflowCheck" then x.integer_overflow_check
    else if tag = "DCC_RangeChecking" then x.range_checking
    else if tag = "DCC_AssertionsAtRuntime" then x.assertions_at_runtime
    else if tag = "DCC_ImportedDataReferences" then x.imported_data_references
    else if tag = "DCC_DebugInformation" then x.debug_information
    else if tag = "DCC_LocalDebugSymbols" then x.local_debug_symbols
    else if tag = "DCC_SymbolReferenceInfo" then x.symbol_reference_info
    else if tag = "DCC_DebugDCUs" then x.debug_dcus
    else if tag = "DCC_DebugInfoInExe" then x.debug_info_in_exe
    else if tag = "DCC_DebugInfoInTds" then x.debug_info_in_tds
    else if tag = "DCC_DebugVN" then x.debug_vn
    else if tag = "DCC_RemoteDebug" then x.remote_debug
    else if tag = "DCC_Hints" then x.hints
    else if tag = "DCC_Warnings" then x.warnings
    else if tag = "DCC_ShowGeneralMessages" then x.show_general_messages
    else if tag = "DCC_ConsoleTarget" then x.console_target
    else if tag = "DCC_Description" then x.description
    else if tag = "DCC_AdditionalSwitches" then x.additional_switches
    else if tag = "DCC_LinkerOptions" then x.linker_options
    else if tag = "DCC_ImageBase" then x.image_base
    else if tag = "DCC_MapFile" then x.map_file
    else if tag = "DCC_MapFileARM" then x.map_file_arm
    else if tag = "DCC_StackSize" then x.stack_size
    else if tag = "DCC_MaxStackSize" then x.max_stack_size
    else if tag = "DCC_MinStackSize" then x.min_stack_size
    else if tag = "DCC_BaseAddress" then x.base_address
    else if tag = "DCC_PEFlags" then x.pe_flags
    else if tag = "DCC_PEOptFlags" then x.pe_opt_flags
    else if tag = "DCC_PEOSVersion" then x.pe_os_version
    else if tag = "DCC_PESubSysVersion" then x.pe_sub_sys_version
    else if tag = "DCC_PEUserVersion" then x.pe_user_version
    else if tag = "DCC_NXCompat" then x.nx_compat
    else if tag = "DCC_DynamicBase" then x.dynamic_base
    else if tag = "DCC_HighEntropyVa" then x.high_entropy_va
    else if tag = "DCC_TSAware" then x.ts_aware
    else if tag = "DCC_LargeAddressAware" then x.large_address_aware
    else if tag = "DCC_AllowUndefined" then x.allow_undefined
    else if tag = "DCC_OutputXMLDocumentation" then x.output_xml_documentation
    else if tag = "DCC_OutputDependencies" then x.output_dependencies
    else if tag = "DCC_OutputDRCFile" then x.output_drc_file
    else if tag = "DCC_OldDosFileNames" then x.old_dos_file_names
    else if tag = "DCC_XmlOutput" then x.xml_output
    else if tag = "DCC_RemoveTmpLnkFile" then x.remove_tmp_lnk_file
    else if tag = "DCC_IncludeDCUsInUsesCompletion" then x.include_dcus_in_uses_completion
    else if tag = "DCC_UseMSBuildExternally" then x.use_msbuild_externally
    else if tag = "DCC_LegacyIFEND" then x.legacy_ifend
    else if tag = "DCC_HppOutputARM" then x.hpp_output_arm
    else if tag = "DCC_iOSMinimumVersion" then x.ios_minimum_version
    else if tag = "DCC_macOSArmMinimumVersion" then x.macos_arm_minimum_version
    else if tag = "DCC_macOSMinimumVersion" then x.macos_minimum_version
    else if tag.startsWith "DCC_" then x.warning_directives.get tag
    else none

/-- `BrccOptions` from src/dproj.rs: every value field is `Option String`. -/
structure BrccOptions where
  user_supplied_options : Option String := none
  code_page : Option String := none
  language : Option String := none
  delete_include_path : Option String := none
  enable_multi_byte : Option String := none
  compiler_to_use : Option String := none
  response_filename : Option String := none
  verbose : Option String := none
  defines : Option String := none
  include_path : Option String := none
  output_dir : Option String := none

/-- `BrccOptions::merge_from`: a field that is `Some` in `o` overwrites the
corresponding field of `self` (the merge_options! macro in the source). -/
def BrccOptions.merge_from (self o : BrccOptions) : BrccOptions :=
  {
    user_supplied_options := mergeOpt self.user_supplied_options o.user_supplied_options,
    code_page := mergeOpt self.code_page o.code_page,
    language := mergeOpt self.language o.language,
    delete_include_path := mergeOpt self.delete_include_path o.delete_include_path,
    enable_multi_byte := mergeOpt self.enable_multi_byte o.enable_multi_byte,
    compiler_to_use := mergeOpt self.compiler_to_use o.compiler_to_use,
    response_filename := mergeOpt self.response_filename o.response_filename,
    verbose := mergeOpt self.verbose o.verbose,
    defines := mergeOpt self.defines o.defines,
    include_path := mergeOpt self.include_path o.include_path,
    output_dir := mergeOpt self.output_dir o.output_dir
  }

/-- `BrccOptions::expand_vars` (the expand_options! macro in the source). -/
def BrccOptions.expand_vars (x : BrccOptions) (vars : SMap) : BrccOptions :=
  {
    user_supplied_options := expandOpt x.user_supplied_options vars,
    code_page := expandOpt x.code_page vars,
    language := expandOpt x.language vars,
    delete_include_path := expandOpt x.delete_include_path vars,
    enable_multi_byte := expandOpt x.enable_multi_byte vars,
    compiler_to_use := expandOpt x.compiler_to_use vars,
    response_filename := expandOpt x.response_filename vars,
    verbose := expandOpt x.verbose vars,
    defines := expandOpt x.defines vars,
    include_path := expandOpt x.include_path vars,
    output_dir := expandOpt x.output_dir vars
  }

/-- `BrccOptions::collect_into_vars` (the collect_tag_values! macro in the source). -/
def BrccOptions.collect_into_vars (x : BrccOptions) (vars : SMap) : SMap :=
  let v := insertIfSome vars "BRCC_UserSuppliedOptions" x.user_supplied_options
  let v := insertIfSome v "BRCC_CodePage" x.code_page
  let v := insertIfSome v "BRCC_Language" x.language
  let v := insertIfSome v "BRCC_DeleteIncludePath" x.delete_include_path
  let v := insertIfSome v "BRCC_EnableMultiByte" x.enable_multi_byte
  let v := insertIfSome v "BRCC_CompilerToUse" x.compiler_to_use
  let v := insertIfSome v "BRCC_ResponseFilename" x.response_filename
  let v := insertIfSome v "BRCC_Verbose" x.verbose
  let v := insertIfSome v "BRCC_Defines" x.defines
  let v := insertIfSome v "BRCC_IncludePath" x.include_path
  let v := insertIfSome v "BRCC_OutputDir" x.output_dir
  v

/-- `set_brcc_option` from src/dproj.rs: `some` of the updated struct when the tag
matched (Rust returns `true` and mutates in place), `none` otherwise. -/
def set_brcc_option (tag text : String) (x : BrccOptions) : Option BrccOptions :=
  if tag = "BRCC_UserSuppliedOptions" then some { x with user_supplied_options := some text }
    else if tag = "BRCC_CodePage" then some { x with code_page := some text }
    else if tag = "BRCC_Language" then some { x with language := some text }
    else if tag = "BRCC_DeleteIncludePath" then some { x with delete_include_path := some text }
    else if tag = "BRCC_EnableMultiByte" then some { x with enable_multi_byte := some text }
    else if tag = "BRCC_CompilerToUse" then some { x with compiler_to_use := some text }
    else if tag = "BRCC_ResponseFilename" then some { x with response_filename := some text }
    else if tag = "BRCC_Verbose" then some { x with verbose := some text }
    else if tag = "BRCC_Defines" then some { x with defines := some text }
    else if tag = "BRCC_IncludePath" then some { x with include_path := some text }
    else if tag = "BRCC_OutputDir" then some { x with output_dir := some text }
    else none

/-- Read the `BrccOptions` value stored under an XML tag name (mirror of the
tag table of `set_brcc_option` / `collect_into_vars`). -/
def BrccOptions.get_tag (x : BrccOptions) (tag : String) : Option String :=
  if tag = "BRCC_UserSuppliedOptions" then x.user_supplied_options
    else if tag = "BRCC_CodePage" then x.code_page
    else if tag = "BRCC_Language" then x.language
    else if tag = "BRCC_DeleteIncludePath" then x.delete_include_path
    else if tag = "BRCC_EnableMultiByte" then x.enable_multi_byte
    else if tag = "BRCC_CompilerToUse" then x.compiler_to_use
    else if tag = "BRCC_ResponseFilename" then x.response_filename
    else if tag = "BRCC_Verbose" then x.verbose
    else if tag = "BRCC_Defines" then x.defines
    else if tag = "BRCC_IncludePath" then x.include_path
    else if tag = "BRCC_OutputDir" then x.output_dir
    else none

/-- `BuildEvents` from src/dproj.rs: every value field is `Option String`. -/
structure BuildEvents where
  pre_build_event : Option String := none
  pre_build_event_cancel_on_error : Option String := none
  pre_build_event_ignore_exit_code : Option String := none
  pre_link_event : Option String := none
  pre_link_event_cancel_on_error : Option String := none
  pre_link_event_ignore_exit_code : Option String := none
  post_build_event : Option String := none
  post_build_event_cancel_on_error : Option String := none
  post_build_event_ignore_exit_code : Option String := none
  post_build_event_execute_when : Option String := none

/-- `BuildEvents::merge_from`: a field that is `Some` in `o` overwrites the
corresponding field of `self` (the merge_options! macro in the source). -/
def BuildEvents.merge_from (self o : BuildEvents) : BuildEvents :=
  {
    pre_build_event := mergeOpt self.pre_build_event o.pre_build_event,
    pre_build_event_cancel_on_error := mergeOpt self.pre_build_event_cancel_on_error o.pre_build_event_cancel_on_error,
    pre_build_event_ignore_exit_code := mergeOpt self.pre_build_event_ignore_exit_code o.pre_build_event_ignore_exit_code,
    pre_link_event := mergeOpt self.pre_link_event o.pre_link_event,
    pre_link_event_cancel_on_error := mergeOpt self.pre_link_event_cancel_on_error o.pre_link_event_cancel_on_error,
    pre_link_event_ignore_exit_code := mergeOpt self.pre_link_event_ignore_exit_code o.pre_link_event_ignore_exit_code,
    post_build_event := mergeOpt self.post_build_event o.post_build_event,
    post_build_event_cancel_on_error := mergeOpt self.post_build_event_cancel_on_error o.post_build_event_cancel_on_error,
    post_build_event_ignore_exit_code := mergeOpt self.post_build_event_ignore_exit_code o.post_build_event_ignore_exit_code,
    post_build_event_execute_when := mergeOpt self.post_build_event_execute_when o.post_build_event_execute_when
  }

/-- `BuildEvents::expand_vars` (the expand_options! macro in the source). -/
def BuildEvents.expand_vars (x : BuildEvents) (vars : SMap) : BuildEvents :=
  {
    pre_build_event := expandOpt x.pre_build_event vars,
    pre_build_event_cancel_on_error := expandOpt x.pre_build_event_cancel_on_error vars,
    pre_build_event_ignore_exit_code := expandOpt x.pre_build_event_ignore_exit_code vars,
    pre_link_event := expandOpt x.pre_link_event vars,
    pre_link_event_cancel_on_error := expandOpt x.pre_link_event_cancel_on_error vars,
    pre_link_event_ignore_exit_code := expandOpt x.pre_link_event_ignore_exit_code vars,
    post_build_event := expandOpt x.post_build_event vars,
    post_build_event_cancel_on_error := expandOpt x.post_build_event_cancel_on_error vars,
    post_build_event_ignore_exit_code := expandOpt x.post_build_event_ignore_exit_code vars,
    post_build_event_execute_when := expandOpt x.post_build_event_execute_when vars
  }

/-- `BuildEvents::collect_into_vars` (the collect_tag_values! macro in the source). -/
def BuildEvents.collect_into_vars (x : BuildEvents) (vars : SMap) : SMap :=
  let v := insertIfSome vars "PreBuildEvent" x.pre_build_event
  let v := insertIfSome v "PreBuildEventCancelOnError" x.pre_build_event_cancel_on_error
  let v := insertIfSome v "PreBuildEventIgnoreExitCode" x.pre_build_event_ignore_exit_code
  let v := insertIfSome v "PreLinkEvent" x.pre_link_event
  let v := insertIfSome v "PreLinkEventCancelOnError" x.pre_link_event_cancel_on_error
  let v := insertIfSome v "PreLinkEventIgnoreExitCode" x.pre_link_event_ignore_exit_code
  let v := insertIfSome v "PostBuildEvent" x.post_build_event
  let v := insertIfSome v "PostBuildEventCancelOnError" x.post_build_event_cancel_on_error
  let v := insertIfSome v "PostBuildEventIgnoreExitCode" x.post_build_event_ignore_exit_code
  let v := insertIfSome v "PostBuildEventExecuteWhen" x.post_build_event_execute_when
  v

/-- `set_build_event` from src/dproj.rs: `some` of the updated struct when the tag
matched (Rust returns `true` and mutates in place), `none` otherwise. -/
def set_build_event (tag text : String) (x : BuildEvents) : Option BuildEvents :=
  if tag = "PreBuildEvent" then some { x with pre_build_event := some text }
    else if tag = "PreBuildEventCancelOnError" then some { x with pre_build_event_cancel_on_error := some text }
    else if tag = "PreBuildEventIgnoreExitCode" then some { x with pre_build_event_ignore_exit_code := some text }
    else if tag = "PreLinkEvent" then some { x with pre_link_event := some text }
    else if tag = "PreLinkEventCancelOnError" then some { x with pre_link_event_cancel_on_error := some text }
    else if tag = "PreLinkEventIgnoreExitCode" then some { x with pre_link_event_ignore_exit_code := some text }
    else if tag = "PostBuildEvent" then some { x with post_build_event := some text }
    else if tag = "PostBuildEventCancelOnError" then some { x with post_build_event_cancel_on_error := some text }
    else if tag = "PostBuildEventIgnoreExitCode" then some { x with post_build_event_ignore_exit_code := some text }
    else if tag = "PostBuildEventExecuteWhen" then some { x with post_build_event_execute_when := some text }
    else none

/-- Read the `BuildEvents` value stored under an XML tag name (mirror of the
tag table of `set_build_event` / `collect_into_vars`). -/
def BuildEvents.get_tag (x : BuildEvents) (tag : String) : Option String :=
  if tag = "PreBuildEvent" then x.pre_build_event
    else if tag = "PreBuildEventCancelOnError" then x.pre_build_event_cancel_on_error
    else if tag = "PreBuildEventIgnoreExitCode" then x.pre_build_event_ignore_exit_code
    else if tag = "PreLinkEvent" then x.pre_link_event
    else if tag = "PreLinkEventCancelOnError" then x.pre_link_event_cancel_on_error
    else if tag = "PreLinkEventIgnoreExitCode" then x.pre_link_event_ignore_exit_code
    else if tag = "PostBuildEvent" then x.post_build_event
    else if tag = "PostBuildEventCancelOnError" then x.post_build_event_cancel_on_error
    else if tag = "PostBuildEventIgnoreExitCode" then x.post_build_event_ignore_exit_code
    else if tag = "PostBuildEventExecuteWhen" then x.post_build_event_execute_when
    else none

/-- `VerInfo` from src/dproj.rs: every value field is `Option String`. -/
structure VerInfo where
  include_ver_info : Option String := none
  major_ver : Option String := none
  minor_ver : Option String := none
  release : Option String := none
  build : Option String := none
  debug : Option String := none
  pre_release : Option String := none
  special : Option String := none
  private_ : Option String := none
  dll : Option String := none
  auto_gen_version : Option String := none
  locale : Option String := none
  keys : Option String := none

/-- `VerInfo::merge_from`: a field that is `Some` in `o` overwrites the
corresponding field of `self` (the merge_options! macro in the source). -/
def VerInfo.merge_from (self o : VerInfo) : VerInfo :=
  {
    include_ver_info := mergeOpt self.include_ver_info o.include_ver_info,
    major_ver := mergeOpt self.major_ver o.major_ver,
    minor_ver := mergeOpt self.minor_ver o.minor_ver,
    release := mergeOpt self.release o.release,
    build := mergeOpt self.build o.build,
    debug := mergeOpt self.debug o.debug,
    pre_release := mergeOpt self.pre_release o.pre_release,
    special := mergeOpt self.special o.special,
    private_ := mergeOpt self.private_ o.private_,
    dll := mergeOpt self.dll o.dll,
    auto_gen_version := mergeOpt self.auto_gen_version o.auto_gen_version,
    locale := mergeOpt self.locale o.locale,
    keys := mergeOpt self.keys o.keys
  }

/-- `VerInfo::expand_vars` (the expand_options! macro in the source). -/
def VerInfo.expand_vars (x : VerInfo) (vars : SMap) : VerInfo :=
  {
    include_ver_info := expandOpt x.include_ver_info vars,
    major_ver := expandOpt x.major_ver vars,
    minor_ver := expandOpt x.minor_ver vars,
    release := expandOpt x.release vars,
    build := expandOpt x.build vars,
    debug := expandOpt x.debug vars,
    pre_release := expandOpt x.pre_release vars,
    special := expandOpt x.special vars,
    private_ := expandOpt x.private_ vars,
    dll := expandOpt x.dll vars,
    auto_gen_version := expandOpt x.auto_gen_version vars,
    locale := expandOpt x.locale vars,
    keys := expandOpt x.keys vars
  }

/-- `VerInfo::collect_into_vars` (the collect_tag_values! macro in the source). -/
def VerInfo.collect_into_vars (x : VerInfo) (vars : SMap) : SMap :=
  let v := insertIfSome vars "VerInfo_IncludeVerInfo" x.include_ver_info
  let v := insertIfSome v "VerInfo_MajorVer" x.major_ver
  let v := insertIfSome v "VerInfo_MinorVer" x.minor_ver
  let v := insertIfSome v "VerInfo_Release" x.release
  let v := insertIfSome v "VerInfo_Build" x.build
  let v := insertIfSome v "VerInfo_Debug" x.debug
  let v := insertIfSome v "VerInfo_PreRelease" x.pre_release
  let v := insertIfSome v "VerInfo_Special" x.special
  let v := insertIfSome v "VerInfo_Private" x.private_
  let v := insertIfSome v "VerInfo_DLL" x.dll
  let v := insertIfSome v "VerInfo_AutoGenVersion" x.auto_gen_version
  let v := insertIfSome v "VerInfo_Locale" x.locale
  let v := insertIfSome v "VerInfo_Keys" x.keys
  v

/-- `set_ver_info` from src/dproj.rs: `some` of the updated struct when the tag
matched (Rust returns `true` and mutates in place), `none` otherwise. -/
def set_ver_info (tag text : String) (x : VerInfo) : Option VerInfo :=
  if tag = "VerInfo_IncludeVerInfo" then some { x with include_ver_info := some text }
    else if tag = "VerInfo_MajorVer" then some { x with major_ver := some text }
    else if tag = "VerInfo_MinorVer" then some { x with minor_ver := some text }
    else if tag = "VerInfo_Release" then some { x with release := some text }
    else if tag = "VerInfo_Build" then some { x with build := some text }
    else if tag = "VerInfo_Debug" then some { x with debug := some text }
    else if tag = "VerInfo_PreRelease" then some { x with pre_release := some text }
    else if tag = "VerInfo_Special" then some { x with special := some text }
    else if tag = "VerInfo_Private" then some { x with private_ := some text }
    else if tag = "VerInfo_DLL" then some { x with dll := some text }
    else if tag = "VerInfo_AutoGenVersion" then some { x with auto_gen_version := some text }
    else if tag = "VerInfo_Locale" then some { x with locale := some text }
    else if tag = "VerInfo_Keys" then some { x with keys := some text }
    else none

/-- Read the `VerInfo` value stored under an XML tag name (mirror of the
tag table of `set_ver_info` / `collect_into_vars`). -/
def VerInfo.get_tag (x : VerInfo) (tag : String) : Option String :=
  if tag = "VerInfo_IncludeVerInfo" then x.include_ver_info
    else if tag = "VerInfo_MajorVer" then x.major_ver
    else if tag = "VerInfo_MinorVer" then x.minor_ver
    else if tag = "VerInfo_Release" then x.release
    else if tag = "VerInfo_Build" then x.build
    else if tag = "VerInfo_Debug" then x.debug
    else if tag = "VerInfo_PreRelease" then x.pre_release
    else if tag = "VerInfo_Special" then x.special
    else if tag = "VerInfo_Private" then x.private_
    else if tag = "VerInfo_DLL" then x.dll
    else if tag = "VerInfo_AutoGenVersion" then x.auto_gen_version
    else if tag = "VerInfo_Locale" then x.locale
    else if tag = "VerInfo_Keys" then x.keys
    else none

/-- `PlatformPackaging` from src/dproj.rs: every value field is `Option String`. -/
structure PlatformPackaging where
  app_dpi_awareness_mode : Option String := none
  app_enable_runtime_themes : Option String := none
  app_execution_level : Option String := none
  app_execution_level_ui_access : Option String := none
  manifest_file : Option String := none
  output_ext : Option String := none
  bt_build_type : Option String := none
  pf_uwp_publisher : Option String := none
  pf_uwp_package_name : Option String := none
  pf_uwp_package_display_name : Option String := none
  pf_uwp_publisher_display_name : Option String := none
  pf_uwp_distribution_type : Option String := none
  uwp_delphi_logo44 : Option String := none
  uwp_delphi_logo150 : Option String := none

/-- `PlatformPackaging::merge_from`: a field that is `Some` in `o` overwrites the
corresponding field of `self` (the merge_options! macro in the source). -/
def PlatformPackaging.merge_from (self o : PlatformPackaging) : PlatformPackaging :=
  {
    app_dpi_awareness_mode := mergeOpt self.app_dpi_awareness_mode o.app_dpi_awareness_mode,
    app_enable_runtime_themes := mergeOpt self.app_enable_runtime_themes o.app_enable_runtime_themes,
    app_execution_level := mergeOpt self.app_execution_level o.app_execution_level,
    app_execution_level_ui_access := mergeOpt self.app_execution_level_ui_access o.app_execution_level_ui_access,
    manifest_file := mergeOpt self.manifest_file o.manifest_file,
    output_ext := mergeOpt self.output_ext o.output_ext,
    bt_build_type := mergeOpt self.bt_build_type o.bt_build_type,
    pf_uwp_publisher := mergeOpt self.pf_uwp_publisher o.pf_uwp_publisher,
    pf_uwp_package_name := mergeOpt self.pf_uwp_package_name o.pf_uwp_package_name,
    pf_uwp_package_display_name := mergeOpt self.pf_uwp_package_display_name o.pf_uwp_package_display_name,
    pf_uwp_publisher_display_name := mergeOpt self.pf_uwp_publisher_display_name o.pf_uwp_publisher_display_name,
    pf_uwp_distribution_type := mergeOpt self.pf_uwp_distribution_type o.pf_uwp_distribution_type,
    uwp_delphi_logo44 := mergeOpt self.uwp_delphi_logo44 o.uwp_delphi_logo44,
    uwp_delphi_logo150 := mergeOpt self.uwp_delphi_logo150 o.uwp_delphi_logo150
  }

/-- `PlatformPackaging::expand_vars` (the expand_options! macro in the source). -/
def PlatformPackaging.expand_vars (x : PlatformPackaging) (vars : SMap) : PlatformPackaging :=
  {
    app_dpi_awareness_mode := expandOpt x.app_dpi_awareness_mode vars,
    app_enable_runtime_themes := expandOpt x.app_enable_runtime_themes vars,
    app_execution_level := expandOpt x.app_execution_level vars,
    app_execution_level_ui_access := expandOpt x.app_execution_level_ui_access vars,
    manifest_file := expandOpt x.manifest_file vars,
    output_ext := expandOpt x.output_ext vars,
    bt_build_type := expandOpt x.bt_build_type vars,
    pf_uwp_publisher := expandOpt x.pf_uwp_publisher vars,
    pf_uwp_package_name := expandOpt x.pf_uwp_package_name vars,
    pf_uwp_package_display_name := expandOpt x.pf_uwp_package_display_name vars,
    pf_uwp_publisher_display_name := expandOpt x.pf_uwp_publisher_display_name vars,
    pf_uwp_distribution_type := expandOpt x.pf_uwp_distribution_type vars,
    uwp_delphi_logo44 := expandOpt x.uwp_delphi_logo44 vars,
    uwp_delphi_logo150 := expandOpt x.uwp_delphi_logo150 vars
  }

/-- `PlatformPackaging::collect_into_vars` (the collect_tag_values! macro in the source). -/
def PlatformPackaging.collect_into_vars (x : PlatformPackaging) (vars : SMap) : SMap :=
  let v := insertIfSome vars "AppDPIAwarenessMode" x.app_dpi_awareness_mode
  let v := insertIfSome v "AppEnableRuntimeThemes" x.app_enable_runtime_themes
  let v := insertIfSome v "AppExecutionLevel" x.app_execution_level
  let v := insertIfSome v "AppExecutionLevelUIAccess" x.app_execution_level_ui_access
  let v := insertIfSome v "Manifest_File" x.manifest_file
  let v := insertIfSome v "OutputExt" x.output_ext
  let v := insertIfSome v "BT_BuildType" x.bt_build_type
  let v := insertIfSome v "PF_UWPPublisher" x.pf_uwp_publisher
  let v := insertIfSome v "PF_UWPPackageName" x.pf_uwp_package_name
  let v := insertIfSome v "PF_UWPPackageDisplayName" x.pf_uwp_package_display_name
  let v := insertIfSome v "PF_UWPPublisherDisplayName" x.pf_uwp_publisher_display_name
  let v := insertIfSome v "PF_UWPDistributionType" x.pf_uwp_distribution_type
  let v := insertIfSome v "UWP_DelphiLogo44" x.uwp_delphi_logo44
  let v := insertIfSome v "UWP_DelphiLogo150" x.uwp_delphi_logo150
  v

/-- `set_platform_packaging` from src/dproj.rs: `some` of the updated struct when the tag
matched (Rust returns `true` and mutates in place), `none` otherwise. -/
def set_platform_packaging (tag text : String) (x : PlatformPackaging) : Option PlatformPackaging :=
  if tag = "AppDPIAwarenessMode" then some { x with app_dpi_awareness_mode := some text }
    else if tag = "AppEnableRuntimeThemes" then some { x with app_enable_runtime_themes := some text }
    else if tag = "AppExecutionLevel" then some { x with app_execution_level := some text }
    else if tag = "AppExecutionLevelUIAccess" then some { x with app_execution_level_ui_access := some text }
    else if tag = "Manifest_File" then some { x with manifest_file := some text }
    else if tag = "OutputExt" then some { x with output_ext := some text }
    else if tag = "BT_BuildType" then some { x with bt_build_type := some text }
    else if tag = "PF_UWPPublisher" then some { x with pf_uwp_publisher := some text }
    else if tag = "PF_UWPPackageName" then some { x with pf_uwp_package_name := some text }
    else if tag = "PF_UWPPackageDisplayName" then some { x with pf_uwp_package_display_name := some text }
    else if tag = "PF_UWPPublisherDisplayName" then some { x with pf_uwp_publisher_display_name := some text }
    else if tag = "PF_UWPDistributionType" then some { x with pf_uwp_distribution_type := some text }
    else if tag = "UWP_DelphiLogo44" then some { x with uwp_delphi_logo44 := some text }
    else if tag = "UWP_DelphiLogo150" then some { x with uwp_delphi_logo150 := some text }
    else none

/-- Read the `PlatformPackaging` value stored under an XML tag name (mirror of the
tag table of `set_platform_packaging` / `collect_into_vars`). -/
def PlatformPackaging.get_tag (x : PlatformPackaging) (tag : String) : Option String :=
  if tag = "AppDPIAwarenessMode" then x.app_dpi_awareness_mode
    else if tag = "AppEnableRuntimeThemes" then x.app_enable_runtime_themes
    else if tag = "AppExecutionLevel" then x.app_execution_level
    else if tag = "AppExecutionLevelUIAccess" then x.app_execution_level_ui_access
    else if tag = "Manifest_File" then x.manifest_file
    else if tag = "OutputExt" then x.output_ext
    else if tag = "BT_BuildType" then x.bt_build_type
    else if tag = "PF_UWPPublisher" then x.pf_uwp_publisher
    else if tag = "PF_UWPPackageName" then x.pf_uwp_package_name
    else if tag = "PF_UWPPackageDisplayName" then x.pf_uwp_package_display_name
    else if tag = "PF_UWPPublisherDisplayName" then x.pf_uwp_publisher_display_name
    else if tag = "PF_UWPDistributionType" then x.pf_uwp_distribution_type
    else if tag = "UWP_DelphiLogo44" then x.uwp_delphi_logo44
    else if tag = "UWP_DelphiLogo150" then x.uwp_delphi_logo150
    else none

/-- `DebuggerOptions` from src/dproj.rs: every value field is `Option String`. -/
structure DebuggerOptions where
  include_system_vars : Option String := none
  env_vars : Option String := none
  symbol_source_path : Option String := none
  run_params : Option String := none

/-- `DebuggerOptions::merge_from`: a field that is `Some` in `o` overwrites the
corresponding field of `self` (the merge_options! macro in the source). -/
def DebuggerOptions.merge_from (self o : DebuggerOptions) : DebuggerOptions :=
  {
    include_system_vars := mergeOpt self.include_system_vars o.include_system_vars,
    env_vars := mergeOpt self.env_vars o.env_vars,
    symbol_source_path := mergeOpt self.symbol_source_path o.symbol_source_path,
    run_params := mergeOpt self.run_params o.run_params
  }

/-- `DebuggerOptions::expand_vars` (the expand_options! macro in the source). -/
def DebuggerOptions.expand_vars (x : DebuggerOptions) (vars : SMap) : DebuggerOptions :=
  {
    include_system_vars := expandOpt x.include_system_vars vars,
    env_vars := expandOpt x.env_vars vars,
    symbol_source_path := expandOpt x.symbol_source_path vars,
    run_params := expandOpt x.run_params vars
  }

/-- `DebuggerOptions::collect_into_vars` (the collect_tag_values! macro in the source). -/
def DebuggerOptions.collect_into_vars (x : DebuggerOptions) (vars : SMap) : SMap :=
  let v := insertIfSome vars "Debugger_IncludeSystemVars" x.include_system_vars
  let v := insertIfSome v "Debugger_EnvVars" x.env_vars
  let v := insertIfSome v "Debugger_SymbolSourcePath" x.symbol_source_path
  let v := insertIfSome v "Debugger_RunParams" x.run_params
  v

/-- `set_debugger_option` from src/dproj.rs: `some` of the updated struct when the tag
matched (Rust returns `true` and mutates in place), `none` otherwise. -/
def set_debugger_option (tag text : String) (x : DebuggerOptions) : Option DebuggerOptions :=
  if tag = "Debugger_IncludeSystemVars" then some { x with include_system_vars := some text }
    else if tag = "Debugger_EnvVars" then some { x with env_vars := some text }
    else if tag = "Debugger_SymbolSourcePath" then some { x with symbol_source_path := some text }
    else if tag = "Debugger_RunParams" then some { x with run_params := some text }
    else none

/-- Read the `DebuggerOptions` value stored under an XML tag name (mirror of the
tag table of `set_debugger_option` / `collect_into_vars`). -/
def DebuggerOptions.get_tag (x : DebuggerOptions) (tag : String) : Option String :=
  if tag = "Debugger_IncludeSystemVars" then x.include_system_vars
    else if tag = "Debugger_EnvVars" then x.env_vars
    else if tag = "Debugger_SymbolSourcePath" then x.symbol_source_path
    else if tag = "Debugger_RunParams" then x.run_params
    else none

-- ═══════════════════════════════════════════════════════════════════════════
--  src/dproj.rs — PropertyGroup and the project tree
-- ═══════════════════════════════════════════════════════════════════════════

/-- A `<PropertyGroup>` element, optionally gated by a `Condition`
(`PropertyGroup` in src/dproj.rs). -/
structure PropertyGroup where
  condition : Option String := none
  project_properties : ProjectProperties := {}
  dcc_options : DccOptions := {}
  brcc_options : BrccOptions := {}
  build_events : BuildEvents := {}
  ver_info : VerInfo := {}
  platform_packaging : PlatformPackaging := {}
  debugger_options : DebuggerOptions := {}
  other : SMap := SMap.empty

/-- `PropertyGroup::merge_from`. -/
def PropertyGroup.merge_from (self o : PropertyGroup) : PropertyGroup :=
  { self with
    project_properties := self.project_properties.merge_from o.project_properties,
    dcc_options := self.dcc_options.merge_from o.dcc_options,
    brcc_options := self.brcc_options.merge_from o.brcc_options,
    build_events := self.build_events.merge_from o.build_events,
    ver_info := self.ver_info.merge_from o.ver_info,
    platform_packaging := self.platform_packaging.merge_from o.platform_packaging,
    debugger_options := self.debugger_options.merge_from o.debugger_options,
    other := smapInsertEntries self.other o.other.entries }

/-- `PropertyGroup::expand_vars`. -/
def PropertyGroup.expand_vars (pg : PropertyGroup) (vars : SMap) : PropertyGroup :=
  { pg with
    project_properties := pg.project_properties.expand_vars vars,
    dcc_options := pg.dcc_options.expand_vars vars,
    brcc_options := pg.brcc_options.expand_vars vars,
    build_events := pg.build_events.expand_vars vars,
    ver_info := pg.ver_info.expand_vars vars,
    platform_packaging := pg.platform_packaging.expand_vars vars,
    debugger_options := pg.debugger_options.expand_vars vars,
    other := smapExpandValues pg.other vars }

/-- `PropertyGroup::collect_into_vars`. -/
def PropertyGroup.collect_into_vars (pg : PropertyGroup) (vars : SMap) : SMap :=
  let v := pg.project_properties.collect_into_vars vars
  let v := pg.dcc_options.collect_into_vars v
  let v := pg.brcc_options.collect_into_vars v
  let v := pg.build_events.collect_into_vars v
  let v := pg.ver_info.collect_into_vars v
  let v := pg.platform_packaging.collect_into_vars v
  let v := pg.debugger_options.collect_into_vars v
  smapInsertEntries v pg.other.entries

-- ─── ItemGroup and friends ─────────────────────────────────────────────────

structure DelphiCompile where
  include_ : String := ""
  main_source : Option String := none

structure DccReference where
  include_ : String := ""
  form : Option String := none
  form_type : Option String := none

structure BuildConfiguration where
  name : String := ""
  key : String := ""
  cfg_parent : Option String := none
  deriving DecidableEq

structure ItemGroup where
  delphi_compile : Option DelphiCompile := none
  dcc_references : List DccReference := []
  build_configurations : List BuildConfiguration := []

structure Import where
  project : String := ""
  condition : Option String := none

-- ─── ProjectExtensions subtree (not consulted by the embedded functions) ───

structure NameValuePair where
  name : String := ""
  value : String := ""

structure ExcludedPackage where
  name : String := ""
  description : String := ""

structure ActiveXProjectInfo where
  version : Option String := none

structure DelphiPersonality where
  parameters : List NameValuePair := []
  version_info : List NameValuePair := []
  version_info_keys : List NameValuePair := []
  type_lib_options : List NameValuePair := []
  excluded_packages : List ExcludedPackage := []
  sources : List NameValuePair := []

structure DeployFilePlatform where
  name : String := ""
  remote_name : Option String := none
  overwrite : Option String := none

structure DeployFile where
  local_name : String := ""
  configuration : Option String := none
  class_ : Option String := none
  platforms : List DeployFilePlatform := []

structure DeployClassPlatform where
  name : String := ""
  remote_dir : Option String := none
  operation : Option String := none
  extensions : Option String := none

structure DeployClass where
  name : String := ""
  required : Option String := none
  platforms : List DeployClassPlatform := []

structure ProjectRoot where
  platform : String := ""
  name : String := ""

structure Deployment where
  version : Option String := none
  deploy_files : List DeployFile := []
  deploy_classes : List DeployClass := []
  project_roots : List ProjectRoot := []

structure Platform where
  value : String := ""
  active : Bool := false

structure BorlandProject where
  delphi_personality : Option DelphiPersonality := none
  deployment : Option Deployment := none
  platforms : List Platform := []
  model_support : Option String := none
  active_x_project_info : Option ActiveXProjectInfo := none

structure ProjectExtensions where
  borland_personality : Option String := none
  borland_project_type : Option String := none
  borland_project : Option BorlandProject := none
  project_file_version : Option String := none

/-- Root representation of a `.dproj` file (`DprojProject` in src/dproj.rs). -/
structure DprojProject where
  property_groups : List PropertyGroup := []
  item_groups : List ItemGroup := []
  project_extensions : Option ProjectExtensions := none
  imports : List Import := []

structure DprojError where
  message : String
  deriving DecidableEq

/-- Handle for reading and mutating a `.dproj` file (`Dproj` in src/dproj.rs).
The `directory : Option<PathBuf>` field of the source (filesystem-path state
used only by the path accessors, which are out of the verified core) is not
modelled. -/
structure Dproj where
  source : String := ""
  env : SMap := SMap.empty
  project : DprojProject := {}

-- ═══════════════════════════════════════════════════════════════════════════
--  src/condition.rs — the condition grammar
--  (a recursive-descent rendering of the chumsky PEG: ordered choice with
--  full rewind on failure; `padded()` skips whitespace on both sides.  The
--  fuel argument only bounds recursion depth: it strictly decreases on every
--  nested call, and every cycle through the grammar consumes at least one
--  input character, so the allowance passed by `parse_condition` is ample.)
-- ═══════════════════════════════════════════════════════════════════════════

/-- The single-quote character. -/
def quoteChar : Char := Char.ofNat 39

def skipWs : List Char → List Char
  | [] => []
  | c :: rest => if c.isWhitespace then skipWs rest else c :: rest

/-- `quoted`: a single-quoted string, split into fragments by
`parse_string_parts`. -/
def parseQuoted (s : List Char) : Option (List ExprValue × List Char) :=
  match s with
  | [] => none
  | c :: rest =>
    if c = quoteChar then
      let content := rest.takeWhile (fun ch => ch ≠ quoteChar)
      match rest.dropWhile (fun ch => ch ≠ quoteChar) with
      | c2 :: rest2 => if c2 = quoteChar then some (psp_aux [] content, rest2) else none
      | [] => none
    else none

/-- `cmp_op`: `==` or `!=`. -/
def parseCmpOp : List Char → Option (CompareOp × List Char)
  | '=' :: '=' :: rest => some (CompareOp.Equal, rest)
  | '!' :: '=' :: rest => some (CompareOp.NotEqual, rest)
  | _ => none

/-- `comparison = quoted.padded() (cmp_op.padded()) quoted.padded()`. -/
def parseComparison (s : List Char) : Option (Expression × List Char) :=
  match parseQuoted (skipWs s) with
  | none => none
  | some (lhs, s1) =>
    match parseCmpOp (skipWs s1) with
    | none => none
    | some (op, s2) =>
      match parseQuoted (skipWs s2) with
      | none => none
      | some (rhs, s3) => some (Expression.Compare lhs op rhs, skipWs s3)

/-- A padded case-insensitive alphabetic keyword (`alpha_word.filter(…).padded()`). -/
def parseKeywordCI (kw : String) (s : List Char) : Option (List Char) :=
  let s1 := skipWs s
  let w := s1.takeWhile (fun c => c.isAlpha)
  if w.length ≠ 0 ∧ (String.mk w).toLower = kw then some (skipWs (s1.drop w.length))
  else none

/-- `exists = alpha_word.filter(= "exists") '(' .padded quoted ')'.padded`. -/
def parseExistsCall (s : List Char) : Option (Expression × List Char) :=
  let w := s.takeWhile (fun c => c.isAlpha)
  if w.length ≠ 0 ∧ (String.mk w).toLower = "exists" then
    match skipWs (s.drop w.length) with
    | '(' :: s2 =>
      match parseQuoted (skipWs s2) with
      | none => none
      | some (parts, s3) =>
        match skipWs s3 with
        | ')' :: s4 => some (Expression.Exists parts, skipWs s4)
        | _ => none
    | _ => none
  else none

mutual

def parseExpr (fuel : Nat) (s : List Char) : Option (Expression × List Char) :=
  match fuel with
  | 0 => none
  | fuel + 1 => parseOrExpr fuel s

def parseOrExpr (fuel : Nat) (s : List Char) : Option (Expression × List Char) :=
  match fuel with
  | 0 => none
  | fuel + 1 =>
    match parseAndExpr fuel s with
    | none => none
    | some (lhs, s1) => some (parseOrRest fuel lhs s1)

def parseOrRest (fuel : Nat) (lhs : Expression) (s : List Char) : Expression × List Char :=
  match fuel with
  | 0 => (lhs, s)
  | fuel + 1 =>
    match parseKeywordCI "or" s with
    | none => (lhs, s)
    | some s1 =>
      match parseAndExpr fuel s1 with
      | none => (lhs, s)
      | some (rhs, s2) => parseOrRest fuel (Expression.Or lhs rhs) s2

def parseAndExpr (fuel : Nat) (s : List Char) : Option (Expression × List Char) :=
  match fuel with
  | 0 => none
  | fuel + 1 =>
    match parseAtom fuel s with
    | none => none
    | some (lhs, s1) => some (parseAndRest fuel lhs s1)

def parseAndRest (fuel : Nat) (lhs : Expression) (s : List Char) : Expression × List Char :=
  match fuel with
  | 0 => (lhs, s)
  | fuel + 1 =>
    match parseKeywordCI "and" s with
    | none => (lhs, s)
    | some s1 =>
      match parseAtom fuel s1 with
      | none => (lhs, s)
      | some (rhs, s2) => parseAndRest fuel (Expression.And lhs rhs) s2

def parseAtom (fuel : Nat) (s : List Char) : Option (Expression × List Char) :=
  match fuel with
  | 0 => none
  | fuel + 1 =>
    let s0 := skipWs s
    match parseComparison s0 with
    | some r => some (r.1, skipWs r.2)
    | none =>
    match parseExistsCall s0 with
    | some r => some (r.1, skipWs r.2)
    | none =>
    match s0 with
    | '(' :: s1 =>
      match parseExpr fuel (skipWs s1) with
      | none => none
      | some (e, s2) =>
        match skipWs s2 with
        | ')' :: s3 => some (e, skipWs s3)
        | _ => none
    | _ => none

end

/-- `parse_condition` from src/condition.rs: parse a condition attribute
string; the whole input must be consumed (chumsky `parse … into_result`).
The error carries the offending input (the source formats the chumsky error
list into the message; only the success/failure outcome is relied upon). -/
def parse_condition (input : String) : Except String Expression :=
  match parseExpr (2 * input.length + 16) input.data with
  | some (e, rest) =>
    if rest = [] then Except.ok e
    else Except.error ("Failed to parse condition '" ++ input ++ "': trailing input")
  | none => Except.error ("Failed to parse condition '" ++ input ++ "'")

-- ═══════════════════════════════════════════════════════════════════════════
--  src/dproj.rs — project stem, build variables, resolver
-- ═══════════════════════════════════════════════════════════════════════════

/-- The stem of a bare file name: up to (not including) its last `.`, except
that a name whose only `.` is the leading one is kept whole. -/
def stemOfFileName (n : String) : String :=
  if (n.data.drop 1).contains '.' then
    String.mk (n.data.take (n.data.length - 1 - n.data.reverse.findIdx (fun c => c = '.')))
  else n

/-- Model of Rust `Path::file_stem` (Unix): take the last path component
(ignoring empty components and `.`), `none` for an empty path or one ending
in `..`, and strip the extension with `stemOfFileName`. -/
def pathFileStem (s : String) : Option String :=
  match ((s.split (fun c => c = '/')).filter (fun c => c ≠ "" ∧ c ≠ ".")).getLast? with
  | none => none
  | some n => if n = ".." then none else some (stemOfFileName n)

/-- `Dproj::project_stem`: `<ProjectName>` of the first unconditional group
that sets one, else the file stem of the first unconditional group's
`<MainSource>`. -/
def Dproj.project_stem (d : Dproj) : Option String :=
  match d.project.property_groups.findSome?
      (fun pg => if pg.condition.isSome then none else pg.project_properties.project_name) with
  | some name => some name
  | none =>
    match d.project.property_groups.findSome?
        (fun pg => if pg.condition.isSome then none else pg.project_properties.main_source) with
    | some main => pathFileStem main
    | none => none

theorem length_filter_not_mem_append_lt (l visited : List String) (a : String)
    (ha : a ∈ l) (hnv : a ∉ visited) :
    (l.filter (fun n => n ∉ visited ++ [a])).length
      < (l.filter (fun n => n ∉ visited)).length := by
  have hsub : List.Sublist (l.filter (fun n => n ∉ visited ++ [a]))
      (l.filter (fun n => n ∉ visited)) := by
    apply List.monotone_filter_right
    intro x hx
    simp only [List.mem_append, List.mem_singleton, decide_eq_true_eq] at hx ⊢
    exact fun hmem => hx (Or.inl hmem)
  have hmem2 : a ∈ l.filter (fun n => n ∉ visited) :=
    List.mem_filter.mpr ⟨ha, by simpa using hnv⟩
  have hnmem1 : a ∉ l.filter (fun n => n ∉ visited ++ [a]) := by
    intro hmem
    have := (List.mem_filter.mp hmem).2
    simp at this
  refine Nat.lt_of_le_of_ne hsub.length_le (fun heq => ?_)
  exact hnmem1 (hsub.eq_of_length heq ▸ hmem2)

/-- The `CfgParent` chain walk of `resolve_build_variables`: starting at
`cur`, set `vars[key] = "true"` and `vars[key_platform] = "true"` for every
configuration reached, following `cfg_parent` links, stopping at a missing
node, a missing parent, or a repeated name.  Also returns the visited-name
list that the source maintains. -/
def walkParents (cfgs : List BuildConfiguration) (platform : String)
    (visited : List String) (cur : String) (vars : SMap) : SMap × List String :=
  if hvis : cur ∈ visited then (vars, visited)
  else
    match hfind : cfgs.find? (fun bc => bc.name == cur) with
    | none => (vars, visited ++ [cur])
    | some bc =>
      let vars' := (vars.insert bc.key "true").insert (bc.key ++ "_" ++ platform) "true"
      match bc.cfg_parent with
      | none => (vars', visited ++ [cur])
      | some parent => walkParents cfgs platform (visited ++ [cur]) parent vars'
termination_by ((cfgs.map (fun bc => bc.name)).filter (fun n => n ∉ visited)).length
decreasing_by
  have hmem : bc ∈ cfgs := List.mem_of_find?_eq_some hfind
  have hname : bc.name = cur := by
    have := List.find?_some hfind
    simpa using this
  exact length_filter_not_mem_append_lt (cfgs.map (fun bc => bc.name)) visited cur
    (List.mem_map.mpr ⟨bc, hmem, hname⟩) hvis

/-- All `<BuildConfiguration>` items across the project's item groups. -/
def Dproj.build_configs (d : Dproj) : List BuildConfiguration :=
  d.project.item_groups.flatMap (fun ig => ig.build_configurations)

/-- The variable-seeding prefix of `Dproj::resolve_build_variables`: start
from the external environment, add `MSBuildProjectName` from the project stem
when one exists, then set `Config`, `Configuration` and `Platform` to the
requested values (these three override anything seeded before them). -/
def Dproj.seed_vars (d : Dproj) (config platform : String) : SMap :=
  let vars := d.env
  let vars :=
    match d.project_stem with
    | some stem => vars.insert "MSBuildProjectName" stem
    | none => vars
  let vars := vars.insert "Config" config
  let vars := vars.insert "Configuration" config
  vars.insert "Platform" platform

/-- `Dproj::resolve_build_variables` from src/dproj.rs: seed the variable
map, fail if no `<BuildConfiguration>` is named `config`, then walk the
`CfgParent` chain setting the inheritance-key variables. -/
def Dproj.resolve_build_variables (d : Dproj) (config platform : String) :
    Except DprojError SMap :=
  if d.build_configs.any (fun bc => bc.name == config) then
    Except.ok
      (walkParents d.build_configs platform [] config (d.seed_vars config platform)).1
  else
    Except.error ⟨"Build configuration '" ++ config ++ "' not found"⟩

/-- One applied group inside the `active_property_group_for` loop: expand the
group against the current variable map, merge it into the accumulator, push
the merged accumulator's fields back into the variable map, then re-assert
the build variables. -/
def apply_one (build_vars : SMap) (pg result : PropertyGroup) (vars : SMap) :
    PropertyGroup × SMap :=
  let expanded := pg.expand_vars vars
  let result' := result.merge_from expanded
  let vars' := result'.collect_into_vars vars
  (result', smapInsertEntries vars' build_vars.entries)

/-- The document-order loop of `active_property_group_for`: a group with no
condition always applies; otherwise its condition is parsed (an unparsable
condition aborts the whole resolution) and evaluated against the current
variable map. -/
def apply_property_groups (build_vars : SMap) :
    List PropertyGroup → PropertyGroup → SMap → Except DprojError (PropertyGroup × SMap)
  | [], result, vars => Except.ok (result, vars)
  | pg :: rest, result, vars =>
    match pg.condition with
    | none =>
      let st := apply_one build_vars pg result vars
      apply_property_groups build_vars rest st.1 st.2
    | some cond =>
      match parse_condition cond with
      | Except.error e => Except.error ⟨e⟩
      | Except.ok expr =>
        if evaluate expr vars then
          let st := apply_one build_vars pg result vars
          apply_property_groups build_vars rest st.1 st.2
        else
          apply_property_groups build_vars rest result vars

/-- `Dproj::active_property_group_for` from src/dproj.rs. -/
def Dproj.active_property_group_for (d : Dproj) (config platform : String) :
    Except DprojError PropertyGroup :=
  match d.resolve_build_variables config platform with
  | Except.error e => Except.error e
  | Except.ok build_vars =>
    match apply_property_groups build_vars d.project.property_groups {} build_vars with
    | Except.error e => Except.error e
    | Except.ok (result, _) => Except.ok result

/-- The accumulator loop of `Dproj::active_config_platform`: scan property
groups in document order, skipping conditional ones; take the first
`Config`-or-`Configuration` value and the first `Platform` value seen, and
stop early once both are found. -/
def acpLoop : List PropertyGroup → Option String → Option String →
    Option String × Option String
  | [], c, p => (c, p)
  | pg :: rest, c, p =>
    if pg.condition.isSome then acpLoop rest c p
    else
      let c' := if c.isNone then
          pg.project_properties.config <|> pg.project_properties.configuration
        else c
      let p' := if p.isNone then pg.project_properties.platform else p
      if c'.isSome ∧ p'.isSome then (c', p') else acpLoop rest c' p'

/-- `Dproj::active_config_platform` from src/dproj.rs. -/
def Dproj.active_config_platform (d : Dproj) : Except DprojError (String × String) :=
  match acpLoop d.project.property_groups none none with
  | (some config, some platform) => Except.ok (config, platform)
  | (none, _) =>
    Except.error ⟨"No default Config/Configuration found in unconditional PropertyGroups"⟩
  | (some _, none) =>
    Except.error ⟨"No default Platform found in unconditional PropertyGroups"⟩

/-- `Dproj::active_property_group` from src/dproj.rs. -/
def Dproj.active_property_group (d : Dproj) : Except DprojError PropertyGroup :=
  match d.active_config_platform with
  | Except.error e => Except.error e
  | Except.ok cp => d.active_property_group_for cp.1 cp.2

-- ═══════════════════════════════════════════════════════════════════════════
--  src/dproj.rs — source splicer (set_property_value)
-- ═══════════════════════════════════════════════════════════════════════════

/-- Read-only view of one child element of a top-level `<PropertyGroup>`, as
located by the external XML layer (roxmltree, an out-of-scope collaborator):
the tag name, the attributes, the element's byte range in the original
source, and the byte range of its first text child when it has one. -/
structure XmlChildElement where
  tag : String
  attrs : List (String × String)
  range_start : Nat
  range_stop : Nat
  text_range : Option (Nat × Nat)

/-- Read-only view of one top-level `<PropertyGroup>` element: its child
elements in document order. -/
structure XmlPropertyGroup where
  children : List XmlChildElement

/-- Attribute rendering used when rebuilding a self-closing element
(`element.attributes().map(|a| format!(" {}=\"{}\"", …)).collect()`). -/
def attrsString (attrs : List (String × String)) : String :=
  attrs.foldl (fun acc a => acc ++ " " ++ a.1 ++ "=\x22" ++ a.2 ++ "\x22") ""

/-- `String::replace_range`: replace the byte range `[start, stop)` of `s`
with `v`. -/
def spliceRange (s : String) (start stop : Nat) (v : String) : String :=
  String.mk (s.data.take start ++ v.data ++ s.data.drop stop)

/-- Replace the element of `l` at index `i` (the in-place slot update
`self.project.property_groups[pg_index]`; out-of-range is unreachable under
the caller's index check). -/
def listModify {α : Type} (l : List α) (i : Nat) (g : α → α) : List α :=
  match l, i with
  | [], _ => []
  | x :: xs, 0 => g x :: xs
  | x :: xs, n + 1 => x :: listModify xs n g

/-- The targeted in-memory update of `set_property_value`: try each typed
setter in order, falling back to the `other` map — the same dispatch used by
`PropertyGroup::parse`. -/
def applyTagUpdate (tag value : String) (pg : PropertyGroup) : PropertyGroup :=
  match set_project_property tag value pg.project_properties with
  | some pp => { pg with project_properties := pp }
  | none =>
  match set_dcc_option tag value pg.dcc_options with
  | some o => { pg with dcc_options := o }
  | none =>
  match set_brcc_option tag value pg.brcc_options with
  | some o => { pg with brcc_options := o }
  | none =>
  match set_build_event tag value pg.build_events with
  | some o => { pg with build_events := o }
  | none =>
  match set_ver_info tag value pg.ver_info with
  | some o => { pg with ver_info := o }
  | none =>
  match set_platform_packaging tag value pg.platform_packaging with
  | some o => { pg with platform_packaging := o }
  | none =>
  match set_debugger_option tag value pg.debugger_options with
  | some o => { pg with debugger_options := o }
  | none => { pg with other := pg.other.insert tag value }

/-- The value a `PropertyGroup` stores for an XML tag name: the typed field
reached through the same tag tables as the setters, else the catch-all
`other` entry. -/
def PropertyGroup.tag_value (pg : PropertyGroup) (tag : String) : Option String :=
  match pg.project_properties.get_tag tag with
  | some v => some v
  | none =>
  match pg.dcc_options.get_tag tag with
  | some v => some v
  | none =>
  match pg.brcc_options.get_tag tag with
  | some v => some v
  | none =>
  match pg.build_events.get_tag tag with
  | some v => some v
  | none =>
  match pg.ver_info.get_tag tag with
  | some v => some v
  | none =>
  match pg.platform_packaging.get_tag tag with
  | some v => some v
  | none =>
  match pg.debugger_options.get_tag tag with
  | some v => some v
  | none => pg.other.get tag

/-- `Dproj::set_property_value` from src/dproj.rs.  The XML location work the
source delegates to roxmltree (re-parsing `self.source` and walking to the
`pg_index`-th top-level `<PropertyGroup>` and its `tag` child) is supplied as
the read-only `view` argument; the splicing and the in-memory update are the
source's own logic. -/
def Dproj.set_property_value (d : Dproj) (view : List XmlPropertyGroup)
    (pg_index : Nat) (tag value : String) : Except DprojError Dproj :=
  match view.get? pg_index with
  | none =>
    Except.error ⟨"PropertyGroup index " ++ toString pg_index ++ " out of bounds"⟩
  | some pg_node =>
    match pg_node.children.find? (fun e => e.tag == tag) with
    | none =>
      Except.error ⟨"Element <" ++ tag ++ "> not found in PropertyGroup[" ++
        toString pg_index ++ "]"⟩
    | some element =>
      let source' :=
        match element.text_range with
        | some r => spliceRange d.source r.1 r.2 value
        | none =>
          spliceRange d.source element.range_start element.range_stop
            ("<" ++ element.tag ++ attrsString element.attrs ++ ">" ++ value ++
              "</" ++ element.tag ++ ">")
      let pgs' := listModify d.project.property_groups pg_index (applyTagUpdate tag value)
      Except.ok { d with
        source := source',
        project := { d.project with property_groups := pgs' } }

/-- `Result::is_ok` on the embedded `Except` values. -/
def isOkB {ε α : Type} : Except ε α → Bool
  | Except.ok _ => true
  | Except.error _ => false

-- ═══════════════════════════════════════════════════════════════════════════
--  Support lemmas
-- ═══════════════════════════════════════════════════════════════════════════

theorem mergeOpt_eq (a b : Option String) :
    mergeOpt a b = if b.isSome then b else a := by
  cases b <;> rfl

theorem smap_merge_get (self o : SMap) (key : String) :
    (smapInsertEntries self o.entries).get key
      = if (o.get key).isSome then o.get key else self.get key := by
  rw [smapInsertEntries_get o.entries o.nodup_keys self key]
  cases h : lookupEntries o.entries key <;> simp [SMap.get, h]

/-- C2: `PropertyGroup::merge_from` implements override-if-present semantics:
for every typed field, a field that is `some v` in `o` makes the accumulator's
field `some v`, and a field that is `none` in `o` leaves the accumulator's
field unchanged; every entry of `o`'s catch-all map overwrites the
accumulator's same-key entry and all of the accumulator's other entries are
left untouched — for all pairs of property groups. -/
theorem merge_from_override_if_present (acc o : PropertyGroup) :
    (acc.merge_from o).project_properties.project_guid
      = (if (o.project_properties.project_guid).isSome then o.project_properties.project_guid else acc.project_properties.project_guid) ∧
    (acc.merge_from o).project_properties.project_version
      = (if (o.project_properties.project_version).isSome then o.project_properties.project_version else acc.project_properties.project_version) ∧
    (acc.merge_from o).project_properties.version
      = (if (o.project_properties.version).isSome then o.project_properties.version else acc.project_properties.version) ∧
    (acc.merge_from o).project_properties.framework_type
      = (if (o.project_properties.framework_type).isSome then o.project_properties.framework_type else acc.project_properties.framework_type) ∧
    (acc.merge_from o).project_properties.config
      = (if (o.project_properties.config).isSome then o.project_properties.config else acc.project_properties.config) ∧
    (acc.merge_from o).project_properties.configuration
      = (if (o.project_properties.configuration).isSome then o.project_properties.configuration else acc.project_properties.configuration) ∧
    (acc.merge_from o).project_properties.platform
      = (if (o.project_properties.platform).isSome then o.project_properties.platform else acc.project_properties.platform) ∧
    (acc.merge_from o).project_properties.project_name
      = (if (o.project_properties.project_name).isSome then o.project_properties.project_name else acc.project_properties.project_name) ∧
    (acc.merge_from o).project_properties.targeted_platforms
      = (if (o.project_properties.targeted_platforms).isSome then o.project_properties.targeted_platforms else acc.project_properties.targeted_platforms) ∧
    (acc.merge_from o).project_properties.app_type
      = (if (o.project_properties.app_type).isSome then o.project_properties.app_type else acc.project_properties.app_type) ∧
    (acc.merge_from o).project_properties.main_source
      = (if (o.project_properties.main_source).isSome then o.project_properties.main_source else acc.project_properties.main_source) ∧
    (acc.merge_from o).project_properties.base
      = (if (o.project_properties.base).isSome then o.project_properties.base else acc.project_properties.base) ∧
    (acc.merge_from o).project_properties.cfg_parent
      = (if (o.project_properties.cfg_parent).isSome then o.project_properties.cfg_parent else acc.project_properties.cfg_parent) ∧
    (acc.merge_from o).project_properties.sanitized_project_name
      = (if (o.project_properties.sanitized_project_name).isSome then o.project_properties.sanitized_project_name else acc.project_properties.sanitized_project_name) ∧
    (acc.merge_from o).project_properties.custom_styles
      = (if (o.project_properties.custom_styles).isSome then o.project_properties.custom_styles else acc.project_properties.custom_styles) ∧
    (acc.merge_from o).project_properties.gen_package
      = (if (o.project_properties.gen_package).isSome then o.project_properties.gen_package else acc.project_properties.gen_package) ∧
    (acc.merge_from o).project_properties.gen_dll
      = (if (o.project_properties.gen_dll).isSome then o.project_properties.gen_dll else acc.project_properties.gen_dll) ∧
    (acc.merge_from o).project_properties.use_packages
      = (if (o.project_properties.use_packages).isSome then o.project_properties.use_packages else acc.project_properties.use_packages) ∧
    (acc.merge_from o).project_properties.icon_main_icon
      = (if (o.project_properties.icon_main_icon).isSome then o.project_properties.icon_main_icon else acc.project_properties.icon_main_icon) ∧
    (acc.merge_from o).project_properties.icns_main_icns
      = (if (o.project_properties.icns_main_icns).isSome then o.project_properties.icns_main_icns else acc.project_properties.icns_main_icns) ∧
    (acc.merge_from o).dcc_options.dcc_compiler
      = (if (o.dcc_options.dcc_compiler).isSome then o.dcc_options.dcc_compiler else acc.dcc_options.dcc_compiler) ∧
    (acc.merge_from o).dcc_options.dependency_check_output_name
      = (if (o.dcc_options.dependency_check_output_name).isSome then o.dcc_options.dependency_check_output_name else acc.dcc_options.dependency_check_output_name) ∧
    (acc.merge_from o).dcc_options.dcu_output
      = (if (o.dcc_options.dcu_output).isSome then o.dcc_options.dcu_output else acc.dcc_options.dcu_output) ∧
    (acc.merge_from o).dcc_options.exe_output
      = (if (o.dcc_options.exe_output).isSome then o.dcc_options.exe_output else acc.dcc_options.exe_output) ∧
    (acc.merge_from o).dcc_options.dcp_output
      = (if (o.dcc_options.dcp_output).isSome then o.dcc_options.dcp_output else acc.dcc_options.dcp_output) ∧
    (acc.merge_from o).dcc_options.bpl_output
      = (if (o.dcc_options.bpl_output).isSome then o.dcc_options.bpl_output else acc.dcc_options.bpl_output) ∧
    (acc.merge_from o).dcc_options.obj_output
      = (if (o.dcc_options.obj_output).isSome then o.dcc_options.obj_output else acc.dcc_options.obj_output) ∧
    (acc.merge_from o).dcc_options.hpp_output
      = (if (o.dcc_options.hpp_output).isSome then o.dcc_options.hpp_output else acc.dcc_options.hpp_output) ∧
    (acc.merge_from o).dcc_options.bpi_output
      = (if (o.dcc_options.bpi_output).isSome then o.dcc_options.bpi_output else acc.dcc_options.bpi_output) ∧
    (acc.merge_from o).dcc_options.cbuilder_output
      = (if (o.dcc_options.cbuilder_output).isSome then o.dcc_options.cbuilder_output else acc.dcc_options.cbuilder_output) ∧
    (acc.merge_from o).dcc_options.unit_search_path
      = (if (o.dcc_options.unit_search_path).isSome then o.dcc_options.unit_search_path else acc.dcc_options.unit_search_path) ∧
    (acc.merge_from o).dcc_options.resource_path
      = (if (o.dcc_options.resource_path).isSome then o.dcc_options.resource_path else acc.dcc_options.resource_path) ∧
    (acc.merge_from o).dcc_options.include_path
      = (if (o.dcc_options.include_path).isSome then o.dcc_options.include_path else acc.dcc_options.include_path) ∧
    (acc.merge_from o).dcc_options.obj_path
      = (if (o.dcc_options.obj_path).isSome then o.dcc_options.obj_path else acc.dcc_options.obj_path) ∧
    (acc.merge_from o).dcc_options.framework_path
      = (if (o.dcc_options.framework_path).isSome then o.dcc_options.framework_path else acc.dcc_options.framework_path) ∧
    (acc.merge_from o).dcc_options.sys_lib_root
      = (if (o.dcc_options.sys_lib_root).isSome then o.dcc_options.sys_lib_root else acc.dcc_options.sys_lib_root) ∧
    (acc.merge_from o).dcc_options.define
      = (if (o.dcc_options.define).isSome then o.dcc_options.define else acc.dcc_options.define) ∧
    (acc.merge_from o).dcc_options.namespace_
      = (if (o.dcc_options.namespace_).isSome then o.dcc_options.namespace_ else acc.dcc_options.namespace_) ∧
    (acc.merge_from o).dcc_options.unit_alias
      = (if (o.dcc_options.unit_alias).isSome then o.dcc_options.unit_alias else acc.dcc_options.unit_alias) ∧
    (acc.merge_from o).dcc_options.use_package
      = (if (o.dcc_options.use_package).isSome then o.dcc_options.use_package else acc.dcc_options.use_package) ∧
    (acc.merge_from o).dcc_options.optimize
      = (if (o.dcc_options.optimize).isSome then o.dcc_options.optimize else acc.dcc_options.optimize) ∧
    (acc.merge_from o).dcc_options.alignment
      = (if (o.dcc_options.alignment).isSome then o.dcc_options.alignment else acc.dcc_options.alignment) ∧
    (acc.merge_from o).dcc_options.minimum_enum_size
      = (if (o.dcc_options.minimum_enum_size).isSome then o.dcc_options.minimum_enum_size else acc.dcc_options.minimum_enum_size) ∧
    (acc.merge_from o).dcc_options.code_page
      = (if (o.dcc_options.code_page).isSome then o.dcc_options.code_page else acc.dcc_options.code_page) ∧
    (acc.merge_from o).dcc_options.inlining
      = (if (o.dcc_options.inlining).isSome then o.dcc_options.inlining else acc.dcc_options.inlining) ∧
    (acc.merge_from o).dcc_options.generate_stack_frames
      = (if (o.dcc_options.generate_stack_frames).isSome then o.dcc_options.generate_stack_frames else acc.dcc_options.generate_stack_frames) ∧
    (acc.merge_from o).dcc_options.generate_pic_code
      = (if (o.dcc_options.generate_pic_code).isSome then o.dcc_options.generate_pic_code else acc.dcc_options.generate_pic_code) ∧
    (acc.merge_from o).dcc_options.generate_android_app_bundle_file
      = (if (o.dcc_options.generate_android_app_bundle_file).isSome then o.dcc_options.generate_android_app_bundle_file else acc.dcc_options.generate_android_app_bundle_file) ∧
    (acc.merge_from o).dcc_options.generate_osx_universal_binary_file
      = (if (o.dcc_options.generate_osx_universal_binary_file).isSome then o.dcc_options.generate_osx_universal_binary_file else acc.dcc_options.generate_osx_universal_binary_file) ∧
    (acc.merge_from o).dcc_options.e
      = (if (o.dcc_options.e).isSome then o.dcc_options.e else acc.dcc_options.e) ∧
    (acc.merge_from o).dcc_options.n
      = (if (o.dcc_options.n).isSome then o.dcc_options.n else acc.dcc_options.n) ∧
    (acc.merge_from o).dcc_options.s
      = (if (o.dcc_options.s).isSome then o.dcc_options.s else acc.dcc_options.s) ∧
    (acc.merge_from o).dcc_options.f
      = (if (o.dcc_options.f).isSome then o.dcc_options.f else acc.dcc_options.f) ∧
    (acc.merge_from o).dcc_options.k
      = (if (o.dcc_options.k).isSome then o.dcc_options.k else acc.dcc_options.k) ∧
    (acc.merge_from o).dcc_options.extended_stx
      = (if (o.dcc_options.extended_stx).isSome then o.dcc_options.extended_stx else acc.dcc_options.extended_stx) ∧
    (acc.merge_from o).dcc_options.long_strings
      = (if (o.dcc_options.long_strings).isSome then o.dcc_options.long_strings else acc.dcc_options.long_strings) ∧
    (acc.merge_from o).dcc_options.open_string_params
      = (if (o.dcc_options.open_string_params).isSome then o.dcc_options.open_string_params else acc.dcc_options.open_string_params) ∧
    (acc.merge_from o).dcc_options.strict_var_strings
      = (if (o.dcc_options.strict_var_strings).isSome then o.dcc_options.strict_var_strings else acc.dcc_options.strict_var_strings) ∧
    (acc.merge_from o).dcc_options.typed_at_parameter
      = (if (o.dcc_options.typed_at_parameter).isSome then o.dcc_options.typed_at_parameter else acc.dcc_options.typed_at_parameter) ∧
    (acc.merge_from o).dcc_options.full_boolean_evaluations
      = (if (o.dcc_options.full_boolean_evaluations).isSome then o.dcc_options.full_boolean_evaluations else acc.dcc_options.full_boolean_evaluations) ∧
    (acc.merge_from o).dcc_options.writeable_constants
      = (if (o.dcc_options.writeable_constants).isSome then o.dcc_options.writeable_constants else acc.dcc_options.writeable_constants) ∧
    (acc.merge_from o).dcc_options.run_time_type_info
      = (if (o.dcc_options.run_time_type_info).isSome then o.dcc_options.run_time_type_info else acc.dcc_options.run_time_type_info) ∧
    (acc.merge_from o).dcc_options.pentium_safe_divide
      = (if (o.dcc_options.pentium_safe_divide).isSome then o.dcc_options.pentium_safe_divide else acc.dcc_options.pentium_safe_divide) ∧
    (acc.merge_from o).dcc_options.io_checking
      = (if (o.dcc_options.io_checking).isSome then o.dcc_options.io_checking else acc.dcc_options.io_checking) ∧
    (acc.merge_from o).dcc_options.integer_overflow_check
      = (if (o.dcc_options.integer_overflow_check).isSome then o.dcc_options.integer_overflow_check else acc.dcc_options.integer_overflow_check) ∧
    (acc.merge_from o).dcc_options.range_checking
      = (if (o.dcc_options.range_checking).isSome then o.dcc_options.range_checking else acc.dcc_options.range_checking) ∧
    (acc.merge_from o).dcc_options.assertions_at_runtime
      = (if (o.dcc_options.assertions_at_runtime).isSome then o.dcc_options.assertions_at_runtime else acc.dcc_options.assertions_at_runtime) ∧
    (acc.merge_from o).dcc_options.imported_data_references
      = (if (o.dcc_options.imported_data_references).isSome then o.dcc_options.imported_data_references else acc.dcc_options.imported_data_references) ∧
    (acc.merge_from o).dcc_options.debug_information
      = (if (o.dcc_options.debug_information).isSome then o.dcc_options.debug_information else acc.dcc_options.debug_information) ∧
    (acc.merge_from o).dcc_options.local_debug_symbols
      = (if (o.dcc_options.local_debug_symbols).isSome then o.dcc_options.local_debug_symbols else acc.dcc_options.local_debug_symbols) ∧
    (acc.merge_from o).dcc_options.symbol_reference_info
      = (if (o.dcc_options.symbol_reference_info).isSome then o.dcc_options.symbol_reference_info else acc.dcc_options.symbol_reference_info) ∧
    (acc.merge_from o).dcc_options.debug_dcus
      = (if (o.dcc_options.debug_dcus).isSome then o.dcc_options.debug_dcus else acc.dcc_options.debug_dcus) ∧
    (acc.merge_from o).dcc_options.debug_info_in_exe
      = (if (o.dcc_options.debug_info_in_exe).isSome then o.dcc_options.debug_info_in_exe else acc.dcc_options.debug_info_in_exe) ∧
    (acc.merge_from o).dcc_options.debug_info_in_tds
      = (if (o.dcc_options.debug_info_in_tds).isSome then o.dcc_options.debug_info_in_tds else acc.dcc_options.debug_info_in_tds) ∧
    (acc.merge_from o).dcc_options.debug_vn
      = (if (o.dcc_options.debug_vn).isSome then o.dcc_options.debug_vn else acc.dcc_options.debug_vn) ∧
    (acc.merge_from o).dcc_options.remote_debug
      = (if (o.dcc_options.remote_debug).isSome then o.dcc_options.remote_debug else acc.dcc_options.remote_debug) ∧
    (acc.merge_from o).dcc_options.hints
      = (if (o.dcc_options.hints).isSome then o.dcc_options.hints else acc.dcc_options.hints) ∧
    (acc.merge_from o).dcc_options.warnings
      = (if (o.dcc_options.warnings).isSome then o.dcc_options.warnings else acc.dcc_options.warnings) ∧
    (acc.merge_from o).dcc_options.show_general_messages
      = (if (o.dcc_options.show_general_messages).isSome then o.dcc_options.show_general_messages else acc.dcc_options.show_general_messages) ∧
    (acc.merge_from o).dcc_options.console_target
      = (if (o.dcc_options.console_target).isSome then o.dcc_options.console_target else acc.dcc_options.console_target) ∧
    (acc.merge_from o).dcc_options.description
      = (if (o.dcc_options.description).isSome then o.dcc_options.description else acc.dcc_options.description) ∧
    (acc.merge_from o).dcc_options.additional_switches
      = (if (o.dcc_options.additional_switches).isSome then o.dcc_options.additional_switches else acc.dcc_options.additional_switches) ∧
    (acc.merge_from o).dcc_options.linker_options
      = (if (o.dcc_options.linker_options).isSome then o.dcc_options.linker_options else acc.dcc_options.linker_options) ∧
    (acc.merge_from o).dcc_options.image_base
      = (if (o.dcc_options.image_base).isSome then o.dcc_options.image_base else acc.dcc_options.image_base) ∧
    (acc.merge_from o).dcc_options.map_file
      = (if (o.dcc_options.map_file).isSome then o.dcc_options.map_file else acc.dcc_options.map_file) ∧
    (acc.merge_from o).dcc_options.map_file_arm
      = (if (o.dcc_options.map_file_arm).isSome then o.dcc_options.map_file_arm else acc.dcc_options.map_file_arm) ∧
    (acc.merge_from o).dcc_options.stack_size
      = (if (o.dcc_options.stack_size).isSome then o.dcc_options.stack_size else acc.dcc_options.stack_size) ∧
    (acc.merge_from o).dcc_options.max_stack_size
      = (if (o.dcc_options.max_stack_size).isSome then o.dcc_options.max_stack_size else acc.dcc_options.max_stack_size) ∧
    (acc.merge_from o).dcc_options.min_stack_size
      = (if (o.dcc_options.min_stack_size).isSome then o.dcc_options.min_stack_size else acc.dcc_options.min_stack_size) ∧
    (acc.merge_from o).dcc_options.base_address
      = (if (o.dcc_options.base_address).isSome then o.dcc_options.base_address else acc.dcc_options.base_address) ∧
    (acc.merge_from o).dcc_options.pe_flags
      = (if (o.dcc_options.pe_flags).isSome then o.dcc_options.pe_flags else acc.dcc_options.pe_flags) ∧
    (acc.merge_from o).dcc_options.pe_opt_flags
      = (if (o.dcc_options.pe_opt_flags).isSome then o.dcc_options.pe_opt_flags else acc.dcc_options.pe_opt_flags) ∧
    (acc.merge_from o).dcc_options.pe_os_version
      = (if (o.dcc_options.pe_os_version).isSome then o.dcc_options.pe_os_version else acc.dcc_options.pe_os_version) ∧
    (acc.merge_from o).dcc_options.pe_sub_sys_version
      = (if (o.dcc_options.pe_sub_sys_version).isSome then o.dcc_options.pe_sub_sys_version else acc.dcc_options.pe_sub_sys_version) ∧
    (acc.merge_from o).dcc_options.pe_user_version
      = (if (o.dcc_options.pe_user_version).isSome then o.dcc_options.pe_user_version else acc.dcc_options.pe_user_version) ∧
    (acc.merge_from o).dcc_options.nx_compat
      = (if (o.dcc_options.nx_compat).isSome then o.dcc_options.nx_compat else acc.dcc_options.nx_compat) ∧
    (acc.merge_from o).dcc_options.dynamic_base
      = (if (o.dcc_options.dynamic_base).isSome then o.dcc_options.dynamic_base else acc.dcc_options.dynamic_base) ∧
    (acc.merge_from o).dcc_options.high_entropy_va
      = (if (o.dcc_options.high_entropy_va).isSome then o.dcc_options.high_entropy_va else acc.dcc_options.high_entropy_va) ∧
    (acc.merge_from o).dcc_options.ts_aware
      = (if (o.dcc_options.ts_aware).isSome then o.dcc_options.ts_aware else acc.dcc_options.ts_aware) ∧
    (acc.merge_from o).dcc_options.large_address_aware
      = (if (o.dcc_options.large_address_aware).isSome then o.dcc_options.large_address_aware else acc.dcc_options.large_address_aware) ∧
    (acc.merge_from o).dcc_options.allow_undefined
      = (if (o.dcc_options.allow_undefined).isSome then o.dcc_options.allow_undefined else acc.dcc_options.allow_undefined) ∧
    (acc.merge_from o).dcc_options.output_xml_documentation
      = (if (o.dcc_options.output_xml_documentation).isSome then o.dcc_options.output_xml_documentation else acc.dcc_options.output_xml_documentation) ∧
    (acc.merge_from o).dcc_options.output_dependencies
      = (if (o.dcc_options.output_dependencies).isSome then o.dcc_options.output_dependencies else acc.dcc_options.output_dependencies) ∧
    (acc.merge_from o).dcc_options.output_drc_file
      = (if (o.dcc_options.output_drc_file).isSome then o.dcc_options.output_drc_file else acc.dcc_options.output_drc_file) ∧
    (acc.merge_from o).dcc_options.old_dos_file_names
      = (if (o.dcc_options.old_dos_file_names).isSome then o.dcc_options.old_dos_file_names else acc.dcc_options.old_dos_file_names) ∧
    (acc.merge_from o).dcc_options.xml_output
      = (if (o.dcc_options.xml_output).isSome then o.dcc_options.xml_output else acc.dcc_options.xml_output) ∧
    (acc.merge_from o).dcc_options.remove_tmp_lnk_file
      = (if (o.dcc_options.remove_tmp_lnk_file).isSome then o.dcc_options.remove_tmp_lnk_file else acc.dcc_options.remove_tmp_lnk_file) ∧
    (acc.merge_from o).dcc_options.include_dcus_in_uses_completion
      = (if (o.dcc_options.include_dcus_in_uses_completion).isSome then o.dcc_options.include_dcus_in_uses_completion else acc.dcc_options.include_dcus_in_uses_completion) ∧
    (acc.merge_from o).dcc_options.use_msbuild_externally
      = (if (o.dcc_options.use_msbuild_externally).isSome then o.dcc_options.use_msbuild_externally else acc.dcc_options.use_msbuild_externally) ∧
    (acc.merge_from o).dcc_options.legacy_ifend
      = (if (o.dcc_options.legacy_ifend).isSome then o.dcc_options.legacy_ifend else acc.dcc_options.legacy_ifend) ∧
    (acc.merge_from o).dcc_options.hpp_output_arm
      = (if (o.dcc_options.hpp_output_arm).isSome then o.dcc_options.hpp_output_arm else acc.dcc_options.hpp_output_arm) ∧
    (acc.merge_from o).dcc_options.ios_minimum_version
      = (if (o.dcc_options.ios_minimum_version).isSome then o.dcc_options.ios_minimum_version else acc.dcc_options.ios_minimum_version) ∧
    (acc.merge_from o).dcc_options.macos_arm_minimum_version
      = (if (o.dcc_options.macos_arm_minimum_version).isSome then o.dcc_options.macos_arm_minimum_version else acc.dcc_options.macos_arm_minimum_version) ∧
    (acc.merge_from o).dcc_options.macos_minimum_version
      = (if (o.dcc_options.macos_minimum_version).isSome then o.dcc_options.macos_minimum_version else acc.dcc_options.macos_minimum_version) ∧
    (acc.merge_from o).brcc_options.user_supplied_options
      = (if (o.brcc_options.user_supplied_options).isSome then o.brcc_options.user_supplied_options else acc.brcc_options.user_supplied_options) ∧
    (acc.merge_from o).brcc_options.code_page
      = (if (o.brcc_options.code_page).isSome then o.brcc_options.code_page else acc.brcc_options.code_page) ∧
    (acc.merge_from o).brcc_options.language
      = (if (o.brcc_options.language).isSome then o.brcc_options.language else acc.brcc_options.language) ∧
    (acc.merge_from o).brcc_options.delete_include_path
      = (if (o.brcc_options.delete_include_path).isSome then o.brcc_options.delete_include_path else acc.brcc_options.delete_include_path) ∧
    (acc.merge_from o).brcc_options.enable_multi_byte
      = (if (o.brcc_options.enable_multi_byte).isSome then o.brcc_options.enable_multi_byte else acc.brcc_options.enable_multi_byte) ∧
    (acc.merge_from o).brcc_options.compiler_to_use
      = (if (o.brcc_options.compiler_to_use).isSome then o.brcc_options.compiler_to_use else acc.brcc_options.compiler_to_use) ∧
    (acc.merge_from o).brcc_options.response_filename
      = (if (o.brcc_options.response_filename).isSome then o.brcc_options.response_filename else acc.brcc_options.response_filename) ∧
    (acc.merge_from o).brcc_options.verbose
      = (if (o.brcc_options.verbose).isSome then o.brcc_options.verbose else acc.brcc_options.verbose) ∧
    (acc.merge_from o).brcc_options.defines
      = (if (o.brcc_options.defines).isSome then o.brcc_options.defines else acc.brcc_options.defines) ∧
    (acc.merge_from o).brcc_options.include_path
      = (if (o.brcc_options.include_path).isSome then o.brcc_options.include_path else acc.brcc_options.include_path) ∧
    (acc.merge_from o).brcc_options.output_dir
      = (if (o.brcc_options.output_dir).isSome then o.brcc_options.output_dir else acc.brcc_options.output_dir) ∧
    (acc.merge_from o).build_events.pre_build_event
      = (if (o.build_events.pre_build_event).isSome then o.build_events.pre_build_event else acc.build_events.pre_build_event) ∧
    (acc.merge_from o).build_events.pre_build_event_cancel_on_error
      = (if (o.build_events.pre_build_event_cancel_on_error).isSome then o.build_events.pre_build_event_cancel_on_error else acc.build_events.pre_build_event_cancel_on_error) ∧
    (acc.merge_from o).build_events.pre_build_event_ignore_exit_code
      = (if (o.build_events.pre_build_event_ignore_exit_code).isSome then o.build_events.pre_build_event_ignore_exit_code else acc.build_events.pre_build_event_ignore_exit_code) ∧
    (acc.merge_from o).build_events.pre_link_event
      = (if (o.build_events.pre_link_event).isSome then o.build_events.pre_link_event else acc.build_events.pre_link_event) ∧
    (acc.merge_from o).build_events.pre_link_event_cancel_on_error
      = (if (o.build_events.pre_link_event_cancel_on_error).isSome then o.build_events.pre_link_event_cancel_on_error else acc.build_events.pre_link_event_cancel_on_error) ∧
    (acc.merge_from o).build_events.pre_link_event_ignore_exit_code
      = (if (o.build_events.pre_link_event_ignore_exit_code).isSome then o.build_events.pre_link_event_ignore_exit_code else acc.build_events.pre_link_event_ignore_exit_code) ∧
    (acc.merge_from o).build_events.post_build_event
      = (if (o.build_events.post_build_event).isSome then o.build_events.post_build_event else acc.build_events.post_build_event) ∧
    (acc.merge_from o).build_events.post_build_event_cancel_on_error
      = (if (o.build_events.post_build_event_cancel_on_error).isSome then o.build_events.post_build_event_cancel_on_error else acc.build_events.post_build_event_cancel_on_error) ∧
    (acc.merge_from o).build_events.post_build_event_ignore_exit_code
      = (if (o.build_events.post_build_event_ignore_exit_code).isSome then o.build_events.post_build_event_ignore_exit_code else acc.build_events.post_build_event_ignore_exit_code) ∧
    (acc.merge_from o).build_events.post_build_event_execute_when
      = (if (o.build_events.post_build_event_execute_when).isSome then o.build_events.post_build_event_execute_when else acc.build_events.post_build_event_execute_when) ∧
    (acc.merge_from o).ver_info.include_ver_info
      = (if (o.ver_info.include_ver_info).isSome then o.ver_info.include_ver_info else acc.ver_info.include_ver_info) ∧
    (acc.merge_from o).ver_info.major_ver
      = (if (o.ver_info.major_ver).isSome then o.ver_info.major_ver else acc.ver_info.major_ver) ∧
    (acc.merge_from o).ver_info.minor_ver
      = (if (o.ver_info.minor_ver).isSome then o.ver_info.minor_ver else acc.ver_info.minor_ver) ∧
    (acc.merge_from o).ver_info.release
      = (if (o.ver_info.release).isSome then o.ver_info.release else acc.ver_info.release) ∧
    (acc.merge_from o).ver_info.build
      = (if (o.ver_info.build).isSome then o.ver_info.build else acc.ver_info.build) ∧
    (acc.merge_from o).ver_info.debug
      = (if (o.ver_info.debug).isSome then o.ver_info.debug else acc.ver_info.debug) ∧
    (acc.merge_from o).ver_info.pre_release
      = (if (o.ver_info.pre_release).isSome then o.ver_info.pre_release else acc.ver_info.pre_release) ∧
    (acc.merge_from o).ver_info.special
      = (if (o.ver_info.special).isSome then o.ver_info.special else acc.ver_info.special) ∧
    (acc.merge_from o).ver_info.private_
      = (if (o.ver_info.private_).isSome then o.ver_info.private_ else acc.ver_info.private_) ∧
    (acc.merge_from o).ver_info.dll
      = (if (o.ver_info.dll).isSome then o.ver_info.dll else acc.ver_info.dll) ∧
    (acc.merge_from o).ver_info.auto_gen_version
      = (if (o.ver_info.auto_gen_version).isSome then o.ver_info.auto_gen_version else acc.ver_info.auto_gen_version) ∧
    (acc.merge_from o).ver_info.locale
      = (if (o.ver_info.locale).isSome then o.ver_info.locale else acc.ver_info.locale) ∧
    (acc.merge_from o).ver_info.keys
      = (if (o.ver_info.keys).isSome then o.ver_info.keys else acc.ver_info.keys) ∧
    (acc.merge_from o).platform_packaging.app_dpi_awareness_mode
      = (if (o.platform_packaging.app_dpi_awareness_mode).isSome then o.platform_packaging.app_dpi_awareness_mode else acc.platform_packaging.app_dpi_awareness_mode) ∧
    (acc.merge_from o).platform_packaging.app_enable_runtime_themes
      = (if (o.platform_packaging.app_enable_runtime_themes).isSome then o.platform_packaging.app_enable_runtime_themes else acc.platform_packaging.app_enable_runtime_themes) ∧
    (acc.merge_from o).platform_packaging.app_execution_level
      = (if (o.platform_packaging.app_execution_level).isSome then o.platform_packaging.app_execution_level else acc.platform_packaging.app_execution_level) ∧
    (acc.merge_from o).platform_packaging.app_execution_level_ui_access
      = (if (o.platform_packaging.app_execution_level_ui_access).isSome then o.platform_packaging.app_execution_level_ui_access else acc.platform_packaging.app_execution_level_ui_access) ∧
    (acc.merge_from o).platform_packaging.manifest_file
      = (if (o.platform_packaging.manifest_file).isSome then o.platform_packaging.manifest_file else acc.platform_packaging.manifest_file) ∧
    (acc.merge_from o).platform_packaging.output_ext
      = (if (o.platform_packaging.output_ext).isSome then o.platform_packaging.output_ext else acc.platform_packaging.output_ext) ∧
    (acc.merge_from o).platform_packaging.bt_build_type
      = (if (o.platform_packaging.bt_build_type).isSome then o.platform_packaging.bt_build_type else acc.platform_packaging.bt_build_type) ∧
    (acc.merge_from o).platform_packaging.pf_uwp_publisher
      = (if (o.platform_packaging.pf_uwp_publisher).isSome then o.platform_packaging.pf_uwp_publisher else acc.platform_packaging.pf_uwp_publisher) ∧
    (acc.merge_from o).platform_packaging.pf_uwp_package_name
      = (if (o.platform_packaging.pf_uwp_package_name).isSome then o.platform_packaging.pf_uwp_package_name else acc.platform_packaging.pf_uwp_package_name) ∧
    (acc.merge_from o).platform_packaging.pf_uwp_package_display_name
      = (if (o.platform_packaging.pf_uwp_package_display_name).isSome then o.platform_packaging.pf_uwp_package_display_name else acc.platform_packaging.pf_uwp_package_display_name) ∧
    (acc.merge_from o).platform_packaging.pf_uwp_publisher_display_name
      = (if (o.platform_packaging.pf_uwp_publisher_display_name).isSome then o.platform_packaging.pf_uwp_publisher_display_name else acc.platform_packaging.pf_uwp_publisher_display_name) ∧
    (acc.merge_from o).platform_packaging.pf_uwp_distribution_type
      = (if (o.platform_packaging.pf_uwp_distribution_type).isSome then o.platform_packaging.pf_uwp_distribution_type else acc.platform_packaging.pf_uwp_distribution_type) ∧
    (acc.merge_from o).platform_packaging.uwp_delphi_logo44
      = (if (o.platform_packaging.uwp_delphi_logo44).isSome then o.platform_packaging.uwp_delphi_logo44 else acc.platform_packaging.uwp_delphi_logo44) ∧
    (acc.merge_from o).platform_packaging.uwp_delphi_logo150
      = (if (o.platform_packaging.uwp_delphi_logo150).isSome then o.platform_packaging.uwp_delphi_logo150 else acc.platform_packaging.uwp_delphi_logo150) ∧
    (acc.merge_from o).debugger_options.include_system_vars
      = (if (o.debugger_options.include_system_vars).isSome then o.debugger_options.include_system_vars else acc.debugger_options.include_system_vars) ∧
    (acc.merge_from o).debugger_options.env_vars
      = (if (o.debugger_options.env_vars).isSome then o.debugger_options.env_vars else acc.debugger_options.env_vars) ∧
    (acc.merge_from o).debugger_options.symbol_source_path
      = (if (o.debugger_options.symbol_source_path).isSome then o.debugger_options.symbol_source_path else acc.debugger_options.symbol_source_path) ∧
    (acc.merge_from o).debugger_options.run_params
      = (if (o.debugger_options.run_params).isSome then o.debugger_options.run_params else acc.debugger_options.run_params) ∧
    ∀ key, (acc.merge_from o).other.get key
      = (if (o.other.get key).isSome then o.other.get key else acc.other.get key) :=
  ⟨mergeOpt_eq _ _,
   mergeOpt_eq _ _,
   mergeOpt_eq _ _,
   mergeOpt_eq _ _,
   mergeOpt_eq _ _,
   mergeOpt_eq _ _,
   mergeOpt_eq _ _,
   mergeOpt_eq _ _,
   mergeOpt_eq _ _,
   mergeOpt_eq _ _,
   mergeOpt_eq _ _,
   mergeOpt_eq _ _,
   mergeOpt_eq _ _,
   mergeOpt_eq _ _,
   mergeOpt_eq _ _,
   mergeOpt_eq _ _,
   mergeOpt_eq _ _,
   mergeOpt_eq _ _,
   mergeOpt_eq _ _,
   mergeOpt_eq _ _,
   mergeOpt_eq _ _,
   mergeOpt_eq _ _,
   mergeOpt_eq _ _,
   mergeOpt_eq _ _,
   mergeOpt_eq _ _,
   mergeOpt_eq _ _,
   mergeOpt_eq _ _,
   mergeOpt_eq _ _,
   mergeOpt_eq _ _,
   mergeOpt_eq _ _,
   mergeOpt_eq _ _,
   mergeOpt_eq _ _,
   mergeOpt_eq _ _,
   mergeOpt_eq _ _,
   mergeOpt_eq _ _,
   mergeOpt_eq _ _,
   mergeOpt_eq _ _,
   mergeOpt_eq _ _,
   mergeOpt_eq _ _,
   mergeOpt_eq _ _,
   mergeOpt_eq _ _,
   mergeOpt_eq _ _,
   mergeOpt_eq _ _,
   mergeOpt_eq _ _,
   mergeOpt_eq _ _,
   mergeOpt_eq _ _,
   mergeOpt_eq _ _,
   mergeOpt_eq _ _,
   mergeOpt_eq _ _,
   mergeOpt_eq _ _,
   mergeOpt_eq _ _,
   mergeOpt_eq _ _,
   mergeOpt_eq _ _,
   mergeOpt_eq _ _,
   mergeOpt_eq _ _,
   mergeOpt_eq _ _,
   mergeOpt_eq _ _,
   mergeOpt_eq _ _,
   mergeOpt_eq _ _,
   mergeOpt_eq _ _,
   mergeOpt_eq _ _,
   mergeOpt_eq _ _,
   mergeOpt_eq _ _,
   mergeOpt_eq _ _,
   mergeOpt_eq _ _,
   mergeOpt_eq _ _,
   mergeOpt_eq _ _,
   mergeOpt_eq _ _,
   mergeOpt_eq _ _,
   mergeOpt_eq _ _,
   mergeOpt_eq _ _,
   mergeOpt_eq _ _,
   mergeOpt_eq _ _,
   mergeOpt_eq _ _,
   mergeOpt_eq _ _,
   mergeOpt_eq _ _,
   mergeOpt_eq _ _,
   mergeOpt_eq _ _,
   mergeOpt_eq _ _,
   mergeOpt_eq _ _,
   mergeOpt_eq _ _,
   mergeOpt_eq _ _,
   mergeOpt_eq _ _,
   mergeOpt_eq _ _,
   mergeOpt_eq _ _,
   mergeOpt_eq _ _,
   mergeOpt_eq _ _,
   mergeOpt_eq _ _,
   mergeOpt_eq _ _,
   mergeOpt_eq _ _,
   mergeOpt_eq _ _,
   mergeOpt_eq _ _,
   mergeOpt_eq _ _,
   mergeOpt_eq _ _,
   mergeOpt_eq _ _,
   mergeOpt_eq _ _,
   mergeOpt_eq _ _,
   mergeOpt_eq _ _,
   mergeOpt_eq _ _,
   mergeOpt_eq _ _,
   mergeOpt_eq _ _,
   mergeOpt_eq _ _,
   mergeOpt_eq _ _,
   mergeOpt_eq _ _,
   mergeOpt_eq _ _,
   mergeOpt_eq _ _,
   mergeOpt_eq _ _,
   mergeOpt_eq _ _,
   mergeOpt_eq _ _,
   mergeOpt_eq _ _,
   mergeOpt_eq _ _,
   mergeOpt_eq _ _,
   mergeOpt_eq _ _,
   mergeOpt_eq _ _,
   mergeOpt_eq _ _,
   mergeOpt_eq _ _,
   mergeOpt_eq _ _,
   mergeOpt_eq _ _,
   mergeOpt_eq _ _,
   mergeOpt_eq _ _,
   mergeOpt_eq _ _,
   mergeOpt_eq _ _,
   mergeOpt_eq _ _,
   mergeOpt_eq _ _,
   mergeOpt_eq _ _,
   mergeOpt_eq _ _,
   mergeOpt_eq _ _,
   mergeOpt_eq _ _,
   mergeOpt_eq _ _,
   mergeOpt_eq _ _,
   mergeOpt_eq _ _,
   mergeOpt_eq _ _,
   mergeOpt_eq _ _,
   mergeOpt_eq _ _,
   mergeOpt_eq _ _,
   mergeOpt_eq _ _,
   mergeOpt_eq _ _,
   mergeOpt_eq _ _,
   mergeOpt_eq _ _,
   mergeOpt_eq _ _,
   mergeOpt_eq _ _,
   mergeOpt_eq _ _,
   mergeOpt_eq _ _,
   mergeOpt_eq _ _,
   mergeOpt_eq _ _,
   mergeOpt_eq _ _,
   mergeOpt_eq _ _,
   mergeOpt_eq _ _,
   mergeOpt_eq _ _,
   mergeOpt_eq _ _,
   mergeOpt_eq _ _,
   mergeOpt_eq _ _,
   mergeOpt_eq _ _,
   mergeOpt_eq _ _,
   mergeOpt_eq _ _,
   mergeOpt_eq _ _,
   mergeOpt_eq _ _,
   mergeOpt_eq _ _,
   mergeOpt_eq _ _,
   mergeOpt_eq _ _,
   mergeOpt_eq _ _,
   mergeOpt_eq _ _,
   mergeOpt_eq _ _,
   mergeOpt_eq _ _,
   mergeOpt_eq _ _,
   mergeOpt_eq _ _,
   fun key => smap_merge_get acc.other o.other key⟩

/-- C8: `evaluate(Exists(p), vars)` is `true` for every fragment sequence and
every variable map (including the empty one); the evaluator performs no
filesystem probe and never reads `vars` for an `Exists` expression. -/
theorem evaluate_exists_always_true (parts : List ExprValue) (vars : SMap) :
    evaluate (Expression.Exists parts) vars = true := rfl

/-- C5: `resolve_build_variables` returns the "configuration not found" error
whenever no `BuildConfiguration` in the project's item groups is named
`config` — for every environment, platform and configuration list. -/
theorem resolve_build_variables_not_found (d : Dproj) (config platform : String)
    (h : ∀ bc ∈ d.build_configs, bc.name ≠ config) :
    d.resolve_build_variables config platform
      = Except.error ⟨"Build configuration '" ++ config ++ "' not found"⟩ := by
  unfold Dproj.resolve_build_variables
  have hany : d.build_configs.any (fun bc => bc.name == config) = false := by
    rw [List.any_eq_false]
    intro bc hmem
    simpa using h bc hmem
  rw [hany]
  rfl

/-- Plain unfolding equation for `walkParents`. -/
theorem walkParents_eq (cfgs : List BuildConfiguration) (platform : String)
    (visited : List String) (cur : String) (vars : SMap) :
    walkParents cfgs platform visited cur vars =
      if cur ∈ visited then (vars, visited)
      else
        match cfgs.find? (fun bc => bc.name == cur) with
        | none => (vars, visited ++ [cur])
        | some bc =>
          let vars' := (vars.insert bc.key "true").insert
            (bc.key ++ "_" ++ platform) "true"
          match bc.cfg_parent with
          | none => (vars', visited ++ [cur])
          | some parent => walkParents cfgs platform (visited ++ [cur]) parent vars' := by
  rw [walkParents]
  by_cases hvis : cur ∈ visited
  · rw [dif_pos hvis, if_pos hvis]
  · rw [dif_neg hvis, if_neg hvis]
    split
    · next heq => rw [heq]
    · next bc heq => rw [heq]

/-- The chain walk never pushes a name that is already in the visited list,
so the visited list stays duplicate-free. -/
theorem walkParents_visited_nodup (cfgs : List BuildConfiguration)
    (platform : String) :
    ∀ (visited : List String) (cur : String) (vars : SMap), visited.Nodup →
    ((walkParents cfgs platform visited cur vars).2).Nodup := by
  intro visited cur vars
  induction visited, cur, vars using walkParents.induct cfgs platform with
  | case1 visited cur vars hvis =>
    intro h
    rw [walkParents_eq, if_pos hvis]
    exact h
  | case2 visited cur vars hvis hfind =>
    intro h
    rw [walkParents_eq, if_neg hvis]
    simp only [hfind]
    simp [List.nodup_append, h, hvis]
  | case3 visited cur vars hvis bc hfind hpar =>
    intro h
    rw [walkParents_eq, if_neg hvis]
    simp only [hfind, hpar]
    simp [List.nodup_append, h, hvis]
  | case4 visited cur vars hvis bc hfind vars' parent hpar ih =>
    intro h
    rw [walkParents_eq, if_neg hvis]
    simp only [hfind, hpar]
    exact ih (by simp [List.nodup_append, h, hvis])

/-- Every variable the chain walk writes has value `"true"`, so a binding to
`"true"` survives the whole walk. -/
theorem walkParents_get_true (cfgs : List BuildConfiguration) (platform : String) :
    ∀ (visited : List String) (cur : String) (vars : SMap), ∀ k : String,
    vars.get k = some "true" →
    ((walkParents cfgs platform visited cur vars).1).get k = some "true" := by
  intro visited cur vars
  induction visited, cur, vars using walkParents.induct cfgs platform with
  | case1 visited cur vars hvis =>
    intro k h
    rw [walkParents_eq, if_pos hvis]
    exact h
  | case2 visited cur vars hvis hfind =>
    intro k h
    rw [walkParents_eq, if_neg hvis]
    simp only [hfind]
    exact h
  | case3 visited cur vars hvis bc hfind hpar =>
    intro k h
    rw [walkParents_eq, if_neg hvis]
    simp only [hfind, hpar]
    rw [SMap.get_insert]
    split
    · rfl
    · rw [SMap.get_insert]
      split
      · rfl
      · exact h
  | case4 visited cur vars hvis bc hfind vars' parent hpar ih =>
    intro k h
    rw [walkParents_eq, if_neg hvis]
    simp only [hfind, hpar]
    apply ih
    rw [SMap.get_insert]
    split
    · rfl
    · rw [SMap.get_insert]
      split
      · rfl
      · exact h

/-- Keys the chain walk does not touch keep their seeded values. -/
theorem walkParents_get_untouched (cfgs : List BuildConfiguration)
    (platform : String) (k : String)
    (hk : ∀ bc ∈ cfgs, bc.key ≠ k ∧ bc.key ++ "_" ++ platform ≠ k) :
    ∀ (visited : List String) (cur : String) (vars : SMap),
    ((walkParents cfgs platform visited cur vars).1).get k = vars.get k := by
  intro visited cur vars
  induction visited, cur, vars using walkParents.induct cfgs platform with
  | case1 visited cur vars hvis =>
    rw [walkParents_eq, if_pos hvis]
  | case2 visited cur vars hvis hfind =>
    rw [walkParents_eq, if_neg hvis]
    simp only [hfind]
  | case3 visited cur vars hvis bc hfind hpar =>
    rw [walkParents_eq, if_neg hvis]
    simp only [hfind, hpar]
    have hbc := hk bc (List.mem_of_find?_eq_some hfind)
    rw [SMap.get_insert, if_neg hbc.2, SMap.get_insert, if_neg hbc.1]
  | case4 visited cur vars hvis bc hfind vars' parent hpar ih =>
    rw [walkParents_eq, if_neg hvis]
    simp only [hfind, hpar]
    have hbc := hk bc (List.mem_of_find?_eq_some hfind)
    rw [ih, SMap.get_insert, if_neg hbc.2, SMap.get_insert, if_neg hbc.1]

/-- Every name the walk adds to the visited list has its configuration's
inheritance key (and key_platform combination) bound to `"true"` in the walk's
final map. -/
theorem walkParents_visited_key (cfgs : List BuildConfiguration)
    (platform : String) (name : String) (bc : BuildConfiguration)
    (hfindn : cfgs.find? (fun b => b.name == name) = some bc) :
    ∀ (visited : List String) (cur : String) (vars : SMap),
    name ∈ (walkParents cfgs platform visited cur vars).2 →
    name ∉ visited →
    ((walkParents cfgs platform visited cur vars).1).get bc.key = some "true" ∧
    ((walkParents cfgs platform visited cur vars).1).get
      (bc.key ++ "_" ++ platform) = some "true" := by
  intro visited cur vars
  induction visited, cur, vars using walkParents.induct cfgs platform with
  | case1 visited cur vars hvis =>
    intro hmem hnot
    rw [walkParents_eq, if_pos hvis] at hmem ⊢
    exact absurd hmem hnot
  | case2 visited cur vars hvis hfind =>
    intro hmem hnot
    rw [walkParents_eq, if_neg hvis] at hmem ⊢
    simp only [hfind] at hmem ⊢
    have : name = cur := by
      rcases List.mem_append.mp hmem with h | h
      · exact absurd h hnot
      · simpa using h
    subst this
    rw [hfindn] at hfind
    exact Option.noConfusion hfind
  | case3 visited cur vars hvis bc' hfind hpar =>
    intro hmem hnot
    rw [walkParents_eq, if_neg hvis] at hmem ⊢
    simp only [hfind, hpar] at hmem ⊢
    have : name = cur := by
      rcases List.mem_append.mp hmem with h | h
      · exact absurd h hnot
      · simpa using h
    subst this
    rw [hfindn] at hfind
    have hbc : bc' = bc := by
      injection hfind with h2
      exact h2.symm
    subst hbc
    constructor
    · rw [SMap.get_insert]
      split
      · rfl
      · rw [SMap.get_insert, if_pos rfl]
    · rw [SMap.get_insert, if_pos rfl]
  | case4 visited cur vars hvis bc' hfind vars' parent hpar ih =>
    intro hmem hnot
    rw [walkParents_eq, if_neg hvis] at hmem ⊢
    simp only [hfind, hpar] at hmem ⊢
    by_cases hnv : name ∈ visited ++ [cur]
    · have hname : name = cur := by
        rcases List.mem_append.mp hnv with h | h
        · exact absurd h hnot
        · simpa using h
      subst hname
      rw [hfindn] at hfind
      have hbc : bc' = bc := by
        injection hfind with h2
        exact h2.symm
      subst hbc
      constructor
      · apply walkParents_get_true
        rw [SMap.get_insert]
        split
        · rfl
        · rw [SMap.get_insert, if_pos rfl]
      · apply walkParents_get_true
        rw [SMap.get_insert, if_pos rfl]
    · exact ih hmem hnv

-- ═══════════════════════════════════════════════════════════════════════════
--  Spec-side definitions and concrete instances used by the claims
-- ═══════════════════════════════════════════════════════════════════════════

/-- Spec reading of the default configuration: the `Config`-or-`Configuration`
value of the first unconditional property group that sets one. -/
def firstUncondConfig (d : Dproj) : Option String :=
  d.project.property_groups.findSome?
    (fun pg => if pg.condition.isSome then none
               else pg.project_properties.config <|> pg.project_properties.configuration)

/-- Spec reading of the default platform: the `Platform` value of the first
unconditional property group that sets one. -/
def firstUncondPlatform (d : Dproj) : Option String :=
  d.project.property_groups.findSome?
    (fun pg => if pg.condition.isSome then none else pg.project_properties.platform)

def pgEmpty : PropertyGroup := {}

def bcDebug : BuildConfiguration := { name := "Debug", key := "Cfg_1" }

/-- A project with no build configurations at all. -/
def dprojNoConfigs : Dproj := {}

/-- A `CfgParent` cycle: configuration `A` parents to `B`, which parents back
to `A`. -/
def cfgsCycle : List BuildConfiguration :=
  [{ name := "A", key := "Base", cfg_parent := some "B" },
   { name := "B", key := "Cfg_1", cfg_parent := some "A" }]

def dprojCycle : Dproj :=
  { project := { item_groups := [{ build_configurations := cfgsCycle }] } }

/-- A property group whose condition string does not match the grammar. -/
def pgBadCondition : PropertyGroup := { condition := some "(" }

def dprojBadCondition : Dproj :=
  { project := { property_groups := [pgBadCondition],
                 item_groups := [{ build_configurations := [bcDebug] }] } }

/-- First unconditional group sets only `Config`. -/
def pgConfigOnly : PropertyGroup :=
  { project_properties := { config := some "Debug" } }

/-- Second unconditional group sets only `Platform`. -/
def pgPlatformOnly : PropertyGroup :=
  { project_properties := { platform := some "Win32" } }

/-- The default configuration and the default platform come from two
different unconditional groups. -/
def dprojSplitDefaults : Dproj :=
  { project := { property_groups := [pgConfigOnly, pgPlatformOnly],
                 item_groups := [{ build_configurations := [bcDebug] }] } }

/-- An environment that already defines `MSBuildProjectName`, in a project
with no unconditional `ProjectName`/`MainSource`. -/
def dprojEnvSeeded : Dproj :=
  { env := SMap.empty.insert "MSBuildProjectName" "ambient",
    project := { item_groups := [{ build_configurations := [bcDebug] }] } }

/-- A build configuration whose inheritance key is literally `Config`. -/
def bcKeyConfig : BuildConfiguration := { name := "Debug", key := "Config" }

def pgCondDebug : PropertyGroup := { condition := some "'$(Config)'=='Debug'" }

def dprojKeyShadow : Dproj :=
  { project := { property_groups := [pgCondDebug],
                 item_groups := [{ build_configurations := [bcKeyConfig] }] } }

/-- An unconditional group that sets a project-authored `Config` default. -/
def pgSetsConfig : PropertyGroup :=
  { project_properties := { config := some "Release" } }

def dprojReassert : Dproj :=
  { project := { property_groups := [pgSetsConfig],
                 item_groups := [{ build_configurations := [bcDebug] }] } }

/-- The build-variable map `dprojReassert` resolves for `Debug`/`Win32`. -/
def bvReassert : SMap :=
  (walkParents dprojReassert.build_configs "Win32" [] "Debug"
    (dprojReassert.seed_vars "Debug" "Win32")).1

/-- The state after the resolver loop applies `pgSetsConfig`. -/
def stReassert : PropertyGroup × SMap :=
  apply_one bvReassert pgSetsConfig {} bvReassert

def dprojSplice : Dproj :=
  { source := "<ProjectVersion>20.1</ProjectVersion>",
    project := { property_groups := [pgEmpty] } }

def spliceView : List XmlPropertyGroup :=
  [⟨[⟨"ProjectVersion", [], 0, 37, some (16, 20)⟩]⟩]

-- ═══════════════════════════════════════════════════════════════════════════
--  C6 and C5 (continued)
-- ═══════════════════════════════════════════════════════════════════════════

/-- C6: the inheritance-chain walk visits each configuration name at most
once (its visited trace is duplicate-free) and — being a total function — it
terminates on every configuration list, cycles included; and whenever the
requested configuration exists the resolution returns `Ok`: a cyclic chain
only stops the walk early, it never produces an error. -/
theorem walk_visits_once_and_ok :
    (∀ (cfgs : List BuildConfiguration) (platform cur : String) (vars : SMap),
      ((walkParents cfgs platform [] cur vars).2).Nodup) ∧
    (∀ (d : Dproj) (config platform : String),
      (∃ bc ∈ d.build_configs, bc.name = config) →
      isOkB (d.resolve_build_variables config platform) = true) := by
  constructor
  · intro cfgs platform cur vars
    exact walkParents_visited_nodup cfgs platform [] cur vars List.nodup_nil
  · intro d config platform h
    rcases h with ⟨bc, hmem, hname⟩
    unfold Dproj.resolve_build_variables
    have hany : d.build_configs.any (fun bc => bc.name == config) = true :=
      List.any_eq_true.mpr ⟨bc, hmem, by simpa using hname⟩
    rw [hany]
    rfl

/-- Witness for C6 on the spec's own example: the cycle `A → B → A`
terminates with a duplicate-free visit list and an `Ok` result. -/
theorem walk_visits_once_and_ok_witness :
    ((walkParents cfgsCycle "Win32" [] "A" SMap.empty).2).Nodup ∧
    (∃ bc ∈ dprojCycle.build_configs, bc.name = "A") ∧
    isOkB (dprojCycle.resolve_build_variables "A" "Win32") = true :=
  ⟨walk_visits_once_and_ok.1 cfgsCycle "Win32" "A" SMap.empty,
   by decide,
   walk_visits_once_and_ok.2 dprojCycle "A" "Win32" (by decide)⟩

/-- Witness for C5: the spec's `resolve_build_variables("DoesNotExist", …)`
example on a project with no configurations. -/
theorem resolve_build_variables_not_found_witness :
    (∀ bc ∈ dprojNoConfigs.build_configs, bc.name ≠ "DoesNotExist") ∧
    dprojNoConfigs.resolve_build_variables "DoesNotExist" "Win32"
      = Except.error ⟨"Build configuration 'DoesNotExist' not found"⟩ :=
  ⟨by decide,
   resolve_build_variables_not_found dprojNoConfigs "DoesNotExist" "Win32" (by decide)⟩

-- ═══════════════════════════════════════════════════════════════════════════
--  C9 : an unparsable condition anywhere aborts the resolution
-- ═══════════════════════════════════════════════════════════════════════════

theorem apply_groups_cons_none (build_vars : SMap) (g : PropertyGroup)
    (rest : List PropertyGroup) (result : PropertyGroup) (vars : SMap)
    (h : g.condition = none) :
    apply_property_groups build_vars (g :: rest) result vars
      = apply_property_groups build_vars rest
          (apply_one build_vars g result vars).1
          (apply_one build_vars g result vars).2 := by
  rw [apply_property_groups, h]

theorem apply_groups_cons_some (build_vars : SMap) (g : PropertyGroup)
    (rest : List PropertyGroup) (result : PropertyGroup) (vars : SMap)
    (c : String) (hc : g.condition = some c) :
    apply_property_groups build_vars (g :: rest) result vars
      = match parse_condition c with
        | Except.error e => Except.error ⟨e⟩
        | Except.ok expr =>
          if evaluate expr vars then
            apply_property_groups build_vars rest
              (apply_one build_vars g result vars).1
              (apply_one build_vars g result vars).2
          else
            apply_property_groups build_vars rest result vars := by
  rw [apply_property_groups, hc]

theorem apply_groups_err_of_bad_condition (build_vars : SMap)
    (groups : List PropertyGroup) :
    ∀ (result : PropertyGroup) (vars : SMap),
    (∃ pg ∈ groups, ∃ c, pg.condition = some c ∧ isOkB (parse_condition c) = false) →
    isOkB (apply_property_groups build_vars groups result vars) = false := by
  induction groups with
  | nil =>
    intro result vars h
    rcases h with ⟨pg, hmem, -⟩
    exact absurd hmem (List.not_mem_nil pg)
  | cons g rest ih =>
    intro result vars h
    rcases h with ⟨pg, hmem, c, hc, hbad⟩
    rcases List.mem_cons.mp hmem with rfl | hmem'
    · rw [apply_groups_cons_some build_vars pg rest result vars c hc]
      cases hp : parse_condition c with
      | error e => rfl
      | ok expr =>
        rw [hp] at hbad
        simp [isOkB] at hbad
    · cases hcond : g.condition with
      | none =>
        rw [apply_groups_cons_none build_vars g rest result vars hcond]
        exact ih _ _ ⟨pg, hmem', c, hc, hbad⟩
      | some c' =>
        rw [apply_groups_cons_some build_vars g rest result vars c' hcond]
        cases hp : parse_condition c' with
        | error e => rfl
        | ok expr =>
          by_cases hev : evaluate expr vars
          · simp only [hev, if_true]
            exact ih _ _ ⟨pg, hmem', c, hc, hbad⟩
          · simp only [hev, if_false]
            exact ih _ _ ⟨pg, hmem', c, hc, hbad⟩

/-- C9: if any property group in the document carries a condition string that
`parse_condition` rejects, `active_property_group_for` returns an error — no
partially merged result is ever produced, regardless of whether the group
would have applied or where it sits in document order. -/
theorem active_group_errors_on_unparsable_condition (d : Dproj)
    (config platform : String)
    (h : ∃ pg ∈ d.project.property_groups, ∃ c,
        pg.condition = some c ∧ isOkB (parse_condition c) = false) :
    isOkB (d.active_property_group_for config platform) = false := by
  unfold Dproj.active_property_group_for
  cases hres : d.resolve_build_variables config platform with
  | error e => rfl
  | ok build_vars =>
    dsimp only
    have hbad := apply_groups_err_of_bad_condition build_vars d.project.property_groups
      {} build_vars h
    cases happ : apply_property_groups build_vars d.project.property_groups {} build_vars with
    | error e => rfl
    | ok pr =>
      rw [happ] at hbad
      simp [isOkB] at hbad

/-- Witness for C9: a project whose only property group has the unparsable
condition `(`. -/
theorem active_group_errors_on_unparsable_condition_witness :
    (∃ pg ∈ dprojBadCondition.project.property_groups, ∃ c,
        pg.condition = some c ∧ isOkB (parse_condition c) = false) ∧
    isOkB (dprojBadCondition.active_property_group_for "Debug" "Win32") = false :=
  ⟨⟨pgBadCondition, by simp [dprojBadCondition], "(", rfl, by decide⟩,
   active_group_errors_on_unparsable_condition dprojBadCondition "Debug" "Win32"
     ⟨pgBadCondition, by simp [dprojBadCondition], "(", rfl, by decide⟩⟩

-- ═══════════════════════════════════════════════════════════════════════════
--  C4 : where the default Config / Platform come from
-- ═══════════════════════════════════════════════════════════════════════════

theorem acpLoop_eq (groups : List PropertyGroup) :
    ∀ (c p : Option String),
    acpLoop groups c p =
      (c <|> groups.findSome? (fun pg => if pg.condition.isSome then none
          else pg.project_properties.config <|> pg.project_properties.configuration),
       p <|> groups.findSome? (fun pg => if pg.condition.isSome then none
          else pg.project_properties.platform)) := by
  induction groups with
  | nil =>
    intro c p
    cases c <;> cases p <;> rfl
  | cons pg rest ih =>
    intro c p
    rw [acpLoop]
    by_cases hcond : pg.condition.isSome
    · simp only [hcond, if_true, List.findSome?_cons, ih]
    · have hcond' : pg.condition.isSome = false := by simpa using hcond
      simp only [hcond', Bool.false_eq_true, if_false, List.findSome?_cons]
      rcases c with _ | cv
      · rcases p with _ | pv
        · cases hcc : pg.project_properties.config <|> pg.project_properties.configuration with
          | none =>
            cases hplat : pg.project_properties.platform with
            | none => simp [hcc, hplat, ih]
            | some z => simp [hcc, hplat, ih]
          | some y =>
            cases hplat : pg.project_properties.platform with
            | none => simp [hcc, hplat, ih]
            | some z => simp [hcc, hplat, ih]
        · cases hcc : pg.project_properties.config <|> pg.project_properties.configuration with
          | none => simp [hcc, ih]
          | some y => simp [hcc, ih]
      · rcases p with _ | pv
        · cases hplat : pg.project_properties.platform with
          | none => simp [hplat, ih]
          | some z => simp [hplat, ih]
        · simp [ih]

/-- Counterexample to C4 as stated: the default configuration and platform
are drawn from two *different* unconditional property groups — the first
unconditional group sets only `Config` and carries no `Platform` — yet
`active_property_group()` succeeds instead of returning an error. -/
theorem active_property_group_split_defaults_cx :
    dprojSplitDefaults.project.property_groups.head? = some pgConfigOnly ∧
    pgConfigOnly.project_properties.platform = none ∧
    dprojSplitDefaults.active_config_platform = Except.ok ("Debug", "Win32") ∧
    isOkB dprojSplitDefaults.active_property_group = true :=
  ⟨rfl, rfl, rfl, rfl⟩

/-- C4 (amended): `active_config_platform` reads the default configuration
from the first unconditional group that sets `Config` or `Configuration`, and
the default platform from the first unconditional group that sets `Platform`
— not necessarily the same group; it errs only when no unconditional group
sets the one (checked first) or the other, and `active_property_group` then
fails the same way. -/
theorem active_config_platform_defaults (d : Dproj) :
    (d.active_config_platform =
      match firstUncondConfig d, firstUncondPlatform d with
      | some c, some p => Except.ok (c, p)
      | none, _ =>
        Except.error ⟨"No default Config/Configuration found in unconditional PropertyGroups"⟩
      | some _, none =>
        Except.error ⟨"No default Platform found in unconditional PropertyGroups"⟩) ∧
    ((firstUncondConfig d = none ∨ firstUncondPlatform d = none) →
      isOkB d.active_property_group = false) := by
  have h1 : acpLoop d.project.property_groups none none
      = (firstUncondConfig d, firstUncondPlatform d) := by
    rw [acpLoop_eq]
    rfl
  have hacp : d.active_config_platform =
      match firstUncondConfig d, firstUncondPlatform d with
      | some c, some p => Except.ok (c, p)
      | none, _ =>
        Except.error ⟨"No default Config/Configuration found in unconditional PropertyGroups"⟩
      | some _, none =>
        Except.error ⟨"No default Platform found in unconditional PropertyGroups"⟩ := by
    unfold Dproj.active_config_platform
    rw [h1]
    cases firstUncondConfig d <;> cases firstUncondPlatform d <;> rfl
  refine ⟨hacp, fun hor => ?_⟩
  unfold Dproj.active_property_group
  cases hfc : firstUncondConfig d with
  | none =>
    rw [hfc] at hacp
    rw [hacp]
    rfl
  | some cv =>
    cases hfp : firstUncondPlatform d with
    | none =>
      rw [hfc, hfp] at hacp
      rw [hacp]
      rfl
    | some pv =>
      rw [hfc, hfp] at hor
      rcases hor with h | h <;> exact Option.noConfusion h

/-- Witness for the amended C4 on a project with no property groups at all:
no unconditional group sets a default, so the resolution fails. -/
theorem active_config_platform_defaults_witness :
    (firstUncondConfig dprojNoConfigs = none ∨
      firstUncondPlatform dprojNoConfigs = none) ∧
    isOkB dprojNoConfigs.active_property_group = false :=
  ⟨Or.inl rfl, (active_config_platform_defaults dprojNoConfigs).2 (Or.inl rfl)⟩

-- ═══════════════════════════════════════════════════════════════════════════
--  Seed-map lemmas and the resolve decomposition
-- ═══════════════════════════════════════════════════════════════════════════

theorem seed_vars_get_config (d : Dproj) (config platform : String) :
    (d.seed_vars config platform).get "Config" = some config := by
  unfold Dproj.seed_vars
  rw [SMap.get_insert, if_neg (by decide), SMap.get_insert, if_neg (by decide),
    SMap.get_insert, if_pos rfl]

theorem seed_vars_get_configuration (d : Dproj) (config platform : String) :
    (d.seed_vars config platform).get "Configuration" = some config := by
  unfold Dproj.seed_vars
  rw [SMap.get_insert, if_neg (by decide), SMap.get_insert, if_pos rfl]

theorem seed_vars_get_platform (d : Dproj) (config platform : String) :
    (d.seed_vars config platform).get "Platform" = some platform := by
  unfold Dproj.seed_vars
  rw [SMap.get_insert, if_pos rfl]

theorem seed_vars_get_msbuild (d : Dproj) (config platform : String) :
    (d.seed_vars config platform).get "MSBuildProjectName" =
      match d.project_stem with
      | some stem => some stem
      | none => d.env.get "MSBuildProjectName" := by
  unfold Dproj.seed_vars
  rw [SMap.get_insert, if_neg (by decide), SMap.get_insert, if_neg (by decide),
    SMap.get_insert, if_neg (by decide)]
  cases d.project_stem with
  | some stem =>
    dsimp only
    rw [SMap.get_insert, if_pos rfl]
  | none => rfl

theorem resolve_ok_elim (d : Dproj) (config platform : String) (bv : SMap)
    (hres : d.resolve_build_variables config platform = Except.ok bv) :
    bv = (walkParents d.build_configs platform [] config
      (d.seed_vars config platform)).1 := by
  unfold Dproj.resolve_build_variables at hres
  by_cases hany : d.build_configs.any (fun bc => bc.name == config) = true
  · rw [if_pos hany] at hres
    injection hres with h
    exact h.symm
  · rw [if_neg hany] at hres
    exact Except.noConfusion hres

-- ═══════════════════════════════════════════════════════════════════════════
--  C10 : the MSBuildProjectName variable
-- ═══════════════════════════════════════════════════════════════════════════

/-- Counterexample to C10 as stated: when no unconditional group sets
`ProjectName` or `MainSource` but the seeded environment itself defines
`MSBuildProjectName`, the variable is *not* absent from the result — the
environment value survives. -/
theorem resolve_msbuild_project_name_env_cx :
    dprojEnvSeeded.project_stem = none ∧
    (dprojEnvSeeded.resolve_build_variables "Debug" "Win32").map
      (fun m => m.get "MSBuildProjectName") = Except.ok (some "ambient") := by
  refine ⟨rfl, ?_⟩
  have hget : ((walkParents dprojEnvSeeded.build_configs "Win32" [] "Debug"
      (dprojEnvSeeded.seed_vars "Debug" "Win32")).1).get "MSBuildProjectName"
      = some "ambient" := by
    rw [walkParents_get_untouched dprojEnvSeeded.build_configs "Win32"
      "MSBuildProjectName" (by decide)]
    rw [seed_vars_get_msbuild]
    rfl
  have hres : dprojEnvSeeded.resolve_build_variables "Debug" "Win32"
      = Except.ok ((walkParents dprojEnvSeeded.build_configs "Win32" [] "Debug"
          (dprojEnvSeeded.seed_vars "Debug" "Win32")).1) := by
    unfold Dproj.resolve_build_variables
    rw [if_pos (by decide)]
  rw [hres]
  dsimp only [Except.map]
  rw [hget]

/-- C10 (amended): `resolve_build_variables` binds `MSBuildProjectName` to
the project stem (the `ProjectName` of the first unconditional group that
sets one, else the file stem of the first unconditional group's
`MainSource`) before `Config`/`Configuration`/`Platform` are set; when no
unconditional group sets either field the binding is whatever the seeded
environment holds for `MSBuildProjectName` — absent only if the environment
also lacks it — provided no walked inheritance key is itself named
`MSBuildProjectName`. -/
theorem resolve_msbuild_project_name (d : Dproj) (config platform : String)
    (m : SMap)
    (hkeys : ∀ bc ∈ d.build_configs, bc.key ≠ "MSBuildProjectName" ∧
        bc.key ++ "_" ++ platform ≠ "MSBuildProjectName")
    (hres : d.resolve_build_variables config platform = Except.ok m) :
    m.get "MSBuildProjectName" =
      match d.project_stem with
      | some stem => some stem
      | none => d.env.get "MSBuildProjectName" := by
  rw [resolve_ok_elim d config platform m hres]
  rw [walkParents_get_untouched d.build_configs platform "MSBuildProjectName" hkeys]
  exact seed_vars_get_msbuild d config platform

/-- Witness for the amended C10 on the environment-seeded project. -/
theorem resolve_msbuild_project_name_witness :
    (∀ bc ∈ dprojEnvSeeded.build_configs, bc.key ≠ "MSBuildProjectName" ∧
        bc.key ++ "_" ++ "Win32" ≠ "MSBuildProjectName") ∧
    ((walkParents dprojEnvSeeded.build_configs "Win32" [] "Debug"
        (dprojEnvSeeded.seed_vars "Debug" "Win32")).1).get "MSBuildProjectName"
      = match dprojEnvSeeded.project_stem with
        | some stem => some stem
        | none => dprojEnvSeeded.env.get "MSBuildProjectName" :=
  ⟨by decide,
   resolve_msbuild_project_name dprojEnvSeeded "Debug" "Win32" _ (by decide) rfl⟩

-- ═══════════════════════════════════════════════════════════════════════════
--  C1 : build variables are re-asserted after every applied group
-- ═══════════════════════════════════════════════════════════════════════════

/-- Every binding of the build-variable map survives the resolver loop: after
each applied group pushes its merged fields into the variable map, the build
variables are re-inserted, so at every condition-evaluation point the
variable map agrees with the build-variable map on the latter's keys. -/
theorem apply_groups_preserves_build_vars (build_vars : SMap)
    (groups : List PropertyGroup) :
    ∀ (result : PropertyGroup) (vars : SMap) (r : PropertyGroup) (vars' : SMap),
    (∀ k v, build_vars.get k = some v → vars.get k = some v) →
    apply_property_groups build_vars groups result vars = Except.ok (r, vars') →
    (∀ k v, build_vars.get k = some v → vars'.get k = some v) := by
  induction groups with
  | nil =>
    intro result vars r vars' hinv happ
    injection happ with h
    intro k v hk
    rw [← (Prod.mk.injEq _ _ _ _ |>.mp h).2]
    exact hinv k v hk
  | cons g rest ih =>
    intro result vars r vars' hinv happ
    cases hcond : g.condition with
    | none =>
      rw [apply_groups_cons_none _ _ _ _ _ hcond] at happ
      exact ih _ _ _ _
        (fun k v hk => smapInsertEntries_get_of_get build_vars _ k v hk) happ
    | some c =>
      rw [apply_groups_cons_some _ _ _ _ _ _ hcond] at happ
      cases hp : parse_condition c with
      | error e =>
        rw [hp] at happ
        exact Except.noConfusion happ
      | ok expr =>
        rw [hp] at happ
        dsimp only at happ
        by_cases hev : evaluate expr vars = true
        · rw [if_pos hev] at happ
          exact ih _ _ _ _
            (fun k v hk => smapInsertEntries_get_of_get build_vars _ k v hk) happ
        · rw [if_neg hev] at happ
          exact ih _ _ _ _ hinv happ

/-- C1 (amended): at the moment the `i`-th group's condition is evaluated
(i.e. after the loop has processed the first `i` groups), the variable map
still carries every binding of the step-1 build-variable map — re-asserting
after each applied group means configuration/platform selection can never be
shadowed by a project-authored default; in particular, provided no walked
inheritance key (or its `key_platform` combination) is itself named
`Config`, `Configuration` or `Platform`, the map sends `Config` and
`Configuration` to the requested config, `Platform` to the requested
platform, and every walked inheritance key to `"true"`.  (Without the
proviso a `BuildConfiguration` whose key is literally `Config` is written
after the requested value and overrides it — see the counterexample.) -/
theorem active_group_reasserted_build_vars (d : Dproj) (config platform : String)
    (bv : SMap) (i : Nat) (r : PropertyGroup) (vars : SMap)
    (hres : d.resolve_build_variables config platform = Except.ok bv)
    (hkeys : ∀ bc ∈ d.build_configs,
        bc.key ≠ "Config" ∧ bc.key ≠ "Configuration" ∧ bc.key ≠ "Platform" ∧
        bc.key ++ "_" ++ platform ≠ "Config" ∧
        bc.key ++ "_" ++ platform ≠ "Configuration" ∧
        bc.key ++ "_" ++ platform ≠ "Platform")
    (happ : apply_property_groups bv (d.project.property_groups.take i) {} bv
        = Except.ok (r, vars)) :
    vars.get "Config" = some config ∧
    vars.get "Configuration" = some config ∧
    vars.get "Platform" = some platform ∧
    (∀ k v, bv.get k = some v → vars.get k = some v) ∧
    (∀ (name : String) (bc : BuildConfiguration),
      name ∈ (walkParents d.build_configs platform [] config
        (d.seed_vars config platform)).2 →
      d.build_configs.find? (fun b => b.name == name) = some bc →
      vars.get bc.key = some "true" ∧
      vars.get (bc.key ++ "_" ++ platform) = some "true") := by
  have hbv := resolve_ok_elim d config platform bv hres
  have hpres := apply_groups_preserves_build_vars bv
    (d.project.property_groups.take i) {} bv r vars (fun _ _ h => h) happ
  refine ⟨?_, ?_, ?_, hpres, ?_⟩
  · apply hpres
    rw [hbv, walkParents_get_untouched _ _ _
      (fun bc hm => ⟨(hkeys bc hm).1, (hkeys bc hm).2.2.2.1⟩)]
    exact seed_vars_get_config d config platform
  · apply hpres
    rw [hbv, walkParents_get_untouched _ _ _
      (fun bc hm => ⟨(hkeys bc hm).2.1, (hkeys bc hm).2.2.2.2.1⟩)]
    exact seed_vars_get_configuration d config platform
  · apply hpres
    rw [hbv, walkParents_get_untouched _ _ _
      (fun bc hm => ⟨(hkeys bc hm).2.2.1, (hkeys bc hm).2.2.2.2.2⟩)]
    exact seed_vars_get_platform d config platform
  · intro name bc hmem hfind
    have hw := walkParents_visited_key d.build_configs platform name bc hfind
      [] config (d.seed_vars config platform) hmem (by simp)
    constructor
    · apply hpres
      rw [hbv]
      exact hw.1
    · apply hpres
      rw [hbv]
      exact hw.2

/-- Counterexample to C1 as stated: a `BuildConfiguration` whose inheritance
key is literally `Config` is walked after the requested configuration is set,
so at the moment the document's (conditional) group is evaluated the variable
map sends `Config` to `"true"`, not to the requested `"Debug"`. -/
theorem active_group_config_shadowed_cx :
    dprojKeyShadow.project.property_groups.head? = some pgCondDebug ∧
    pgCondDebug.condition.isSome = true ∧
    (dprojKeyShadow.resolve_build_variables "Debug" "Win32").map
      (fun bv => bv.get "Config") = Except.ok (some "true") := by
  refine ⟨rfl, rfl, ?_⟩
  have hres : dprojKeyShadow.resolve_build_variables "Debug" "Win32"
      = Except.ok ((walkParents dprojKeyShadow.build_configs "Win32" [] "Debug"
          (dprojKeyShadow.seed_vars "Debug" "Win32")).1) := by
    unfold Dproj.resolve_build_variables
    rw [if_pos (by decide)]
  rw [hres]
  dsimp only [Except.map]
  rw [walkParents_eq]
  rfl

/-- Witness for the amended C1: an unconditional group sets a
project-authored `<Config>Release</Config>` default, yet after it is applied
the variable map still maps `Config` to the requested `Debug`. -/
theorem active_group_reasserted_build_vars_witness :
    dprojReassert.resolve_build_variables "Debug" "Win32" = Except.ok bvReassert ∧
    (∀ bc ∈ dprojReassert.build_configs,
        bc.key ≠ "Config" ∧ bc.key ≠ "Configuration" ∧ bc.key ≠ "Platform" ∧
        bc.key ++ "_" ++ "Win32" ≠ "Config" ∧
        bc.key ++ "_" ++ "Win32" ≠ "Configuration" ∧
        bc.key ++ "_" ++ "Win32" ≠ "Platform") ∧
    apply_property_groups bvReassert (dprojReassert.project.property_groups.take 1)
        {} bvReassert = Except.ok (stReassert.1, stReassert.2) ∧
    (stReassert.2.get "Config" = some "Debug" ∧
     stReassert.2.get "Configuration" = some "Debug" ∧
     stReassert.2.get "Platform" = some "Win32" ∧
     (∀ k v, bvReassert.get k = some v → stReassert.2.get k = some v) ∧
     (∀ (name : String) (bc : BuildConfiguration),
       name ∈ (walkParents dprojReassert.build_configs "Win32" [] "Debug"
         (dprojReassert.seed_vars "Debug" "Win32")).2 →
       dprojReassert.build_configs.find? (fun b => b.name == name) = some bc →
       stReassert.2.get bc.key = some "true" ∧
       stReassert.2.get (bc.key ++ "_" ++ "Win32") = some "true")) := by
  have hres : dprojReassert.resolve_build_variables "Debug" "Win32"
      = Except.ok bvReassert := by
    unfold Dproj.resolve_build_variables
    rw [if_pos (by decide)]
    rfl
  have happ : apply_property_groups bvReassert
      (dprojReassert.project.property_groups.take 1) {} bvReassert
      = Except.ok (stReassert.1, stReassert.2) := rfl
  exact ⟨hres, by decide, happ,
    active_group_reasserted_build_vars dprojReassert "Debug" "Win32" bvReassert 1
      stReassert.1 stReassert.2 hres (by decide) happ⟩

-- ═══════════════════════════════════════════════════════════════════════════
--  C3 : set_property_value — typed dispatch lemmas
-- ═══════════════════════════════════════════════════════════════════════════

/-- A successful typed set stores `v` where the mirrored tag table reads it back. -/
theorem set_project_property_get_tag (tag v : String) (x x2 : ProjectProperties)
    (h : set_project_property tag v x = some x2) :
    ProjectProperties.get_tag x2 tag = some v := by
  unfold set_project_property at h
  unfold ProjectProperties.get_tag
  by_cases h0 : tag = "ProjectGuid"
  · rw [if_pos h0] at h ⊢
    injection h with h2
    subst h2
    rfl
  rw [if_neg h0] at h ⊢
  by_cases h1 : tag = "ProjectVersion"
  · rw [if_pos h1] at h ⊢
    injection h with h2
    subst h2
    rfl
  rw [if_neg h1] at h ⊢
  by_cases h2 : tag = "Version"
  · rw [if_pos h2] at h ⊢
    injection h with h2
    subst h2
    rfl
  rw [if_neg h2] at h ⊢
  by_cases h3 : tag = "FrameworkType"
  · rw [if_pos h3] at h ⊢
    injection h with h2
    subst h2
    rfl
  rw [if_neg h3] at h ⊢
  by_cases h4 : tag = "Config"
  · rw [if_pos h4] at h ⊢
    injection h with h2
    subst h2
    rfl
  rw [if_neg h4] at h ⊢
  by_cases h5 : tag = "Configuration"
  · rw [if_pos h5] at h ⊢
    injection h with h2
    subst h2
    rfl
  rw [if_neg h5] at h ⊢
  by_cases h6 : tag = "Platform"
  · rw [if_pos h6] at h ⊢
    injection h with h2
    subst h2
    rfl
  rw [if_neg h6] at h ⊢
  by_cases h7 : tag = "ProjectName"
  · rw [if_pos h7] at h ⊢
    injection h with h2
    subst h2
    rfl
  rw [if_neg h7] at h ⊢
  by_cases h8 : tag = "TargetedPlatforms"
  · rw [if_pos h8] at h ⊢
    injection h with h2
    subst h2
    rfl
  rw [if_neg h8] at h ⊢
  by_cases h9 : tag = "AppType"
  · rw [if_pos h9] at h ⊢
    injection h with h2
    subst h2
    rfl
  rw [if_neg h9] at h ⊢
  by_cases h10 : tag = "MainSource"
  · rw [if_pos h10] at h ⊢
    injection h with h2
    subst h2
    rfl
  rw [if_neg h10] at h ⊢
  by_cases h11 : tag = "Base"
  · rw [if_pos h11] at h ⊢
    injection h with h2
    subst h2
    rfl
  rw [if_neg h11] at h ⊢
  by_cases h12 : tag = "CfgParent"
  · rw [if_pos h12] at h ⊢
    injection h with h2
    subst h2
    rfl
  rw [if_neg h12] at h ⊢
  by_cases h13 : tag = "SanitizedProjectName"
  · rw [if_pos h13] at h ⊢
    injection h with h2
    subst h2
    rfl
  rw [if_neg h13] at h ⊢
  by_cases h14 : tag = "Custom_Styles"
  · rw [if_pos h14] at h ⊢
    injection h with h2
    subst h2
    rfl
  rw [if_neg h14] at h ⊢
  by_cases h15 : tag = "GenPackage"
  · rw [if_pos h15] at h ⊢
    injection h with h2
    subst h2
    rfl
  rw [if_neg h15] at h ⊢
  by_cases h16 : tag = "GenDll"
  · rw [if_pos h16] at h ⊢
    injection h with h2
    subst h2
    rfl
  rw [if_neg h16] at h ⊢
  by_cases h17 : tag = "UsePackages"
  · rw [if_pos h17] at h ⊢
    injection h with h2
    subst h2
    rfl
  rw [if_neg h17] at h ⊢
  by_cases h18 : tag = "Icon_MainIcon"
  · rw [if_pos h18] at h ⊢
    injection h with h2
    subst h2
    rfl
  rw [if_neg h18] at h ⊢
  by_cases h19 : tag = "Icns_MainIcns"
  · rw [if_pos h19] at h ⊢
    injection h with h2
    subst h2
    rfl
  rw [if_neg h19] at h ⊢
  exact Option.noConfusion h

/-- A failed typed set means the mirrored tag table reads nothing for the tag. -/
theorem set_project_property_none_get_tag (tag v : String) (x : ProjectProperties)
    (h : set_project_property tag v x = none) :
    ProjectProperties.get_tag x tag = none := by
  unfold set_project_property at h
  unfold ProjectProperties.get_tag
  by_cases h0 : tag = "ProjectGuid"
  · rw [if_pos h0] at h
    exact Option.noConfusion h
  rw [if_neg h0] at h ⊢
  by_cases h1 : tag = "ProjectVersion"
  · rw [if_pos h1] at h
    exact Option.noConfusion h
  rw [if_neg h1] at h ⊢
  by_cases h2 : tag = "Version"
  · rw [if_pos h2] at h
    exact Option.noConfusion h
  rw [if_neg h2] at h ⊢
  by_cases h3 : tag = "FrameworkType"
  · rw [if_pos h3] at h
    exact Option.noConfusion h
  rw [if_neg h3] at h ⊢
  by_cases h4 : tag = "Config"
  · rw [if_pos h4] at h
    exact Option.noConfusion h
  rw [if_neg h4] at h ⊢
  by_cases h5 : tag = "Configuration"
  · rw [if_pos h5] at h
    exact Option.noConfusion h
  rw [if_neg h5] at h ⊢
  by_cases h6 : tag = "Platform"
  · rw [if_pos h6] at h
    exact Option.noConfusion h
  rw [if_neg h6] at h ⊢
  by_cases h7 : tag = "ProjectName"
  · rw [if_pos h7] at h
    exact Option.noConfusion h
  rw [if_neg h7] at h ⊢
  by_cases h8 : tag = "TargetedPlatforms"
  · rw [if_pos h8] at h
    exact Option.noConfusion h
  rw [if_neg h8] at h ⊢
  by_cases h9 : tag = "AppType"
  · rw [if_pos h9] at h
    exact Option.noConfusion h
  rw [if_neg h9] at h ⊢
  by_cases h10 : tag = "MainSource"
  · rw [if_pos h10] at h
    exact Option.noConfusion h
  rw [if_neg h10] at h ⊢
  by_cases h11 : tag = "Base"
  · rw [if_pos h11] at h
    exact Option.noConfusion h
  rw [if_neg h11] at h ⊢
  by_cases h12 : tag = "CfgParent"
  · rw [if_pos h12] at h
    exact Option.noConfusion h
  rw [if_neg h12] at h ⊢
  by_cases h13 : tag = "SanitizedProjectName"
  · rw [if_pos h13] at h
    exact Option.noConfusion h
  rw [if_neg h13] at h ⊢
  by_cases h14 : tag = "Custom_Styles"
  · rw [if_pos h14] at h
    exact Option.noConfusion h
  rw [if_neg h14] at h ⊢
  by_cases h15 : tag = "GenPackage"
  · rw [if_pos h15] at h
    exact Option.noConfusion h
  rw [if_neg h15] at h ⊢
  by_cases h16 : tag = "GenDll"
  · rw [if_pos h16] at h
    exact Option.noConfusion h
  rw [if_neg h16] at h ⊢
  by_cases h17 : tag = "UsePackages"
  · rw [if_pos h17] at h
    exact Option.noConfusion h
  rw [if_neg h17] at h ⊢
  by_cases h18 : tag = "Icon_MainIcon"
  · rw [if_pos h18] at h
    exact Option.noConfusion h
  rw [if_neg h18] at h ⊢
  by_cases h19 : tag = "Icns_MainIcns"
  · rw [if_pos h19] at h
    exact Option.noConfusion h
  rw [if_neg h19] at h ⊢

/-- A successful typed set stores `v` where the mirrored tag table reads it back. -/
theorem set_dcc_option_get_tag (tag v : String) (x x2 : DccOptions)
    (h : set_dcc_option tag v x = some x2) :
    DccOptions.get_tag x2 tag = some v := by
  unfold set_dcc_option at h
  unfold DccOptions.get_tag
  by_cases h0 : tag = "DCC_DCCCompiler"
  · rw [if_pos h0] at h ⊢
    injection h with h2
    subst h2
    rfl
  rw [if_neg h0] at h ⊢
  by_cases h1 : tag = "DCC_DependencyCheckOutputName"
  · rw [if_pos h1] at h ⊢
    injection h with h2
    subst h2
    rfl
  rw [if_neg h1] at h ⊢
  by_cases h2 : tag = "DCC_DcuOutput"
  · rw [if_pos h2] at h ⊢
    injection h with h2
    subst h2
    rfl
  rw [if_neg h2] at h ⊢
  by_cases h3 : tag = "DCC_ExeOutput"
  · rw [if_pos h3] at h ⊢
    injection h with h2
    subst h2
    rfl
  rw [if_neg h3] at h ⊢
  by_cases h4 : tag = "DCC_DcpOutput"
  · rw [if_pos h4] at h ⊢
    injection h with h2
    subst h2
    rfl
  rw [if_neg h4] at h ⊢
  by_cases h5 : tag = "DCC_BplOutput"
  · rw [if_pos h5] at h ⊢
    injection h with h2
    subst h2
    rfl
  rw [if_neg h5] at h ⊢
  by_cases h6 : tag = "DCC_ObjOutput"
  · rw [if_pos h6] at h ⊢
    injection h with h2
    subst h2
    rfl
  rw [if_neg h6] at h ⊢
  by_cases h7 : tag = "DCC_HppOutput"
  · rw [if_pos h7] at h ⊢
    injection h with h2
    subst h2
    rfl
  rw [if_neg h7] at h ⊢
  by_cases h8 : tag = "DCC_BpiOutput"
  · rw [if_pos h8] at h ⊢
    injection h with h2
    subst h2
    rfl
  rw [if_neg h8] at h ⊢
  by_cases h9 : tag = "DCC_CBuilderOutput"
  · rw [if_pos h9] at h ⊢
    injection h with h2
    subst h2
    rfl
  rw [if_neg h9] at h ⊢
  by_cases h10 : tag = "DCC_UnitSearchPath"
  · rw [if_pos h10] at h ⊢
    injection h with h2
    subst h2
    rfl
  rw [if_neg h10] at h ⊢
  by_cases h11 : tag = "DCC_ResourcePath"
  · rw [if_pos h11] at h ⊢
    injection h with h2
    subst h2
    rfl
  rw [if_neg h11] at h ⊢
  by_cases h12 : tag = "DCC_IncludePath"
  · rw [if_pos h12] at h ⊢
    injection h with h2
    subst h2
    rfl
  rw [if_neg h12] at h ⊢
  by_cases h13 : tag = "DCC_ObjPath"
  · rw [if_pos h13] at h ⊢
    injection h with h2
    subst h2
    rfl
  rw [if_neg h13] at h ⊢
  by_cases h14 : tag = "DCC_FrameworkPath"
  · rw [if_pos h14] at h ⊢
    injection h with h2
    subst h2
    rfl
  rw [if_neg h14] at h ⊢
  by_cases h15 : tag = "DCC_SysLibRoot"
  · rw [if_pos h15] at h ⊢
    injection h with h2
    subst h2
    rfl
  rw [if_neg h15] at h ⊢
  by_cases h16 : tag = "DCC_Define"
  · rw [if_pos h16] at h ⊢
    injection h with h2
    subst h2
    rfl
  rw [if_neg h16] at h ⊢
  by_cases h17 : tag = "DCC_Namespace"
  · rw [if_pos h17] at h ⊢
    injection h with h2
    subst h2
    rfl
  rw [if_neg h17] at h ⊢
  by_cases h18 : tag = "DCC_UnitAlias"
  · rw [if_pos h18] at h ⊢
    injection h with h2
    subst h2
    rfl
  rw [if_neg h18] at h ⊢
  by_cases h19 : tag = "DCC_UsePackage"
  · rw [if_pos h19] at h ⊢
    injection h with h2
    subst h2
    rfl
  rw [if_neg h19] at h ⊢
  by_cases h20 : tag = "DCC_Optimize"
  · rw [if_pos h20] at h ⊢
    injection h with h2
    subst h2
    rfl
  rw [if_neg h20] at h ⊢
  by_cases h21 : tag = "DCC_Alignment"
  · rw [if_pos h21] at h ⊢
    injection h with h2
    subst h2
    rfl
  rw [if_neg h21] at h ⊢
  by_cases h22 : tag = "DCC_MinimumEnumSize"
  · rw [if_pos h22] at h ⊢
    injection h with h2
    subst h2
    rfl
  rw [if_neg h22] at h ⊢
  by_cases h23 : tag = "DCC_CodePage"
  · rw [if_pos h23] at h ⊢
    injection h with h2
    subst h2
    rfl
  rw [if_neg h23] at h ⊢
  by_cases h24 : tag = "DCC_Inlining"
  · rw [if_pos h24] at h ⊢
    injection h with h2
    subst h2
    rfl
  rw [if_neg h24] at h ⊢
  by_cases h25 : tag = "DCC_GenerateStackFrames"
  · rw [if_pos h25] at h ⊢
    injection h with h2
    subst h2
    rfl
  rw [if_neg h25] at h ⊢
  by_cases h26 : tag = "DCC_GeneratePICCode"
  · rw [if_pos h26] at h ⊢
    injection h with h2
    subst h2
    rfl
  rw [if_neg h26] at h ⊢
  by_cases h27 : tag = "DCC_GenerateAndroidAppBundleFile"
  · rw [if_pos h27] at h ⊢
    injection h with h2
    subst h2
    rfl
  rw [if_neg h27] at h ⊢
  by_cases h28 : tag = "DCC_GenerateOSXUniversalBinaryFile"
  · rw [if_pos h28] at h ⊢
    injection h with h2
    subst h2
    rfl
  rw [if_neg h28] at h ⊢
  by_cases h29 : tag = "DCC_E"
  · rw [if_pos h29] at h ⊢
    injection h with h2
    subst h2
    rfl
  rw [if_neg h29] at h ⊢
  by_cases h30 : tag = "DCC_N"
  · rw [if_pos h30] at h ⊢
    injection h with h2
    subst h2
    rfl
  rw [if_neg h30] at h ⊢
  by_cases h31 : tag = "DCC_S"
  · rw [if_pos h31] at h ⊢
    injection h with h2
    subst h2
    rfl
  rw [if_neg h31] at h ⊢
  by_cases h32 : tag = "DCC_F"
  · rw [if_pos h32] at h ⊢
    injection h with h2
    subst h2
    rfl
  rw [if_neg h32] at h ⊢
  by_cases h33 : tag = "DCC_K"
  · rw [if_pos h33] at h ⊢
    injection h with h2
    subst h2
    rfl
  rw [if_neg h33] at h ⊢
  by_cases h34 : tag = "DCC_ExtendedSyntax"
  · rw [if_pos h34] at h ⊢
    injection h with h2
    subst h2
    rfl
  rw [if_neg h34] at h ⊢
  by_cases h35 : tag = "DCC_LongStrings"
  · rw [if_pos h35] at h ⊢
    injection h with h2
    subst h2
    rfl
  rw [if_neg h35] at h ⊢
  by_cases h36 : tag = "DCC_OpenStringParams"
  · rw [if_pos h36] at h ⊢
    injection h with h2
    subst h2
    rfl
  rw [if_neg h36] at h ⊢
  by_cases h37 : tag = "DCC_StrictVarStrings"
  · rw [if_pos h37] at h ⊢
    injection h with h2
    subst h2
    rfl
  rw [if_neg h37] at h ⊢
  by_cases h38 : tag = "DCC_TypedAtParameter"
  · rw [if_pos h38] at h ⊢
    injection h with h2
    subst h2
    rfl
  rw [if_neg h38] at h ⊢
  by_cases h39 : tag = "DCC_FullBooleanEvaluations"
  · rw [if_pos h39] at h ⊢
    injection h with h2
    subst h2
    rfl
  rw [if_neg h39] at h ⊢
  by_cases h40 : tag = "DCC_WriteableConstants"
  · rw [if_pos h40] at h ⊢
    injection h with h2
    subst h2
    rfl
  rw [if_neg h40] at h ⊢
  by_cases h41 : tag = "DCC_RunTimeTypeInfo"
  · rw [if_pos h41] at h ⊢
    injection h with h2
    subst h2
    rfl
  rw [if_neg h41] at h ⊢
  by_cases h42 : tag = "DCC_PentiumSafeDivide"
  · rw [if_pos h42] at h ⊢
    injection h with h2
    subst h2
    rfl
  rw [if_neg h42] at h ⊢
  by_cases h43 : tag = "DCC_IOChecking"
  · rw [if_pos h43] at h ⊢
    injection h with h2
    subst h2
    rfl
  rw [if_neg h43] at h ⊢
  by_cases h44 : tag = "DCC_IntegerOverflowCheck"
  · rw [if_pos h44] at h ⊢
    injection h with h2
    subst h2
    rfl
  rw [if_neg h44] at h ⊢
  by_cases h45 : tag = "DCC_RangeChecking"
  · rw [if_pos h45] at h ⊢
    injection h with h2
    subst h2
    rfl
  rw [if_neg h45] at h ⊢
  by_cases h46 : tag = "DCC_AssertionsAtRuntime"
  · rw [if_pos h46] at h ⊢
    injection h with h2
    subst h2
    rfl
  rw [if_neg h46] at h ⊢
  by_cases h47 : tag = "DCC_ImportedDataReferences"
  · rw [if_pos h47] at h ⊢
    injection h with h2
    subst h2
    rfl
  rw [if_neg h47] at h ⊢
  by_cases h48 : tag = "DCC_DebugInformation"
  · rw [if_pos h48] at h ⊢
    injection h with h2
    subst h2
    rfl
  rw [if_neg h48] at h ⊢
  by_cases h49 : tag = "DCC_LocalDebugSymbols"
  · rw [if_pos h49] at h ⊢
    injection h with h2
    subst h2
    rfl
  rw [if_neg h49] at h ⊢
  by_cases h50 : tag = "DCC_SymbolReferenceInfo"
  · rw [if_pos h50] at h ⊢
    injection h with h2
    subst h2
    rfl
  rw [if_neg h50] at h ⊢
  by_cases h51 : tag = "DCC_DebugDCUs"
  · rw [if_pos h51] at h ⊢
    injection h with h2
    subst h2
    rfl
  rw [if_neg h51] at h ⊢
  by_cases h52 : tag = "DCC_DebugInfoInExe"
  · rw [if_pos h52] at h ⊢
    injection h with h2
    subst h2
    rfl
  rw [if_neg h52] at h ⊢
  by_cases h53 : tag = "DCC_DebugInfoInTds"
  · rw [if_pos h53] at h ⊢
    injection h with h2
    subst h2
    rfl
  rw [if_neg h53] at h ⊢
  by_cases h54 : tag = "DCC_DebugVN"
  · rw [if_pos h54] at h ⊢
    injection h with h2
    subst h2
    rfl
  rw [if_neg h54] at h ⊢
  by_cases h55 : tag = "DCC_RemoteDebug"
  · rw [if_pos h55] at h ⊢
    injection h with h2
    subst h2
    rfl
  rw [if_neg h55] at h ⊢
  by_cases h56 : tag = "DCC_Hints"
  · rw [if_pos h56] at h ⊢
    injection h with h2
    subst h2
    rfl
  rw [if_neg h56] at h ⊢
  by_cases h57 : tag = "DCC_Warnings"
  · rw [if_pos h57] at h ⊢
    injection h with h2
    subst h2
    rfl
  rw [if_neg h57] at h ⊢
  by_cases h58 : tag = "DCC_ShowGeneralMessages"
  · rw [if_pos h58] at h ⊢
    injection h with h2
    subst h2
    rfl
  rw [if_neg h58] at h ⊢
  by_cases h59 : tag = "DCC_ConsoleTarget"
  · rw [if_pos h59] at h ⊢
    injection h with h2
    subst h2
    rfl
  rw [if_neg h59] at h ⊢
  by_cases h60 : tag = "DCC_Description"
  · rw [if_pos h60] at h ⊢
    injection h with h2
    subst h2
    rfl
  rw [if_neg h60] at h ⊢
  by_cases h61 : tag = "DCC_AdditionalSwitches"
  · rw [if_pos h61] at h ⊢
    injection h with h2
    subst h2
    rfl
  rw [if_neg h61] at h ⊢
  by_cases h62 : tag = "DCC_LinkerOptions"
  · rw [if_pos h62] at h ⊢
    injection h with h2
    subst h2
    rfl
  rw [if_neg h62] at h ⊢
  by_cases h63 : tag = "DCC_ImageBase"
  · rw [if_pos h63] at h ⊢
    injection h with h2
    subst h2
    rfl
  rw [if_neg h63] at h ⊢
  by_cases h64 : tag = "DCC_MapFile"
  · rw [if_pos h64] at h ⊢
    injection h with h2
    subst h2
    rfl
  rw [if_neg h64] at h ⊢
  by_cases h65 : tag = "DCC_MapFileARM"
  · rw [if_pos h65] at h ⊢
    injection h with h2
    subst h2
    rfl
  rw [if_neg h65] at h ⊢
  by_cases h66 : tag = "DCC_StackSize"
  · rw [if_pos h66] at h ⊢
    injection h with h2
    subst h2
    rfl
  rw [if_neg h66] at h ⊢
  by_cases h67 : tag = "DCC_MaxStackSize"
  · rw [if_pos h67] at h ⊢
    injection h with h2
    subst h2
    rfl
  rw [if_neg h67] at h ⊢
  by_cases h68 : tag = "DCC_MinStackSize"
  · rw [if_pos h68] at h ⊢
    injection h with h2
    subst h2
    rfl
  rw [if_neg h68] at h ⊢
  by_cases h69 : tag = "DCC_BaseAddress"
  · rw [if_pos h69] at h ⊢
    injection h with h2
    subst h2
    rfl
  rw [if_neg h69] at h ⊢
  by_cases h70 : tag = "DCC_PEFlags"
  · rw [if_pos h70] at h ⊢
    injection h with h2
    subst h2
    rfl
  rw [if_neg h70] at h ⊢
  by_cases h71 : tag = "DCC_PEOptFlags"
  · rw [if_pos h71] at h ⊢
    injection h with h2
    subst h2
    rfl
  rw [if_neg h71] at h ⊢
  by_cases h72 : tag = "DCC_PEOSVersion"
  · rw [if_pos h72] at h ⊢
    injection h with h2
    subst h2
    rfl
  rw [if_neg h72] at h ⊢
  by_cases h73 : tag = "DCC_PESubSysVersion"
  · rw [if_pos h73] at h ⊢
    injection h with h2
    subst h2
    rfl
  rw [if_neg h73] at h ⊢
  by_cases h74 : tag = "DCC_PEUserVersion"
  · rw [if_pos h74] at h ⊢
    injection h with h2
    subst h2
    rfl
  rw [if_neg h74] at h ⊢
  by_cases h75 : tag = "DCC_NXCompat"
  · rw [if_pos h75] at h ⊢
    injection h with h2
    subst h2
    rfl
  rw [if_neg h75] at h ⊢
  by_cases h76 : tag = "DCC_DynamicBase"
  · rw [if_pos h76] at h ⊢
    injection h with h2
    subst h2
    rfl
  rw [if_neg h76] at h ⊢
  by_cases h77 : tag = "DCC_HighEntropyVa"
  · rw [if_pos h77] at h ⊢
    injection h with h2
    subst h2
    rfl
  rw [if_neg h77] at h ⊢
  by_cases h78 : tag = "DCC_TSAware"
  · rw [if_pos h78] at h ⊢
    injection h with h2
    subst h2
    rfl
  rw [if_neg h78] at h ⊢
  by_cases h79 : tag = "DCC_LargeAddressAware"
  · rw [if_pos h79] at h ⊢
    injection h with h2
    subst h2
    rfl
  rw [if_neg h79] at h ⊢
  by_cases h80 : tag = "DCC_AllowUndefined"
  · rw [if_pos h80] at h ⊢
    injection h with h2
    subst h2
    rfl
  rw [if_neg h80] at h ⊢
  by_cases h81 : tag = "DCC_OutputXMLDocumentation"
  · rw [if_pos h81] at h ⊢
    injection h with h2
    subst h2
    rfl
  rw [if_neg h81] at h ⊢
  by_cases h82 : tag = "DCC_OutputDependencies"
  · rw [if_pos h82] at h ⊢
    injection h with h2
    subst h2
    rfl
  rw [if_neg h82] at h ⊢
  by_cases h83 : tag = "DCC_OutputDRCFile"
  · rw [if_pos h83] at h ⊢
    injection h with h2
    subst h2
    rfl
  rw [if_neg h83] at h ⊢
  by_cases h84 : tag = "DCC_OldDosFileNames"
  · rw [if_pos h84] at h ⊢
    injection h with h2
    subst h2
    rfl
  rw [if_neg h84] at h ⊢
  by_cases h85 : tag = "DCC_XmlOutput"
  · rw [if_pos h85] at h ⊢
    injection h with h2
    subst h2
    rfl
  rw [if_neg h85] at h ⊢
  by_cases h86 : tag = "DCC_RemoveTmpLnkFile"
  · rw [if_pos h86] at h ⊢
    injection h with h2
    subst h2
    rfl
  rw [if_neg h86] at h ⊢
  by_cases h87 : tag = "DCC_IncludeDCUsInUsesCompletion"
  · rw [if_pos h87] at h ⊢
    injection h with h2
    subst h2
    rfl
  rw [if_neg h87] at h ⊢
  by_cases h88 : tag = "DCC_UseMSBuildExternally"
  · rw [if_pos h88] at h ⊢
    injection h with h2
    subst h2
    rfl
  rw [if_neg h88] at h ⊢
  by_cases h89 : tag = "DCC_LegacyIFEND"
  · rw [if_pos h89] at h ⊢
    injection h with h2
    subst h2
    rfl
  rw [if_neg h89] at h ⊢
  by_cases h90 : tag = "DCC_HppOutputARM"
  · rw [if_pos h90] at h ⊢
    injection h with h2
    subst h2
    rfl
  rw [if_neg h90] at h ⊢
  by_cases h91 : tag = "DCC_iOSMinimumVersion"
  · rw [if_pos h91] at h ⊢
    injection h with h2
    subst h2
    rfl
  rw [if_neg h91] at h ⊢
  by_cases h92 : tag = "DCC_macOSArmMinimumVersion"
  · rw [if_pos h92] at h ⊢
    injection h with h2
    subst h2
    rfl
  rw [if_neg h92] at h ⊢
  by_cases h93 : tag = "DCC_macOSMinimumVersion"
  · rw [if_pos h93] at h ⊢
    injection h with h2
    subst h2
    rfl
  rw [if_neg h93] at h ⊢
  by_cases hdcc : tag.startsWith "DCC_" = true
  · rw [if_pos hdcc] at h ⊢
    injection h with h2
    subst h2
    rw [SMap.get_insert, if_pos rfl]
  rw [if_neg hdcc] at h ⊢
  exact Option.noConfusion h

/-- A failed typed set means the mirrored tag table reads nothing for the tag. -/
theorem set_dcc_option_none_get_tag (tag v : String) (x : DccOptions)
    (h : set_dcc_option tag v x = none) :
    DccOptions.get_tag x tag = none := by
  unfold set_dcc_option at h
  unfold DccOptions.get_tag
  by_cases h0 : tag = "DCC_DCCCompiler"
  · rw [if_pos h0] at h
    exact Option.noConfusion h
  rw [if_neg h0] at h ⊢
  by_cases h1 : tag = "DCC_DependencyCheckOutputName"
  · rw [if_pos h1] at h
    exact Option.noConfusion h
  rw [if_neg h1] at h ⊢
  by_cases h2 : tag = "DCC_DcuOutput"
  · rw [if_pos h2] at h
    exact Option.noConfusion h
  rw [if_neg h2] at h ⊢
  by_cases h3 : tag = "DCC_ExeOutput"
  · rw [if_pos h3] at h
    exact Option.noConfusion h
  rw [if_neg h3] at h ⊢
  by_cases h4 : tag = "DCC_DcpOutput"
  · rw [if_pos h4] at h
    exact Option.noConfusion h
  rw [if_neg h4] at h ⊢
  by_cases h5 : tag = "DCC_BplOutput"
  · rw [if_pos h5] at h
    exact Option.noConfusion h
  rw [if_neg h5] at h ⊢
  by_cases h6 : tag = "DCC_ObjOutput"
  · rw [if_pos h6] at h
    exact Option.noConfusion h
  rw [if_neg h6] at h ⊢
  by_cases h7 : tag = "DCC_HppOutput"
  · rw [if_pos h7] at h
    exact Option.noConfusion h
  rw [if_neg h7] at h ⊢
  by_cases h8 : tag = "DCC_BpiOutput"
  · rw [if_pos h8] at h
    exact Option.noConfusion h
  rw [if_neg h8] at h ⊢
  by_cases h9 : tag = "DCC_CBuilderOutput"
  · rw [if_pos h9] at h
    exact Option.noConfusion h
  rw [if_neg h9] at h ⊢
  by_cases h10 : tag = "DCC_UnitSearchPath"
  · rw [if_pos h10] at h
    exact Option.noConfusion h
  rw [if_neg h10] at h ⊢
  by_cases h11 : tag = "DCC_ResourcePath"
  · rw [if_pos h11] at h
    exact Option.noConfusion h
  rw [if_neg h11] at h ⊢
  by_cases h12 : tag = "DCC_IncludePath"
  · rw [if_pos h12] at h
    exact Option.noConfusion h
  rw [if_neg h12] at h ⊢
  by_cases h13 : tag = "DCC_ObjPath"
  · rw [if_pos h13] at h
    exact Option.noConfusion h
  rw [if_neg h13] at h ⊢
  by_cases h14 : tag = "DCC_FrameworkPath"
  · rw [if_pos h14] at h
    exact Option.noConfusion h
  rw [if_neg h14] at h ⊢
  by_cases h15 : tag = "DCC_SysLibRoot"
  · rw [if_pos h15] at h
    exact Option.noConfusion h
  rw [if_neg h15] at h ⊢
  by_cases h16 : tag = "DCC_Define"
  · rw [if_pos h16] at h
    exact Option.noConfusion h
  rw [if_neg h16] at h ⊢
  by_cases h17 : tag = "DCC_Namespace"
  · rw [if_pos h17] at h
    exact Option.noConfusion h
  rw [if_neg h17] at h ⊢
  by_cases h18 : tag = "DCC_UnitAlias"
  · rw [if_pos h18] at h
    exact Option.noConfusion h
  rw [if_neg h18] at h ⊢
  by_cases h19 : tag = "DCC_UsePackage"
  · rw [if_pos h19] at h
    exact Option.noConfusion h
  rw [if_neg h19] at h ⊢
  by_cases h20 : tag = "DCC_Optimize"
  · rw [if_pos h20] at h
    exact Option.noConfusion h
  rw [if_neg h20] at h ⊢
  by_cases h21 : tag = "DCC_Alignment"
  · rw [if_pos h21] at h
    exact Option.noConfusion h
  rw [if_neg h21] at h ⊢
  by_cases h22 : tag = "DCC_MinimumEnumSize"
  · rw [if_pos h22] at h
    exact Option.noConfusion h
  rw [if_neg h22] at h ⊢
  by_cases h23 : tag = "DCC_CodePage"
  · rw [if_pos h23] at h
    exact Option.noConfusion h
  rw [if_neg h23] at h ⊢
  by_cases h24 : tag = "DCC_Inlining"
  · rw [if_pos h24] at h
    exact Option.noConfusion h
  rw [if_neg h24] at h ⊢
  by_cases h25 : tag = "DCC_GenerateStackFrames"
  · rw [if_pos h25] at h
    exact Option.noConfusion h
  rw [if_neg h25] at h ⊢
  by_cases h26 : tag = "DCC_GeneratePICCode"
  · rw [if_pos h26] at h
    exact Option.noConfusion h
  rw [if_neg h26] at h ⊢
  by_cases h27 : tag = "DCC_GenerateAndroidAppBundleFile"
  · rw [if_pos h27] at h
    exact Option.noConfusion h
  rw [if_neg h27] at h ⊢
  by_cases h28 : tag = "DCC_GenerateOSXUniversalBinaryFile"
  · rw [if_pos h28] at h
    exact Option.noConfusion h
  rw [if_neg h28] at h ⊢
  by_cases h29 : tag = "DCC_E"
  · rw [if_pos h29] at h
    exact Option.noConfusion h
  rw [if_neg h29] at h ⊢
  by_cases h30 : tag = "DCC_N"
  · rw [if_pos h30] at h
    exact Option.noConfusion h
  rw [if_neg h30] at h ⊢
  by_cases h31 : tag = "DCC_S"
  · rw [if_pos h31] at h
    exact Option.noConfusion h
  rw [if_neg h31] at h ⊢
  by_cases h32 : tag = "DCC_F"
  · rw [if_pos h32] at h
    exact Option.noConfusion h
  rw [if_neg h32] at h ⊢
  by_cases h33 : tag = "DCC_K"
  · rw [if_pos h33] at h
    exact Option.noConfusion h
  rw [if_neg h33] at h ⊢
  by_cases h34 : tag = "DCC_ExtendedSyntax"
  · rw [if_pos h34] at h
    exact Option.noConfusion h
  rw [if_neg h34] at h ⊢
  by_cases h35 : tag = "DCC_LongStrings"
  · rw [if_pos h35] at h
    exact Option.noConfusion h
  rw [if_neg h35] at h ⊢
  by_cases h36 : tag = "DCC_OpenStringParams"
  · rw [if_pos h36] at h
    exact Option.noConfusion h
  rw [if_neg h36] at h ⊢
  by_cases h37 : tag = "DCC_StrictVarStrings"
  · rw [if_pos h37] at h
    exact Option.noConfusion h
  rw [if_neg h37] at h ⊢
  by_cases h38 : tag = "DCC_TypedAtParameter"
  · rw [if_pos h38] at h
    exact Option.noConfusion h
  rw [if_neg h38] at h ⊢
  by_cases h39 : tag = "DCC_FullBooleanEvaluations"
  · rw [if_pos h39] at h
    exact Option.noConfusion h
  rw [if_neg h39] at h ⊢
  by_cases h40 : tag = "DCC_WriteableConstants"
  · rw [if_pos h40] at h
    exact Option.noConfusion h
  rw [if_neg h40] at h ⊢
  by_cases h41 : tag = "DCC_RunTimeTypeInfo"
  · rw [if_pos h41] at h
    exact Option.noConfusion h
  rw [if_neg h41] at h ⊢
  by_cases h42 : tag = "DCC_PentiumSafeDivide"
  · rw [if_pos h42] at h
    exact Option.noConfusion h
  rw [if_neg h42] at h ⊢
  by_cases h43 : tag = "DCC_IOChecking"
  · rw [if_pos h43] at h
    exact Option.noConfusion h
  rw [if_neg h43] at h ⊢
  by_cases h44 : tag = "DCC_IntegerOverflowCheck"
  · rw [if_pos h44] at h
    exact Option.noConfusion h
  rw [if_neg h44] at h ⊢
  by_cases h45 : tag = "DCC_RangeChecking"
  · rw [if_pos h45] at h
    exact Option.noConfusion h
  rw [if_neg h45] at h ⊢
  by_cases h46 : tag = "DCC_AssertionsAtRuntime"
  · rw [if_pos h46] at h
    exact Option.noConfusion h
  rw [if_neg h46] at h ⊢
  by_cases h47 : tag = "DCC_ImportedDataReferences"
  · rw [if_pos h47] at h
    exact Option.noConfusion h
  rw [if_neg h47] at h ⊢
  by_cases h48 : tag = "DCC_DebugInformation"
  · rw [if_pos h48] at h
    exact Option.noConfusion h
  rw [if_neg h48] at h ⊢
  by_cases h49 : tag = "DCC_LocalDebugSymbols"
  · rw [if_pos h49] at h
    exact Option.noConfusion h
  rw [if_neg h49] at h ⊢
  by_cases h50 : tag = "DCC_SymbolReferenceInfo"
  · rw [if_pos h50] at h
    exact Option.noConfusion h
  rw [if_neg h50] at h ⊢
  by_cases h51 : tag = "DCC_DebugDCUs"
  · rw [if_pos h51] at h
    exact Option.noConfusion h
  rw [if_neg h51] at h ⊢
  by_cases h52 : tag = "DCC_DebugInfoInExe"
  · rw [if_pos h52] at h
    exact Option.noConfusion h
  rw [if_neg h52] at h ⊢
  by_cases h53 : tag = "DCC_DebugInfoInTds"
  · rw [if_pos h53] at h
    exact Option.noConfusion h
  rw [if_neg h53] at h ⊢
  by_cases h54 : tag = "DCC_DebugVN"
  · rw [if_pos h54] at h
    exact Option.noConfusion h
  rw [if_neg h54] at h ⊢
  by_cases h55 : tag = "DCC_RemoteDebug"
  · rw [if_pos h55] at h
    exact Option.noConfusion h
  rw [if_neg h55] at h ⊢
  by_cases h56 : tag = "DCC_Hints"
  · rw [if_pos h56] at h
    exact Option.noConfusion h
  rw [if_neg h56] at h ⊢
  by_cases h57 : tag = "DCC_Warnings"
  · rw [if_pos h57] at h
    exact Option.noConfusion h
  rw [if_neg h57] at h ⊢
  by_cases h58 : tag = "DCC_ShowGeneralMessages"
  · rw [if_pos h58] at h
    exact Option.noConfusion h
  rw [if_neg h58] at h ⊢
  by_cases h59 : tag = "DCC_ConsoleTarget"
  · rw [if_pos h59] at h
    exact Option.noConfusion h
  rw [if_neg h59] at h ⊢
  by_cases h60 : tag = "DCC_Description"
  · rw [if_pos h60] at h
    exact Option.noConfusion h
  rw [if_neg h60] at h ⊢
  by_cases h61 : tag = "DCC_AdditionalSwitches"
  · rw [if_pos h61] at h
    exact Option.noConfusion h
  rw [if_neg h61] at h ⊢
  by_cases h62 : tag = "DCC_LinkerOptions"
  · rw [if_pos h62] at h
    exact Option.noConfusion h
  rw [if_neg h62] at h ⊢
  by_cases h63 : tag = "DCC_ImageBase"
  · rw [if_pos h63] at h
    exact Option.noConfusion h
  rw [if_neg h63] at h ⊢
  by_cases h64 : tag = "DCC_MapFile"
  · rw [if_pos h64] at h
    exact Option.noConfusion h
  rw [if_neg h64] at h ⊢
  by_cases h65 : tag = "DCC_MapFileARM"
  · rw [if_pos h65] at h
    exact Option.noConfusion h
  rw [if_neg h65] at h ⊢
  by_cases h66 : tag = "DCC_StackSize"
  · rw [if_pos h66] at h
    exact Option.noConfusion h
  rw [if_neg h66] at h ⊢
  by_cases h67 : tag = "DCC_MaxStackSize"
  · rw [if_pos h67] at h
    exact Option.noConfusion h
  rw [if_neg h67] at h ⊢
  by_cases h68 : tag = "DCC_MinStackSize"
  · rw [if_pos h68] at h
    exact Option.noConfusion h
  rw [if_neg h68] at h ⊢
  by_cases h69 : tag = "DCC_BaseAddress"
  · rw [if_pos h69] at h
    exact Option.noConfusion h
  rw [if_neg h69] at h ⊢
  by_cases h70 : tag = "DCC_PEFlags"
  · rw [if_pos h70] at h
    exact Option.noConfusion h
  rw [if_neg h70] at h ⊢
  by_cases h71 : tag = "DCC_PEOptFlags"
  · rw [if_pos h71] at h
    exact Option.noConfusion h
  rw [if_neg h71] at h ⊢
  by_cases h72 : tag = "DCC_PEOSVersion"
  · rw [if_pos h72] at h
    exact Option.noConfusion h
  rw [if_neg h72] at h ⊢
  by_cases h73 : tag = "DCC_PESubSysVersion"
  · rw [if_pos h73] at h
    exact Option.noConfusion h
  rw [if_neg h73] at h ⊢
  by_cases h74 : tag = "DCC_PEUserVersion"
  · rw [if_pos h74] at h
    exact Option.noConfusion h
  rw [if_neg h74] at h ⊢
  by_cases h75 : tag = "DCC_NXCompat"
  · rw [if_pos h75] at h
    exact Option.noConfusion h
  rw [if_neg h75] at h ⊢
  by_cases h76 : tag = "DCC_DynamicBase"
  · rw [if_pos h76] at h
    exact Option.noConfusion h
  rw [if_neg h76] at h ⊢
  by_cases h77 : tag = "DCC_HighEntropyVa"
  · rw [if_pos h77] at h
    exact Option.noConfusion h
  rw [if_neg h77] at h ⊢
  by_cases h78 : tag = "DCC_TSAware"
  · rw [if_pos h78] at h
    exact Option.noConfusion h
  rw [if_neg h78] at h ⊢
  by_cases h79 : tag = "DCC_LargeAddressAware"
  · rw [if_pos h79] at h
    exact Option.noConfusion h
  rw [if_neg h79] at h ⊢
  by_cases h80 : tag = "DCC_AllowUndefined"
  · rw [if_pos h80] at h
    exact Option.noConfusion h
  rw [if_neg h80] at h ⊢
  by_cases h81 : tag = "DCC_OutputXMLDocumentation"
  · rw [if_pos h81] at h
    exact Option.noConfusion h
  rw [if_neg h81] at h ⊢
  by_cases h82 : tag = "DCC_OutputDependencies"
  · rw [if_pos h82] at h
    exact Option.noConfusion h
  rw [if_neg h82] at h ⊢
  by_cases h83 : tag = "DCC_OutputDRCFile"
  · rw [if_pos h83] at h
    exact Option.noConfusion h
  rw [if_neg h83] at h ⊢
  by_cases h84 : tag = "DCC_OldDosFileNames"
  · rw [if_pos h84] at h
    exact Option.noConfusion h
  rw [if_neg h84] at h ⊢
  by_cases h85 : tag = "DCC_XmlOutput"
  · rw [if_pos h85] at h
    exact Option.noConfusion h
  rw [if_neg h85] at h ⊢
  by_cases h86 : tag = "DCC_RemoveTmpLnkFile"
  · rw [if_pos h86] at h
    exact Option.noConfusion h
  rw [if_neg h86] at h ⊢
  by_cases h87 : tag = "DCC_IncludeDCUsInUsesCompletion"
  · rw [if_pos h87] at h
    exact Option.noConfusion h
  rw [if_neg h87] at h ⊢
  by_cases h88 : tag = "DCC_UseMSBuildExternally"
  · rw [if_pos h88] at h
    exact Option.noConfusion h
  rw [if_neg h88] at h ⊢
  by_cases h89 : tag = "DCC_LegacyIFEND"
  · rw [if_pos h89] at h
    exact Option.noConfusion h
  rw [if_neg h89] at h ⊢
  by_cases h90 : tag = "DCC_HppOutputARM"
  · rw [if_pos h90] at h
    exact Option.noConfusion h
  rw [if_neg h90] at h ⊢
  by_cases h91 : tag = "DCC_iOSMinimumVersion"
  · rw [if_pos h91] at h
    exact Option.noConfusion h
  rw [if_neg h91] at h ⊢
  by_cases h92 : tag = "DCC_macOSArmMinimumVersion"
  · rw [if_pos h92] at h
    exact Option.noConfusion h
  rw [if_neg h92] at h ⊢
  by_cases h93 : tag = "DCC_macOSMinimumVersion"
  · rw [if_pos h93] at h
    exact Option.noConfusion h
  rw [if_neg h93] at h ⊢
  by_cases hdcc : tag.startsWith "DCC_" = true
  · rw [if_pos hdcc] at h
    exact Option.noConfusion h
  rw [if_neg hdcc] at h ⊢

/-- A successful typed set stores `v` where the mirrored tag table reads it back. -/
theorem set_brcc_option_get_tag (tag v : String) (x x2 : BrccOptions)
    (h : set_brcc_option tag v x = some x2) :
    BrccOptions.get_tag x2 tag = some v := by
  unfold set_brcc_option at h
  unfold BrccOptions.get_tag
  by_cases h0 : tag = "BRCC_UserSuppliedOptions"
  · rw [if_pos h0] at h ⊢
    injection h with h2
    subst h2
    rfl
  rw [if_neg h0] at h ⊢
  by_cases h1 : tag = "BRCC_CodePage"
  · rw [if_pos h1] at h ⊢
    injection h with h2
    subst h2
    rfl
  rw [if_neg h1] at h ⊢
  by_cases h2 : tag = "BRCC_Language"
  · rw [if_pos h2] at h ⊢
    injection h with h2
    subst h2
    rfl
  rw [if_neg h2] at h ⊢
  by_cases h3 : tag = "BRCC_DeleteIncludePath"
  · rw [if_pos h3] at h ⊢
    injection h with h2
    subst h2
    rfl
  rw [if_neg h3] at h ⊢
  by_cases h4 : tag = "BRCC_EnableMultiByte"
  · rw [if_pos h4] at h ⊢
    injection h with h2
    subst h2
    rfl
  rw [if_neg h4] at h ⊢
  by_cases h5 : tag = "BRCC_CompilerToUse"
  · rw [if_pos h5] at h ⊢
    injection h with h2
    subst h2
    rfl
  rw [if_neg h5] at h ⊢
  by_cases h6 : tag = "BRCC_ResponseFilename"
  · rw [if_pos h6] at h ⊢
    injection h with h2
    subst h2
    rfl
  rw [if_neg h6] at h ⊢
  by_cases h7 : tag = "BRCC_Verbose"
  · rw [if_pos h7] at h ⊢
    injection h with h2
    subst h2
    rfl
  rw [if_neg h7] at h ⊢
  by_cases h8 : tag = "BRCC_Defines"
  · rw [if_pos h8] at h ⊢
    injection h with h2
    subst h2
    rfl
  rw [if_neg h8] at h ⊢
  by_cases h9 : tag = "BRCC_IncludePath"
  · rw [if_pos h9] at h ⊢
    injection h with h2
    subst h2
    rfl
  rw [if_neg h9] at h ⊢
  by_cases h10 : tag = "BRCC_OutputDir"
  · rw [if_pos h10] at h ⊢
    injection h with h2
    subst h2
    rfl
  rw [if_neg h10] at h ⊢
  exact Option.noConfusion h

/-- A failed typed set means the mirrored tag table reads nothing for the tag. -/
theorem set_brcc_option_none_get_tag (tag v : String) (x : BrccOptions)
    (h : set_brcc_option tag v x = none) :
    BrccOptions.get_tag x tag = none := by
  unfold set_brcc_option at h
  unfold BrccOptions.get_tag
  by_cases h0 : tag = "BRCC_UserSuppliedOptions"
  · rw [if_pos h0] at h
    exact Option.noConfusion h
  rw [if_neg h0] at h ⊢
  by_cases h1 : tag = "BRCC_CodePage"
  · rw [if_pos h1] at h
    exact Option.noConfusion h
  rw [if_neg h1] at h ⊢
  by_cases h2 : tag = "BRCC_Language"
  · rw [if_pos h2] at h
    exact Option.noConfusion h
  rw [if_neg h2] at h ⊢
  by_cases h3 : tag = "BRCC_DeleteIncludePath"
  · rw [if_pos h3] at h
    exact Option.noConfusion h
  rw [if_neg h3] at h ⊢
  by_cases h4 : tag = "BRCC_EnableMultiByte"
  · rw [if_pos h4] at h
    exact Option.noConfusion h
  rw [if_neg h4] at h ⊢
  by_cases h5 : tag = "BRCC_CompilerToUse"
  · rw [if_pos h5] at h
    exact Option.noConfusion h
  rw [if_neg h5] at h ⊢
  by_cases h6 : tag = "BRCC_ResponseFilename"
  · rw [if_pos h6] at h
    exact Option.noConfusion h
  rw [if_neg h6] at h ⊢
  by_cases h7 : tag = "BRCC_Verbose"
  · rw [if_pos h7] at h
    exact Option.noConfusion h
  rw [if_neg h7] at h ⊢
  by_cases h8 : tag = "BRCC_Defines"
  · rw [if_pos h8] at h
    exact Option.noConfusion h
  rw [if_neg h8] at h ⊢
  by_cases h9 : tag = "BRCC_IncludePath"
  · rw [if_pos h9] at h
    exact Option.noConfusion h
  rw [if_neg h9] at h ⊢
  by_cases h10 : tag = "BRCC_OutputDir"
  · rw [if_pos h10] at h
    exact Option.noConfusion h
  rw [if_neg h10] at h ⊢

/-- A successful typed set stores `v` where the mirrored tag table reads it back. -/
theorem set_build_event_get_tag (tag v : String) (x x2 : BuildEvents)
    (h : set_build_event tag v x = some x2) :
    BuildEvents.get_tag x2 tag = some v := by
  unfold set_build_event at h
  unfold BuildEvents.get_tag
  by_cases h0 : tag = "PreBuildEvent"
  · rw [if_pos h0] at h ⊢
    injection h with h2
    subst h2
    rfl
  rw [if_neg h0] at h ⊢
  by_cases h1 : tag = "PreBuildEventCancelOnError"
  · rw [if_pos h1] at h ⊢
    injection h with h2
    subst h2
    rfl
  rw [if_neg h1] at h ⊢
  by_cases h2 : tag = "PreBuildEventIgnoreExitCode"
  · rw [if_pos h2] at h ⊢
    injection h with h2
    subst h2
    rfl
  rw [if_neg h2] at h ⊢
  by_cases h3 : tag = "PreLinkEvent"
  · rw [if_pos h3] at h ⊢
    injection h with h2
    subst h2
    rfl
  rw [if_neg h3] at h ⊢
  by_cases h4 : tag = "PreLinkEventCancelOnError"
  · rw [if_pos h4] at h ⊢
    injection h with h2
    subst h2
    rfl
  rw [if_neg h4] at h ⊢
  by_cases h5 : tag = "PreLinkEventIgnoreExitCode"
  · rw [if_pos h5] at h ⊢
    injection h with h2
    subst h2
    rfl
  rw [if_neg h5] at h ⊢
  by_cases h6 : tag = "PostBuildEvent"
  · rw [if_pos h6] at h ⊢
    injection h with h2
    subst h2
    rfl
  rw [if_neg h6] at h ⊢
  by_cases h7 : tag = "PostBuildEventCancelOnError"
  · rw [if_pos h7] at h ⊢
    injection h with h2
    subst h2
    rfl
  rw [if_neg h7] at h ⊢
  by_cases h8 : tag = "PostBuildEventIgnoreExitCode"
  · rw [if_pos h8] at h ⊢
    injection h with h2
    subst h2
    rfl
  rw [if_neg h8] at h ⊢
  by_cases h9 : tag = "PostBuildEventExecuteWhen"
  · rw [if_pos h9] at h ⊢
    injection h with h2
    subst h2
    rfl
  rw [if_neg h9] at h ⊢
  exact Option.noConfusion h

/-- A failed typed set means the mirrored tag table reads nothing for the tag. -/
theorem set_build_event_none_get_tag (tag v : String) (x : BuildEvents)
    (h : set_build_event tag v x = none) :
    BuildEvents.get_tag x tag = none := by
  unfold set_build_event at h
  unfold BuildEvents.get_tag
  by_cases h0 : tag = "PreBuildEvent"
  · rw [if_pos h0] at h
    exact Option.noConfusion h
  rw [if_neg h0] at h ⊢
  by_cases h1 : tag = "PreBuildEventCancelOnError"
  · rw [if_pos h1] at h
    exact Option.noConfusion h
  rw [if_neg h1] at h ⊢
  by_cases h2 : tag = "PreBuildEventIgnoreExitCode"
  · rw [if_pos h2] at h
    exact Option.noConfusion h
  rw [if_neg h2] at h ⊢
  by_cases h3 : tag = "PreLinkEvent"
  · rw [if_pos h3] at h
    exact Option.noConfusion h
  rw [if_neg h3] at h ⊢
  by_cases h4 : tag = "PreLinkEventCancelOnError"
  · rw [if_pos h4] at h
    exact Option.noConfusion h
  rw [if_neg h4] at h ⊢
  by_cases h5 : tag = "PreLinkEventIgnoreExitCode"
  · rw [if_pos h5] at h
    exact Option.noConfusion h
  rw [if_neg h5] at h ⊢
  by_cases h6 : tag = "PostBuildEvent"
  · rw [if_pos h6] at h
    exact Option.noConfusion h
  rw [if_neg h6] at h ⊢
  by_cases h7 : tag = "PostBuildEventCancelOnError"
  · rw [if_pos h7] at h
    exact Option.noConfusion h
  rw [if_neg h7] at h ⊢
  by_cases h8 : tag = "PostBuildEventIgnoreExitCode"
  · rw [if_pos h8] at h
    exact Option.noConfusion h
  rw [if_neg h8] at h ⊢
  by_cases h9 : tag = "PostBuildEventExecuteWhen"
  · rw [if_pos h9] at h
    exact Option.noConfusion h
  rw [if_neg h9] at h ⊢

/-- A successful typed set stores `v` where the mirrored tag table reads it back. -/
theorem set_ver_info_get_tag (tag v : String) (x x2 : VerInfo)
    (h : set_ver_info tag v x = some x2) :
    VerInfo.get_tag x2 tag = some v := by
  unfold set_ver_info at h
  unfold VerInfo.get_tag
  by_cases h0 : tag = "VerInfo_IncludeVerInfo"
  · rw [if_pos h0] at h ⊢
    injection h with h2
    subst h2
    rfl
  rw [if_neg h0] at h ⊢
  by_cases h1 : tag = "VerInfo_MajorVer"
  · rw [if_pos h1] at h ⊢
    injection h with h2
    subst h2
    rfl
  rw [if_neg h1] at h ⊢
  by_cases h2 : tag = "VerInfo_MinorVer"
  · rw [if_pos h2] at h ⊢
    injection h with h2
    subst h2
    rfl
  rw [if_neg h2] at h ⊢
  by_cases h3 : tag = "VerInfo_Release"
  · rw [if_pos h3] at h ⊢
    injection h with h2
    subst h2
    rfl
  rw [if_neg h3] at h ⊢
  by_cases h4 : tag = "VerInfo_Build"
  · rw [if_pos h4] at h ⊢
    injection h with h2
    subst h2
    rfl
  rw [if_neg h4] at h ⊢
  by_cases h5 : tag = "VerInfo_Debug"
  · rw [if_pos h5] at h ⊢
    injection h with h2
    subst h2
    rfl
  rw [if_neg h5] at h ⊢
  by_cases h6 : tag = "VerInfo_PreRelease"
  · rw [if_pos h6] at h ⊢
    injection h with h2
    subst h2
    rfl
  rw [if_neg h6] at h ⊢
  by_cases h7 : tag = "VerInfo_Special"
  · rw [if_pos h7] at h ⊢
    injection h with h2
    subst h2
    rfl
  rw [if_neg h7] at h ⊢
  by_cases h8 : tag = "VerInfo_Private"
  · rw [if_pos h8] at h ⊢
    injection h with h2
    subst h2
    rfl
  rw [if_neg h8] at h ⊢
  by_cases h9 : tag = "VerInfo_DLL"
  · rw [if_pos h9] at h ⊢
    injection h with h2
    subst h2
    rfl
  rw [if_neg h9] at h ⊢
  by_cases h10 : tag = "VerInfo_AutoGenVersion"
  · rw [if_pos h10] at h ⊢
    injection h with h2
    subst h2
    rfl
  rw [if_neg h10] at h ⊢
  by_cases h11 : tag = "VerInfo_Locale"
  · rw [if_pos h11] at h ⊢
    injection h with h2
    subst h2
    rfl
  rw [if_neg h11] at h ⊢
  by_cases h12 : tag = "VerInfo_Keys"
  · rw [if_pos h12] at h ⊢
    injection h with h2
    subst h2
    rfl
  rw [if_neg h12] at h ⊢
  exact Option.noConfusion h

/-- A failed typed set means the mirrored tag table reads nothing for the tag. -/
theorem set_ver_info_none_get_tag (tag v : String) (x : VerInfo)
    (h : set_ver_info tag v x = none) :
    VerInfo.get_tag x tag = none := by
  unfold set_ver_info at h
  unfold VerInfo.get_tag
  by_cases h0 : tag = "VerInfo_IncludeVerInfo"
  · rw [if_pos h0] at h
    exact Option.noConfusion h
  rw [if_neg h0] at h ⊢
  by_cases h1 : tag = "VerInfo_MajorVer"
  · rw [if_pos h1] at h
    exact Option.noConfusion h
  rw [if_neg h1] at h ⊢
  by_cases h2 : tag = "VerInfo_MinorVer"
  · rw [if_pos h2] at h
    exact Option.noConfusion h
  rw [if_neg h2] at h ⊢
  by_cases h3 : tag = "VerInfo_Release"
  · rw [if_pos h3] at h
    exact Option.noConfusion h
  rw [if_neg h3] at h ⊢
  by_cases h4 : tag = "VerInfo_Build"
  · rw [if_pos h4] at h
    exact Option.noConfusion h
  rw [if_neg h4] at h ⊢
  by_cases h5 : tag = "VerInfo_Debug"
  · rw [if_pos h5] at h
    exact Option.noConfusion h
  rw [if_neg h5] at h ⊢
  by_cases h6 : tag = "VerInfo_PreRelease"
  · rw [if_pos h6] at h
    exact Option.noConfusion h
  rw [if_neg h6] at h ⊢
  by_cases h7 : tag = "VerInfo_Special"
  · rw [if_pos h7] at h
    exact Option.noConfusion h
  rw [if_neg h7] at h ⊢
  by_cases h8 : tag = "VerInfo_Private"
  · rw [if_pos h8] at h
    exact Option.noConfusion h
  rw [if_neg h8] at h ⊢
  by_cases h9 : tag = "VerInfo_DLL"
  · rw [if_pos h9] at h
    exact Option.noConfusion h
  rw [if_neg h9] at h ⊢
  by_cases h10 : tag = "VerInfo_AutoGenVersion"
  · rw [if_pos h10] at h
    exact Option.noConfusion h
  rw [if_neg h10] at h ⊢
  by_cases h11 : tag = "VerInfo_Locale"
  · rw [if_pos h11] at h
    exact Option.noConfusion h
  rw [if_neg h11] at h ⊢
  by_cases h12 : tag = "VerInfo_Keys"
  · rw [if_pos h12] at h
    exact Option.noConfusion h
  rw [if_neg h12] at h ⊢

/-- A successful typed set stores `v` where the mirrored tag table reads it back. -/
theorem set_platform_packaging_get_tag (tag v : String) (x x2 : PlatformPackaging)
    (h : set_platform_packaging tag v x = some x2) :
    PlatformPackaging.get_tag x2 tag = some v := by
  unfold set_platform_packaging at h
  unfold PlatformPackaging.get_tag
  by_cases h0 : tag = "AppDPIAwarenessMode"
  · rw [if_pos h0] at h ⊢
    injection h with h2
    subst h2
    rfl
  rw [if_neg h0] at h ⊢
  by_cases h1 : tag = "AppEnableRuntimeThemes"
  · rw [if_pos h1] at h ⊢
    injection h with h2
    subst h2
    rfl
  rw [if_neg h1] at h ⊢
  by_cases h2 : tag = "AppExecutionLevel"
  · rw [if_pos h2] at h ⊢
    injection h with h2
    subst h2
    rfl
  rw [if_neg h2] at h ⊢
  by_cases h3 : tag = "AppExecutionLevelUIAccess"
  · rw [if_pos h3] at h ⊢
    injection h with h2
    subst h2
    rfl
  rw [if_neg h3] at h ⊢
  by_cases h4 : tag = "Manifest_File"
  · rw [if_pos h4] at h ⊢
    injection h with h2
    subst h2
    rfl
  rw [if_neg h4] at h ⊢
  by_cases h5 : tag = "OutputExt"
  · rw [if_pos h5] at h ⊢
    injection h with h2
    subst h2
    rfl
  rw [if_neg h5] at h ⊢
  by_cases h6 : tag = "BT_BuildType"
  · rw [if_pos h6] at h ⊢
    injection h with h2
    subst h2
    rfl
  rw [if_neg h6] at h ⊢
  by_cases h7 : tag = "PF_UWPPublisher"
  · rw [if_pos h7] at h ⊢
    injection h with h2
    subst h2
    rfl
  rw [if_neg h7] at h ⊢
  by_cases h8 : tag = "PF_UWPPackageName"
  · rw [if_pos h8] at h ⊢
    injection h with h2
    subst h2
    rfl
  rw [if_neg h8] at h ⊢
  by_cases h9 : tag = "PF_UWPPackageDisplayName"
  · rw [if_pos h9] at h ⊢
    injection h with h2
    subst h2
    rfl
  rw [if_neg h9] at h ⊢
  by_cases h10 : tag = "PF_UWPPublisherDisplayName"
  · rw [if_pos h10] at h ⊢
    injection h with h2
    subst h2
    rfl
  rw [if_neg h10] at h ⊢
  by_cases h11 : tag = "PF_UWPDistributionType"
  · rw [if_pos h11] at h ⊢
    injection h with h2
    subst h2
    rfl
  rw [if_neg h11] at h ⊢
  by_cases h12 : tag = "UWP_DelphiLogo44"
  · rw [if_pos h12] at h ⊢
    injection h with h2
    subst h2
    rfl
  rw [if_neg h12] at h ⊢
  by_cases h13 : tag = "UWP_DelphiLogo150"
  · rw [if_pos h13] at h ⊢
    injection h with h2
    subst h2
    rfl
  rw [if_neg h13] at h ⊢
  exact Option.noConfusion h

/-- A failed typed set means the mirrored tag table reads nothing for the tag. -/
theorem set_platform_packaging_none_get_tag (tag v : String) (x : PlatformPackaging)
    (h : set_platform_packaging tag v x = none) :
    PlatformPackaging.get_tag x tag = none := by
  unfold set_platform_packaging at h
  unfold PlatformPackaging.get_tag
  by_cases h0 : tag = "AppDPIAwarenessMode"
  · rw [if_pos h0] at h
    exact Option.noConfusion h
  rw [if_neg h0] at h ⊢
  by_cases h1 : tag = "AppEnableRuntimeThemes"
  · rw [if_pos h1] at h
    exact Option.noConfusion h
  rw [if_neg h1] at h ⊢
  by_cases h2 : tag = "AppExecutionLevel"
  · rw [if_pos h2] at h
    exact Option.noConfusion h
  rw [if_neg h2] at h ⊢
  by_cases h3 : tag = "AppExecutionLevelUIAccess"
  · rw [if_pos h3] at h
    exact Option.noConfusion h
  rw [if_neg h3] at h ⊢
  by_cases h4 : tag = "Manifest_File"
  · rw [if_pos h4] at h
    exact Option.noConfusion h
  rw [if_neg h4] at h ⊢
  by_cases h5 : tag = "OutputExt"
  · rw [if_pos h5] at h
    exact Option.noConfusion h
  rw [if_neg h5] at h ⊢
  by_cases h6 : tag = "BT_BuildType"
  · rw [if_pos h6] at h
    exact Option.noConfusion h
  rw [if_neg h6] at h ⊢
  by_cases h7 : tag = "PF_UWPPublisher"
  · rw [if_pos h7] at h
    exact Option.noConfusion h
  rw [if_neg h7] at h ⊢
  by_cases h8 : tag = "PF_UWPPackageName"
  · rw [if_pos h8] at h
    exact Option.noConfusion h
  rw [if_neg h8] at h ⊢
  by_cases h9 : tag = "PF_UWPPackageDisplayName"
  · rw [if_pos h9] at h
    exact Option.noConfusion h
  rw [if_neg h9] at h ⊢
  by_cases h10 : tag = "PF_UWPPublisherDisplayName"
  · rw [if_pos h10] at h
    exact Option.noConfusion h
  rw [if_neg h10] at h ⊢
  by_cases h11 : tag = "PF_UWPDistributionType"
  · rw [if_pos h11] at h
    exact Option.noConfusion h
  rw [if_neg h11] at h ⊢
  by_cases h12 : tag = "UWP_DelphiLogo44"
  · rw [if_pos h12] at h
    exact Option.noConfusion h
  rw [if_neg h12] at h ⊢
  by_cases h13 : tag = "UWP_DelphiLogo150"
  · rw [if_pos h13] at h
    exact Option.noConfusion h
  rw [if_neg h13] at h ⊢

/-- A successful typed set stores `v` where the mirrored tag table reads it back. -/
theorem set_debugger_option_get_tag (tag v : String) (x x2 : DebuggerOptions)
    (h : set_debugger_option tag v x = some x2) :
    DebuggerOptions.get_tag x2 tag = some v := by
  unfold set_debugger_option at h
  unfold DebuggerOptions.get_tag
  by_cases h0 : tag = "Debugger_IncludeSystemVars"
  · rw [if_pos h0] at h ⊢
    injection h with h2
    subst h2
    rfl
  rw [if_neg h0] at h ⊢
  by_cases h1 : tag = "Debugger_EnvVars"
  · rw [if_pos h1] at h ⊢
    injection h with h2
    subst h2
    rfl
  rw [if_neg h1] at h ⊢
  by_cases h2 : tag = "Debugger_SymbolSourcePath"
  · rw [if_pos h2] at h ⊢
    injection h with h2
    subst h2
    rfl
  rw [if_neg h2] at h ⊢
  by_cases h3 : tag = "Debugger_RunParams"
  · rw [if_pos h3] at h ⊢
    injection h with h2
    subst h2
    rfl
  rw [if_neg h3] at h ⊢
  exact Option.noConfusion h

/-- A failed typed set means the mirrored tag table reads nothing for the tag. -/
theorem set_debugger_option_none_get_tag (tag v : String) (x : DebuggerOptions)
    (h : set_debugger_option tag v x = none) :
    DebuggerOptions.get_tag x tag = none := by
  unfold set_debugger_option at h
  unfold DebuggerOptions.get_tag
  by_cases h0 : tag = "Debugger_IncludeSystemVars"
  · rw [if_pos h0] at h
    exact Option.noConfusion h
  rw [if_neg h0] at h ⊢
  by_cases h1 : tag = "Debugger_EnvVars"
  · rw [if_pos h1] at h
    exact Option.noConfusion h
  rw [if_neg h1] at h ⊢
  by_cases h2 : tag = "Debugger_SymbolSourcePath"
  · rw [if_pos h2] at h
    exact Option.noConfusion h
  rw [if_neg h2] at h ⊢
  by_cases h3 : tag = "Debugger_RunParams"
  · rw [if_pos h3] at h
    exact Option.noConfusion h
  rw [if_neg h3] at h ⊢

/-- The in-memory dispatch of `set_property_value` stores `value` where the
typed/catch-all lookup for `tag` reads it back — for every tag. -/
theorem applyTagUpdate_tag_value (tag value : String) (pg : PropertyGroup) :
    (applyTagUpdate tag value pg).tag_value tag = some value := by
  unfold applyTagUpdate
  cases h1 : set_project_property tag value pg.project_properties with
  | some w =>
    unfold PropertyGroup.tag_value
    dsimp only
    rw [set_project_property_get_tag tag value pg.project_properties w h1]
  | none =>
  cases h2 : set_dcc_option tag value pg.dcc_options with
  | some w =>
    unfold PropertyGroup.tag_value
    dsimp only
    rw [set_project_property_none_get_tag tag value pg.project_properties h1,
      set_dcc_option_get_tag tag value pg.dcc_options w h2]
  | none =>
  cases h3 : set_brcc_option tag value pg.brcc_options with
  | some w =>
    unfold PropertyGroup.tag_value
    dsimp only
    rw [set_project_property_none_get_tag tag value pg.project_properties h1,
      set_dcc_option_none_get_tag tag value pg.dcc_options h2,
      set_brcc_option_get_tag tag value pg.brcc_options w h3]
  | none =>
  cases h4 : set_build_event tag value pg.build_events with
  | some w =>
    unfold PropertyGroup.tag_value
    dsimp only
    rw [set_project_property_none_get_tag tag value pg.project_properties h1,
      set_dcc_option_none_get_tag tag value pg.dcc_options h2,
      set_brcc_option_none_get_tag tag value pg.brcc_options h3,
      set_build_event_get_tag tag value pg.build_events w h4]
  | none =>
  cases h5 : set_ver_info tag value pg.ver_info with
  | some w =>
    unfold PropertyGroup.tag_value
    dsimp only
    rw [set_project_property_none_get_tag tag value pg.project_properties h1,
      set_dcc_option_none_get_tag tag value pg.dcc_options h2,
      set_brcc_option_none_get_tag tag value pg.brcc_options h3,
      set_build_event_none_get_tag tag value pg.build_events h4,
      set_ver_info_get_tag tag value pg.ver_info w h5]
  | none =>
  cases h6 : set_platform_packaging tag value pg.platform_packaging with
  | some w =>
    unfold PropertyGroup.tag_value
    dsimp only
    rw [set_project_property_none_get_tag tag value pg.project_properties h1,
      set_dcc_option_none_get_tag tag value pg.dcc_options h2,
      set_brcc_option_none_get_tag tag value pg.brcc_options h3,
      set_build_event_none_get_tag tag value pg.build_events h4,
      set_ver_info_none_get_tag tag value pg.ver_info h5,
      set_platform_packaging_get_tag tag value pg.platform_packaging w h6]
  | none =>
  cases h7 : set_debugger_option tag value pg.debugger_options with
  | some w =>
    unfold PropertyGroup.tag_value
    dsimp only
    rw [set_project_property_none_get_tag tag value pg.project_properties h1,
      set_dcc_option_none_get_tag tag value pg.dcc_options h2,
      set_brcc_option_none_get_tag tag value pg.brcc_options h3,
      set_build_event_none_get_tag tag value pg.build_events h4,
      set_ver_info_none_get_tag tag value pg.ver_info h5,
      set_platform_packaging_none_get_tag tag value pg.platform_packaging h6,
      set_debugger_option_get_tag tag value pg.debugger_options w h7]
  | none =>
    unfold PropertyGroup.tag_value
    dsimp only
    rw [set_project_property_none_get_tag tag value pg.project_properties h1,
      set_dcc_option_none_get_tag tag value pg.dcc_options h2,
      set_brcc_option_none_get_tag tag value pg.brcc_options h3,
      set_build_event_none_get_tag tag value pg.build_events h4,
      set_ver_info_none_get_tag tag value pg.ver_info h5,
      set_platform_packaging_none_get_tag tag value pg.platform_packaging h6,
      set_debugger_option_none_get_tag tag value pg.debugger_options h7,
      SMap.get_insert, if_pos rfl]

theorem listModify_get?_self {α : Type} (l : List α) (i : Nat) (g : α → α) :
    (listModify l i g).get? i = (l.get? i).map g := by
  induction l generalizing i with
  | nil => cases i <;> rfl
  | cons x xs ih =>
    cases i with
    | zero => rfl
    | succ n => exact ih n

/-- C3: on a document whose `pg_index`-th top-level `PropertyGroup` exists
and contains a `<tag>` child carrying a text node (located at byte range
`[a, b)` by the XML layer), `set_property_value` succeeds, the new source is
exactly the old one with that range replaced by `value` — every byte before
`a` and every byte from `b` on is unchanged, only shifted — and the in-memory
typed field (or catch-all entry) for `tag` in group `pg_index` equals
`value`. -/
theorem set_property_value_text_splice
    (d : Dproj) (view : List XmlPropertyGroup) (pg_index : Nat)
    (tag value : String) (pgNode : XmlPropertyGroup) (element : XmlChildElement)
    (a b : Nat)
    (hview : view.get? pg_index = some pgNode)
    (hfind : pgNode.children.find? (fun e => e.tag == tag) = some element)
    (htext : element.text_range = some (a, b))
    (hab : a ≤ b) (hb : b ≤ d.source.data.length)
    (hpg : pg_index < d.project.property_groups.length) :
    ∃ d2, d.set_property_value view pg_index tag value = Except.ok d2 ∧
      d2.source.data = d.source.data.take a ++ value.data ++ d.source.data.drop b ∧
      (∀ i, i < a → d2.source.data.get? i = d.source.data.get? i) ∧
      (∀ j, j < value.data.length →
        d2.source.data.get? (a + j) = value.data.get? j) ∧
      (∀ j, d2.source.data.get? (a + value.data.length + j)
        = d.source.data.get? (b + j)) ∧
      (∀ pg2, (d2.project.property_groups).get? pg_index = some pg2 →
        pg2.tag_value tag = some value) := by
  have hrun : d.set_property_value view pg_index tag value = Except.ok
      { d with
        source := spliceRange d.source a b value,
        project :=
          { d.project with
            property_groups :=
              listModify d.project.property_groups pg_index
                (applyTagUpdate tag value) } } := by
    unfold Dproj.set_property_value
    rw [hview]
    dsimp only
    rw [hfind]
    dsimp only
    rw [htext]
  refine ⟨_, hrun, rfl, ?_, ?_, ?_, ?_⟩
  all_goals
    dsimp only [spliceRange]
  · intro i hi
    have hlen : (d.source.data.take a).length = a := by
      rw [List.length_take]
      exact min_eq_left (le_trans hab hb)
    rw [List.get?_append (by rw [List.length_append, hlen]; omega)]
    rw [List.get?_append (by rw [hlen]; exact hi)]
    exact List.get?_take hi
  · intro j hj
    have hlen : (d.source.data.take a).length = a := by
      rw [List.length_take]
      exact min_eq_left (le_trans hab hb)
    rw [List.get?_append (by rw [List.length_append, hlen]; omega)]
    rw [List.get?_append_right (by rw [hlen]; omega)]
    have hidx : a + j - (d.source.data.take a).length = j := by
      rw [hlen]
      omega
    rw [hidx]
  · intro j
    have hlen : (d.source.data.take a).length = a := by
      rw [List.length_take]
      exact min_eq_left (le_trans hab hb)
    rw [List.get?_append_right (by rw [List.length_append, hlen]; omega)]
    have hidx : a + value.data.length + j
        - (d.source.data.take a ++ value.data).length = j := by
      rw [List.length_append, hlen]
      omega
    rw [hidx, List.get?_drop]
  · intro pg2 hpg2
    rw [listModify_get?_self] at hpg2
    cases hget : d.project.property_groups.get? pg_index with
    | none =>
      rw [hget] at hpg2
      exact Option.noConfusion hpg2
    | some pg0 =>
      rw [hget] at hpg2
      injection hpg2 with h2
      rw [← h2]
      exact applyTagUpdate_tag_value tag value pg0

/-- Witness for C3 on the spec's example: replacing the text of
`<ProjectVersion>20.1</ProjectVersion>` (text bytes 16–20) with `99.9`. -/
theorem set_property_value_text_splice_witness :
    spliceView.get? 0 = some ⟨[⟨"ProjectVersion", [], 0, 37, some (16, 20)⟩]⟩ ∧
    (16 ≤ 20 ∧ 20 ≤ dprojSplice.source.data.length ∧
      0 < dprojSplice.project.property_groups.length) ∧
    (∃ d2, dprojSplice.set_property_value spliceView 0 "ProjectVersion" "99.9"
        = Except.ok d2 ∧
      d2.source.data = dprojSplice.source.data.take 16 ++ ("99.9" : String).data ++
        dprojSplice.source.data.drop 20 ∧
      (∀ i, i < 16 → d2.source.data.get? i = dprojSplice.source.data.get? i) ∧
      (∀ j, j < ("99.9" : String).data.length →
        d2.source.data.get? (16 + j) = ("99.9" : String).data.get? j) ∧
      (∀ j, d2.source.data.get? (16 + ("99.9" : String).data.length + j)
        = dprojSplice.source.data.get? (20 + j)) ∧
      (∀ pg2, (d2.project.property_groups).get? 0 = some pg2 →
        pg2.tag_value "ProjectVersion" = some "99.9")) :=
  ⟨rfl, ⟨by decide, by decide, by decide⟩,
   set_property_value_text_splice dprojSplice spliceView 0 "ProjectVersion" "99.9"
     ⟨[⟨"ProjectVersion", [], 0, 37, some (16, 20)⟩]⟩
     ⟨"ProjectVersion", [], 0, 37, some (16, 20)⟩ 16 20
     rfl rfl rfl (by decide) (by decide) (by decide)⟩

-- ═══════════════════════════════════════════════════════════════════════════
--  C7 : fragment splitting of quoted operands
-- ═══════════════════════════════════════════════════════════════════════════

/-- Adjacent characters that do not start a `$(` variable reference. -/
def NoDP (a b : Char) : Prop := ¬(a = '$' ∧ b = '(')

/-- Spec-side description of fragment splitting (§4.1 of the spec): the
quoted text is a source-order sequence in which every `$(` … `)` span becomes
a `Variable` fragment named by the text strictly between them (which cannot
contain `)`), every maximal run of other characters — nonempty, containing no
`$(` start, and ending only at a `$(` or at the end of the text — becomes a
`Literal` fragment, and an unterminated `$(` consumes all remaining
characters as the name of the final `Variable` fragment. -/
inductive Frags : List Char → List ExprValue → Prop where
  | nil : Frags [] []
  | var (name rest : List Char) (parts : List ExprValue)
      (hname : ∀ c ∈ name, c ≠ ')') (h : Frags rest parts) :
      Frags ('$' :: '(' :: (name ++ ')' :: rest))
        (ExprValue.Variable (String.mk name) :: parts)
  | varEnd (name : List Char) (hname : ∀ c ∈ name, c ≠ ')') :
      Frags ('$' :: '(' :: name) [ExprValue.Variable (String.mk name)]
  | lit (l rest : List Char) (parts : List ExprValue) (hne : l ≠ [])
      (hnv : List.Chain' NoDP l)
      (hnext : rest = [] ∨ ∃ t, rest = '$' :: '(' :: t)
      (h : Frags rest parts) :
      Frags (l ++ rest) (ExprValue.Literal (String.mk l) :: parts)

theorem dropWhile_head_false (p : Char → Bool) :
    ∀ (l : List Char) (d : Char) (t : List Char),
    l.dropWhile p = d :: t → p d = false := by
  intro l
  induction l with
  | nil =>
    intro d t h
    exact List.noConfusion h
  | cons x xs ih =>
    intro d t h
    rw [List.dropWhile_cons] at h
    by_cases hp : p x = true
    · rw [if_pos hp] at h
      exact ih d t h
    · rw [if_neg hp] at h
      injection h with h1 h2
      subst h1
      exact Bool.eq_false_iff.mpr hp

theorem psp_aux_nil (lit : List Char) :
    psp_aux lit [] = if lit = [] then [] else [ExprValue.Literal (String.mk lit)] := by
  rw [psp_aux]

theorem psp_aux_single (lit : List Char) (c : Char) :
    psp_aux lit [c] = psp_aux (lit ++ [c]) [] := by
  conv_lhs => rw [psp_aux]

theorem psp_aux_cons2 (lit : List Char) (c1 c2 : Char) (rest : List Char) :
    psp_aux lit (c1 :: c2 :: rest) =
      if c1 = '$' ∧ c2 = '(' then
        (if lit = [] then [] else [ExprValue.Literal (String.mk lit)]) ++
          ExprValue.Variable (String.mk (rest.takeWhile (fun ch => ch ≠ ')'))) ::
            psp_aux [] ((rest.dropWhile (fun ch => ch ≠ ')')).drop 1)
      else
        psp_aux (lit ++ [c1]) (c2 :: rest) := by
  rw [psp_aux]

/-- The base case of the splitter: flush the pending literal. -/
theorem psp_aux_frags_base (lit : List Char) (hch : List.Chain' NoDP lit) :
    Frags lit (psp_aux lit []) := by
  rw [psp_aux_nil]
  by_cases hl : lit = []
  · subst hl
    rw [if_pos rfl]
    exact Frags.nil
  · rw [if_neg hl]
    have h := Frags.lit lit [] [] hl hch (Or.inl rfl) Frags.nil
    simpa using h

/-- The `$(` case of the splitter: with the recursive tail already described,
the span up to the first `)` (or the whole remainder when there is none)
becomes one `Variable` fragment. -/
theorem frags_var_core (rest : List Char)
    (hrec : Frags ((rest.dropWhile (fun ch => ch ≠ ')')).drop 1)
        (psp_aux [] ((rest.dropWhile (fun ch => ch ≠ ')')).drop 1))) :
    Frags ('$' :: '(' :: rest)
      (ExprValue.Variable (String.mk (rest.takeWhile (fun ch => ch ≠ ')'))) ::
        psp_aux [] ((rest.dropWhile (fun ch => ch ≠ ')')).drop 1)) := by
  cases hdw : rest.dropWhile (fun ch => ch ≠ ')') with
  | nil =>
    have hall := List.dropWhile_eq_nil_iff.mp hdw
    have htw : rest.takeWhile (fun ch => ch ≠ ')') = rest := by
      have h := List.takeWhile_append_dropWhile (fun ch => decide (ch ≠ ')')) rest
      rw [hdw, List.append_nil] at h
      exact h
    rw [htw]
    rw [show (List.drop 1 ([] : List Char)) = [] from rfl]
    rw [psp_aux_nil, if_pos rfl]
    exact Frags.varEnd rest (fun c hc => of_decide_eq_true (hall c hc))
  | cons d t =>
    have hd : (fun ch => decide (ch ≠ ')')) d = false :=
      dropWhile_head_false _ rest d t hdw
    have hd' : d = ')' := by simpa using hd
    subst hd'
    have hsplit : rest = rest.takeWhile (fun ch => ch ≠ ')') ++ ')' :: t := by
      conv_lhs => rw [← List.takeWhile_append_dropWhile (fun ch => decide (ch ≠ ')')) rest]
      rw [hdw]
    rw [hdw] at hrec
    rw [show (List.drop 1 (')' :: t)) = t from rfl] at hrec ⊢
    have hname : ∀ c ∈ rest.takeWhile (fun ch => ch ≠ ')'), c ≠ ')' :=
      fun c hc =>
        of_decide_eq_true (List.mem_takeWhile_imp (p := fun ch => decide (ch ≠ ')')) hc)
    have h := Frags.var (rest.takeWhile (fun ch => ch ≠ ')')) t (psp_aux [] t) hname hrec
    rw [← hsplit] at h
    exact h

theorem psp_aux_frags : ∀ (n : Nat) (cs lit : List Char), cs.length ≤ n →
    List.Chain' NoDP lit →
    (∀ x ∈ lit.getLast?, ∀ y ∈ cs.head?, NoDP x y) →
    Frags (lit ++ cs) (psp_aux lit cs) := by
  intro n
  induction n with
  | zero =>
    intro cs lit hlen hch hbnd
    have hcs : cs = [] := List.length_eq_zero.mp (Nat.le_zero.mp hlen)
    subst hcs
    rw [List.append_nil]
    exact psp_aux_frags_base lit hch
  | succ n ih =>
    intro cs lit hlen hch hbnd
    rcases cs with _ | ⟨c1, _ | ⟨c2, rest⟩⟩
    · rw [List.append_nil]
      exact psp_aux_frags_base lit hch
    · rw [psp_aux_single]
      have hch2 : List.Chain' NoDP (lit ++ [c1]) := by
        rw [List.chain'_append]
        refine ⟨hch, List.chain'_singleton c1, ?_⟩
        intro x hx y hy
        have hy' : c1 = y := by simpa using hy
        subst hy'
        exact hbnd x hx c1 (by simp)
      have h := psp_aux_frags_base (lit ++ [c1]) hch2
      exact h
    · rw [psp_aux_cons2]
      by_cases hvar : c1 = '$' ∧ c2 = '('
      · obtain ⟨h1, h2⟩ := hvar
        subst h1
        subst h2
        rw [if_pos ⟨rfl, rfl⟩]
        have hlen2 : ((rest.dropWhile (fun ch => ch ≠ ')')).drop 1).length ≤ n := by
          have ha : (rest.dropWhile (fun ch => ch ≠ ')')).length ≤ rest.length :=
            List.Sublist.length_le (List.dropWhile_sublist _)
          have hb2 : ((rest.dropWhile (fun ch => ch ≠ ')')).drop 1).length
              ≤ (rest.dropWhile (fun ch => ch ≠ ')')).length := by
            rw [List.length_drop]
            omega
          simp only [List.length_cons] at hlen
          omega
        have hrec := ih ((rest.dropWhile (fun ch => ch ≠ ')')).drop 1) []
          hlen2 List.chain'_nil (by intro x hx; simp at hx)
        rw [List.nil_append] at hrec
        have hcore := frags_var_core rest hrec
        by_cases hl : lit = []
        · subst hl
          rw [if_pos rfl]
          simpa using hcore
        · rw [if_neg hl]
          have h := Frags.lit lit ('$' :: '(' :: rest) _ hl hch
            (Or.inr ⟨rest, rfl⟩) hcore
          simpa using h
      · rw [if_neg hvar]
        have hch2 : List.Chain' NoDP (lit ++ [c1]) := by
          rw [List.chain'_append]
          refine ⟨hch, List.chain'_singleton c1, ?_⟩
          intro x hx y hy
          have hy' : c1 = y := by simpa using hy
          subst hy'
          exact hbnd x hx c1 (by simp)
        have hbnd2 : ∀ x ∈ (lit ++ [c1]).getLast?, ∀ y ∈ (c2 :: rest).head?,
            NoDP x y := by
          intro x hx y hy
          rw [List.getLast?_concat] at hx
          have hx' : c1 = x := by simpa using hx
          have hy' : c2 = y := by simpa using hy
          subst hx'
          subst hy'
          exact fun hc => hvar ⟨hc.1, hc.2⟩
        have h := ih (c2 :: rest) (lit ++ [c1])
          (by simp only [List.length_cons] at hlen ⊢; omega) hch2 hbnd2
        simpa [List.append_assoc] using h

/-- C7: splitting a quoted operand turns each `$(` … `)` span into a
`Variable` fragment named by the text between them, and every maximal run of
other characters into a `Literal` fragment, preserving source order; an
input whose `$(` has no closing `)` makes all remaining characters the name
of the final `Variable` fragment. -/
theorem parse_string_parts_fragments (s : String) :
    Frags s.data (parse_string_parts s) := by
  have h := psp_aux_frags s.data.length s.data [] le_rfl List.chain'_nil
    (by intro x hx; simp at hx)
  rw [List.nil_append] at h
  exact h
